import Mathlib

/-!
# chatHarvard core engine: a shallow embedding in Lean 4

This file embeds the course-retrieval / recommendation core of the
chatHarvard repository (`database.py`, `query_processor.py`,
`course_finder.py`, `course_recommender.py`) and settles the frozen
claims C1-C10 about it.

Modelling conventions, used consistently below:

* Python `float` values (confidences, scores, hours) are modelled as `ℚ`.
  No claim proved here depends on binary floating-point rounding.
* Python `None` / missing dict keys / pandas `NaN` are modelled with
  `Option` and, where the code distinguishes all three (`mean_hours`,
  `overall_score_course_mean`), with `Option PyFloat` whose `none` means
  "key absent" and whose `PyFloat` constructors distinguish `None`,
  `NaN` and a real number.
* Python dicts that are only read by key are modelled as functions
  `κ → Option v` / `κ → List v`; dicts that are iterated in insertion
  order (`course_dict`) are modelled as association lists, appended at
  the end exactly where the Python inserts.
* Regular-expression searches are hand-translated, pattern by pattern,
  into executable scanners over `List Char`.  The translations follow
  Python `re` semantics (leftmost match, greedy quantifiers,
  non-overlapping `finditer`); each scanner's doc comment names the
  pattern it implements.  Inputs are ASCII, so `Char.isAlpha`,
  `Char.isDigit`, `Char.isWhitespace` model `[A-Za-z]`, `\d`, `\s`.
* The external ranking capabilities (sentence-transformer /
  FAISS vector search, BM25, the hybrid fusion built on them) are
  modelled as injected oracles, as the specification's §6 prescribes:
  the engine only relies on their `query ↦ ranked course list` contract.
-/

set_option maxHeartbeats 1000000
set_option maxRecDepth 10000

namespace ChatHarvard

/-! ## Character and string utilities -/

/-- Python `\w` for ASCII input: letters, digits, underscore. -/
def isWordChar (c : Char) : Bool := c.isAlphanum || c = '_'

/-- ASCII lowercase of a string (Python `str.lower` on ASCII input). -/
def lowerStr (s : String) : String := ⟨s.data.map Char.toLower⟩

/-- ASCII uppercase of a string (Python `str.upper` on ASCII input). -/
def upperStr (s : String) : String := ⟨s.data.map Char.toUpper⟩

/-- Python `needle in hay` substring containment. -/
def containsSub (needle : List Char) : List Char → Bool
  | [] => needle.isEmpty
  | c :: rest => needle.isPrefixOf (c :: rest) || containsSub needle rest

/-- Substring containment on `String`s (`needle in hay` in Python). -/
def strContains (hay needle : String) : Bool := containsSub needle.data hay.data

/-- After a candidate word match, `\b` holds iff the text ends or the next
character is not a word character. -/
def boundaryAfter : List Char → Bool
  | [] => true
  | c :: _ => !isWordChar c

/-- Worker for `wordOccurs`: `prevW` says whether the character just before
the current position is a word character. -/
def wordOccursFrom (w : List Char) : Bool → List Char → Bool
  | _, [] => false
  | prevW, c :: rest =>
    (!prevW && w.isPrefixOf (c :: rest) && boundaryAfter ((c :: rest).drop w.length))
      || wordOccursFrom w (isWordChar c) rest

/-- Python `re.search(r'\bW\b', hay)` for a word (or phrase) `W` that starts
and ends with a word character. -/
def wordOccurs (w : String) (hay : List Char) : Bool := wordOccursFrom w.data false hay

/-- `re.search(r'\b(w1|w2|...)\b', hay)`: any alternative occurs word-bounded. -/
def wordAmong (ws : List String) (hay : List Char) : Bool := ws.any (fun w => wordOccurs w hay)

/-- `re.search('p1|p2|...', hay)` for plain-substring alternatives. -/
def subAmong (ws : List String) (hay : List Char) : Bool := ws.any (fun w => containsSub w.data hay)

/-- Worker for `pySplit`; `cur` is the current word, reversed. -/
def pySplitGo : List Char → List Char → List (List Char)
  | [], cur => if cur.isEmpty then [] else [cur.reverse]
  | c :: rest, cur =>
    if c.isWhitespace then
      if cur.isEmpty then pySplitGo rest [] else cur.reverse :: pySplitGo rest []
    else pySplitGo rest (c :: cur)

/-- Python `str.split()` (split on whitespace runs, dropping empties). -/
def pySplit (s : List Char) : List (List Char) := pySplitGo s []

/-- Python `str.strip()`: remove leading and trailing whitespace. -/
def pyStrip (s : List Char) : List Char :=
  ((s.dropWhile Char.isWhitespace).reverse.dropWhile Char.isWhitespace).reverse

/-- Python slice `s[-n:]` for a char list. -/
def takeLast (n : Nat) (s : List Char) : List Char := s.drop (s.length - n)

/-- Decimal digits to a natural number, as Python `int` on a digit string
(leading zeros are dropped by the conversion). -/
def digitsToNat (ds : List Char) : Nat :=
  ds.foldl (fun acc c => acc * 10 + (c.toNat - '0'.toNat)) 0

/-- Python `float` of a digit string with an optional fractional part,
as captured by `(\d+(?:\.\d+)?)`. -/
def digitsToRat (intPart : List Char) (fracPart : List Char) : ℚ :=
  (digitsToNat intPart : ℚ) + (digitsToNat fracPart : ℚ) / (10 ^ fracPart.length : ℚ)

/-- Render a natural number (used where Python interpolates an `int`). -/
def natStr (n : Nat) : String := toString n

/-- Render a rational where Python would render a `float`.  The engine only
ever renders values with small decimal expansions; for the claims proved
here only equality of renderings of equal values matters, so we render
`q` in lowest terms as `num/den` with a `.0` shorthand for integers. -/
def ratStr (q : ℚ) : String :=
  if q.den = 1 then toString q.num ++ ".0"
  else toString q.num ++ "/" ++ toString q.den

/-! ## A generic `re.finditer` combinator

`scanGo f s` mirrors how Python's regex engine finds non-overlapping
matches: try to match at the current position; on success emit the match
and resume right after its end, on failure advance one character.  The
position matcher `f` returns the match value together with the number of
characters the match consumed (always ≥ 1 for the patterns below; the
`max k 1` only serves termination). -/

def scanGoF (f : List Char → Option (α × Nat)) : Nat → List Char → List α
  | _, [] => []
  | 0, _ :: _ => []
  | Nat.succ fuel, c :: rest =>
    match f (c :: rest) with
    | some (a, k) => a :: scanGoF f fuel ((c :: rest).drop (max k 1))
    | none => scanGoF f fuel rest

/-- The scan at fuel `l.length`; each step consumes at least one
character, so the fuel never runs out. -/
def scanGo (f : List Char → Option (α × Nat)) (l : List Char) : List α :=
  scanGoF f l.length l

/-- `re.search` in terms of `re.finditer`: the first match, if any. -/
def scanFirst (f : List Char → Option (α × Nat)) (s : List Char) : Option α :=
  (scanGo f s).head?

/-! ## Scanners for the concrete patterns used by the repository -/

/-- Position matcher for `([A-Za-z]{m,})\s*(\d+)` (with `m = 1` this is the
ubiquitous `([A-Za-z]+)\s*(\d+)` course-code pattern): a maximal letter run
of length ≥ `m`, optional whitespace, then a maximal digit run. -/
def matchDeptNum (minLen : Nat) (s : List Char) : Option ((List Char × List Char) × Nat) :=
  let letters := s.takeWhile Char.isAlpha
  if letters.length = 0 || letters.length < minLen then none
  else
    let afterL := s.drop letters.length
    let spaces := afterL.takeWhile Char.isWhitespace
    let afterS := afterL.drop spaces.length
    let ds := afterS.takeWhile Char.isDigit
    if ds.length = 0 then none
    else some ((letters, ds), letters.length + spaces.length + ds.length)

/-- All matches of `([A-Za-z]{m,})\s*(\d+)` as (letters, digits) pairs. -/
def findAllDeptNum (minLen : Nat) (s : List Char) : List (List Char × List Char) :=
  scanGo (matchDeptNum minLen) s

/-- `re.search(r'([A-Za-z]+)\s*(\d+)', s)`: the first match. -/
def findDeptNum (s : List Char) : Option (List Char × List Char) :=
  scanFirst (matchDeptNum 1) s

/-- All matches of `\b(\d+)\b` with their surrounding text:
`(text before the match, the digit run, text after the match)`.
`revPre` carries the characters already passed, reversed. -/
def bareNumGoF : Nat → List Char → List Char → List (List Char × List Char × List Char)
  | _, _, [] => []
  | 0, _, _ :: _ => []
  | Nat.succ fuel, revPre, c :: rest =>
    let prevBoundary := match revPre.head? with
      | none => true
      | some p => !isWordChar p
    if c.isDigit && prevBoundary then
      let ds := (c :: rest).takeWhile Char.isDigit
      let k := max ds.length 1
      let after := (c :: rest).drop k
      if boundaryAfter after then
        (revPre.reverse, ds, after) :: bareNumGoF fuel (ds.reverse ++ revPre) after
      else
        bareNumGoF fuel (c :: revPre) rest
    else
      bareNumGoF fuel (c :: revPre) rest

/-- The scan at fuel `l.length`. -/
def bareNumGo (revPre l : List Char) : List (List Char × List Char × List Char) :=
  bareNumGoF l.length revPre l

/-- `re.finditer(r'\b(\d+)\b', s)` with context. -/
def bareNumMatches (s : List Char) : List (List Char × List Char × List Char) :=
  bareNumGo [] s

/-- `re.findall(r'\b(20\d{2})\b', s)`: four-digit years starting `20`,
word-bounded.  A word-bounded digit group of the fixed shape `20\d{2}`
is exactly a word-bounded maximal digit run of length 4 starting `20`. -/
def yearMatches (s : List Char) : List (List Char) :=
  (bareNumMatches s).filterMap fun (_, ds, _) =>
    if ds.length = 4 && ds.take 2 = ['2', '0'] then some ds else none

/-- All matches of `\b([A-Z]{2,})\b`: maximal uppercase runs of length ≥ 2
whose neighbours are not word characters. `prevW`: previous char is a word
character. -/
def abbrevGoF : Nat → Bool → List Char → List (List Char)
  | _, _, [] => []
  | 0, _, _ :: _ => []
  | Nat.succ fuel, prevW, c :: rest =>
    if c.isUpper && !prevW then
      let run := (c :: rest).takeWhile Char.isUpper
      let k := max run.length 1
      let after := (c :: rest).drop k
      if decide (2 ≤ run.length) && boundaryAfter after then
        run :: abbrevGoF fuel true after
      else
        abbrevGoF fuel true rest
    else
      abbrevGoF fuel (isWordChar c) rest

/-- The scan at fuel `l.length`. -/
def abbrevGo (prevW : Bool) (l : List Char) : List (List Char) :=
  abbrevGoF l.length prevW l

/-- `re.findall(r'\b([A-Z]{2,})\b', s)`. -/
def abbrevMatches (s : List Char) : List (List Char) := abbrevGo false s

/-- Position matcher for `(\d+)s\b`: a maximal digit run, the letter `s`,
then a word boundary. -/
def matchDigitsS (s : List Char) : Option (List Char × Nat) :=
  let ds := s.takeWhile Char.isDigit
  if ds.length = 0 then none
  else
    match s.drop ds.length with
    | 's' :: rest2 => if boundaryAfter rest2 then some (ds, ds.length + 1) else none
    | _ => none

/-- Position matcher for `(\d+)0s\b`: backtracking leaves the group as the
digit run without its final `0`. -/
def matchDigitsZeroS (s : List Char) : Option (List Char × Nat) :=
  let ds := s.takeWhile Char.isDigit
  if decide (2 ≤ ds.length) && ds.getLast? = some '0' then
    match s.drop ds.length with
    | 's' :: rest2 => if boundaryAfter rest2 then some (ds.dropLast, ds.length + 1) else none
    | _ => none
  else none

/-- Position matcher for `(\d+)-level`. -/
def matchDashLevel (s : List Char) : Option (List Char × Nat) :=
  let ds := s.takeWhile Char.isDigit
  if ds.length = 0 then none
  else if "-level".data.isPrefixOf (s.drop ds.length) then
    some (ds, ds.length + 6)
  else none

/-- Position matcher for `level (\d+)`. -/
def matchLevelSpace (s : List Char) : Option (List Char × Nat) :=
  if "level ".data.isPrefixOf s then
    let ds := (s.drop 6).takeWhile Char.isDigit
    if ds.length = 0 then none else some (ds, 6 + ds.length)
  else none

/-- Position matcher for `(\d+) level`. -/
def matchSpaceLevel (s : List Char) : Option (List Char × Nat) :=
  let ds := s.takeWhile Char.isDigit
  if ds.length = 0 then none
  else if " level".data.isPrefixOf (s.drop ds.length) then
    some (ds, ds.length + 6)
  else none

/-- `\s-` character class used by the explicit-range patterns. -/
def isSpaceDash (c : Char) : Bool := c.isWhitespace || c = '-'

/-- Position matcher for `(\d+)[\s-]+W[\s-]+(\d+)` with a literal word `W`
(`to` / `through`).  The separator runs cannot absorb the word's letters,
so the pattern matches iff the maximal separator runs are nonempty and the
word sits between them. -/
def matchRangeWord (w : List Char) (s : List Char) : Option ((List Char × List Char) × Nat) :=
  let d1 := s.takeWhile Char.isDigit
  if d1.length = 0 then none
  else
    let s1 := s.drop d1.length
    let sep1 := s1.takeWhile isSpaceDash
    if sep1.length = 0 then none
    else
      let s2 := s1.drop sep1.length
      if w.isPrefixOf s2 then
        let s3 := s2.drop w.length
        let sep2 := s3.takeWhile isSpaceDash
        if sep2.length = 0 then none
        else
          let s4 := s3.drop sep2.length
          let d2 := s4.takeWhile Char.isDigit
          if d2.length = 0 then none
          else some ((d1, d2),
            d1.length + sep1.length + w.length + sep2.length + d2.length)
      else none

/-- Position matcher for `(\d+)[\s-]*-[\s-]*(\d+)`: the gap between the two
digit runs consists of `[\s-]` characters, contains at least one `-`, and
is immediately followed by digits. -/
def matchRangeDash (s : List Char) : Option ((List Char × List Char) × Nat) :=
  let d1 := s.takeWhile Char.isDigit
  if d1.length = 0 then none
  else
    let s1 := s.drop d1.length
    let sep := s1.takeWhile isSpaceDash
    if sep.length = 0 || !sep.contains '-' then none
    else
      let s2 := s1.drop sep.length
      let d2 := s2.takeWhile Char.isDigit
      if d2.length = 0 then none
      else some ((d1, d2), d1.length + sep.length + d2.length)

/-- Position matcher for `between (\d+) and (\d+)`. -/
def matchBetweenAnd (s : List Char) : Option ((List Char × List Char) × Nat) :=
  if "between ".data.isPrefixOf s then
    let s1 := s.drop 8
    let d1 := s1.takeWhile Char.isDigit
    if d1.length = 0 then none
    else
      let s2 := s1.drop d1.length
      if " and ".data.isPrefixOf s2 then
        let s3 := s2.drop 5
        let d2 := s3.takeWhile Char.isDigit
        if d2.length = 0 then none
        else some ((d1, d2), 8 + d1.length + 5 + d2.length)
      else none
  else none

/-- Position matcher for `{needle}\s*(\d+)` with a literal `needle`
(used with a lower-cased department name interpolated into the pattern). -/
def matchNeedleDigits (needle : List Char) (s : List Char) : Option (List Char × Nat) :=
  if needle.isPrefixOf s then
    let s1 := s.drop needle.length
    let spaces := s1.takeWhile Char.isWhitespace
    let s2 := s1.drop spaces.length
    let ds := s2.takeWhile Char.isDigit
    if ds.length = 0 then none
    else some (ds, needle.length + spaces.length + ds.length)
  else none

/-- `re.search(f'{dept}\\s*{num}', s)` with literal `dept` letters and a
literal digit string `num` (no trailing boundary). -/
def seqNumExists (dept num : List Char) : List Char → Bool
  | [] => (dept ++ num).isEmpty
  | c :: rest =>
    (dept.isPrefixOf (c :: rest)
        && num.isPrefixOf (((c :: rest).drop dept.length).dropWhile Char.isWhitespace))
      || seqNumExists dept num rest

/-- Position matcher for `\b([FS])(\d{2})\b` (season short forms).  `prev`
boundary is handled by the caller; since the engine runs this over the
lower-cased query, the character class `[FS]` never matches — the scanner
is still modelled faithfully. -/
def matchShortForm (prevW : Bool) (s : List Char) : Option ((Char × List Char) × Nat) :=
  match s with
  | c :: rest =>
    if (c = 'F' || c = 'S') && !prevW then
      match rest with
      | d1 :: d2 :: rest2 =>
        if d1.isDigit && d2.isDigit && boundaryAfter rest2 then
          some ((c, [d1, d2]), 3)
        else none
      | _ => none
    else none
  | [] => none

/-- All matches of `\b([FS])(\d{2})\b`, tracking the previous character. -/
def shortFormGoF : Nat → Bool → List Char → List (Char × List Char)
  | _, _, [] => []
  | 0, _, _ :: _ => []
  | Nat.succ fuel, prevW, c :: rest =>
    match matchShortForm prevW (c :: rest) with
    | some (a, k) => a :: shortFormGoF fuel true ((c :: rest).drop (max k 1))
    | none => shortFormGoF fuel (isWordChar c) rest

/-- The scan at fuel `l.length`. -/
def shortFormGo (prevW : Bool) (l : List Char) : List (Char × List Char) :=
  shortFormGoF l.length prevW l

/-- `re.finditer(r'\b([FS])(\d{2})\b', s)`. -/
def shortFormMatches (s : List Char) : List (Char × List Char) := shortFormGo false s

/-! ## Python-style stable sorts

`list.sort` / `sorted` in Python are stable; `reverse=True` keeps equal
elements in their original order.  Both are reproduced by insertion sorts
with strict comparisons. -/

/-- Insert for the ascending stable sort. -/
def insertAsc (f : α → ℚ) (x : α) : List α → List α
  | [] => [x]
  | y :: ys => if f x < f y then x :: y :: ys else y :: insertAsc f x ys

/-- Python `sorted(l, key=f)`: ascending, stable. -/
def pySortAsc (f : α → ℚ) (l : List α) : List α :=
  l.foldl (fun acc x => insertAsc f x acc) []

/-- Insert for the descending stable sort. -/
def insertDesc (f : α → ℚ) (x : α) : List α → List α
  | [] => [x]
  | y :: ys => if f y < f x then x :: y :: ys else y :: insertDesc f x ys

/-- Python `sorted(l, key=f, reverse=True)`: descending, stable. -/
def pySortDesc (f : α → ℚ) (l : List α) : List α :=
  l.foldl (fun acc x => insertDesc f x acc) []

/-- Lexicographic comparison of char lists by code point (Python `<` on
strings, as used by `sorted` on lists of strings). -/
def charListLt : List Char → List Char → Bool
  | [], [] => false
  | [], _ :: _ => true
  | _ :: _, [] => false
  | a :: as', b :: bs' => a.toNat < b.toNat || (a = b && charListLt as' bs')

/-- Insert for the string sort. -/
def insertStr (x : String) : List String → List String
  | [] => [x]
  | y :: ys => if charListLt x.data y.data then x :: y :: ys else y :: insertStr x ys

/-- Python `sorted` on a list of strings. -/
def pySortStr (l : List String) : List String :=
  l.foldl (fun acc x => insertStr x acc) []

/-- Insert for sorting `(int, int)` pairs lexicographically. -/
def insertPair (x : Nat × Nat) : List (Nat × Nat) → List (Nat × Nat)
  | [] => [x]
  | y :: ys =>
    if x.1 < y.1 || (x.1 = y.1 && x.2 < y.2) then x :: y :: ys else y :: insertPair x ys

/-- Python `sorted` on a list of int pairs (tuple order). -/
def pySortPairs (l : List (Nat × Nat)) : List (Nat × Nat) :=
  l.foldl (fun acc x => insertPair x acc) []

/-! ## Data model

`PyFloat` models the value found under a numeric column of a course
record: Python `None`, a pandas `NaN`, or an actual number.  A field of
type `Option PyFloat` additionally distinguishes a missing key (`none`).
The code paths embedded below treat the three non-value states
differently (`is None`, `pd.isna`, truthiness), which is why all three
are kept apart. -/

inductive PyFloat where
  | pynone
  | pynan
  | pyval (q : ℚ)
deriving DecidableEq, Repr

/-- `pd.isna(v)` (true for both `None` and `NaN`). -/
def PyFloat.isna : PyFloat → Bool
  | .pynone => true
  | .pynan => true
  | .pyval _ => false

/-- Python truthiness of the value (`None` and `0.0` are falsy, `NaN` is
truthy). -/
def PyFloat.truthy : PyFloat → Bool
  | .pynone => false
  | .pynan => true
  | .pyval q => decide (q ≠ 0)

/-- Truthiness of `course.get(key)` for a numeric column. -/
def optTruthy : Option PyFloat → Bool
  | none => false
  | some v => v.truthy

/-- The value found under a string column of a course record: a string,
or a pandas `NaN` (a `float`, on which string methods raise
`AttributeError`).  A field of type `Option PyStr` additionally
distinguishes a missing key (`none`). -/
inductive PyStr where
  | pynan
  | pystr (s : String)
deriving DecidableEq, Repr

/-- `isinstance(v, str)` filtering of a string column: the string if the
value is one, `none` for `NaN` or a missing key. -/
def strOfTerm : Option PyStr → Option String
  | some (.pystr s) => some s
  | _ => none

/-- The f-string rendering of a string-column value (`NaN` prints as
`nan`). -/
def PyStr.disp : PyStr → String
  | .pynan => "nan"
  | .pystr s => s

/-- One course record as stored in `HarvardDatabase.course_dict` — the
`row.to_dict()` of an ingested course row, merged with the Q-report
columns (`mean_hours`, `overall_score_course_mean`, `comments`).
Fields the embedded code never distinguishes beyond string-or-absent are
`Option String` (`none` covers a missing key, `None`, and a non-string
`NaN`).  The `term` field is `Option PyStr` because the code's behaviour
on a `NaN` term is observable: `_find_courses_by_term` calls `.lower()`
on the raw value and raises `AttributeError` (see C6). -/
structure Course where
  course_id : Nat
  class_tag : Option String := none
  class_name : Option String := none
  term : Option PyStr := none
  description : Option String := none
  course_requirements : Option String := none
  department : Option String := none
  subject : Option String := none
  mean_hours : Option PyFloat := none
  overall_score_course_mean : Option PyFloat := none
  comments : Option String := none
  days : Option String := none
  start_times : Option String := none
  end_times : Option String := none
deriving DecidableEq, Repr

/-- One raw row of the courses dataframe.  `course_id`/`class_name` are
`Option` so that `dropna(subset=['class_name', 'course_id'])` can be
modelled. -/
structure Row where
  course_id : Option Nat := none
  class_name : Option String := none
  class_tag : Option String := none
  term : Option PyStr := none
  description : Option String := none
  course_requirements : Option String := none
  department : Option String := none
  subject : Option String := none
  mean_hours : Option PyFloat := none
  overall_score_course_mean : Option PyFloat := none
  comments : Option String := none
  days : Option String := none
  start_times : Option String := none
  end_times : Option String := none
deriving DecidableEq, Repr

/-- `row.to_dict()` for a row that passed `dropna` with id `cid`. -/
def Row.toCourse (r : Row) (cid : Nat) : Course :=
  { course_id := cid
    class_tag := r.class_tag
    class_name := r.class_name
    term := r.term
    description := r.description
    course_requirements := r.course_requirements
    department := r.department
    subject := r.subject
    mean_hours := r.mean_hours
    overall_score_course_mean := r.overall_score_course_mean
    comments := r.comments
    days := r.days
    start_times := r.start_times
    end_times := r.end_times }

/-- First-match lookup in an insertion-ordered dict. -/
def dictLookup : List (Nat × Course) → Nat → Option Course
  | [], _ => none
  | (k, v) :: rest, i => if k = i then some v else dictLookup rest i

/-- `cid in course_dict`. -/
def dictContains (l : List (Nat × Course)) (i : Nat) : Bool := (dictLookup l i).isSome

/-- In-place update of the value stored under an existing key (dict
assignment keeps the key's position). -/
def dictUpdate : List (Nat × Course) → Nat → Course → List (Nat × Course)
  | [], _, _ => []
  | (k, v) :: rest, i, c => if k = i then (k, c) :: rest else (k, v) :: dictUpdate rest i c

/-- First-match lookup of a course's Q-report `mean_hours`
(`q_reports_df[q_reports_df['course_id'] == cid]['mean_hours'].iloc[0]`). -/
def qLookup : List (Nat × PyFloat) → Nat → Option PyFloat
  | [], _ => none
  | (k, v) :: rest, i => if k = i then some v else qLookup rest i

/-- The lookup state of `HarvardDatabase` after `process_courses`.
Read-only dicts are functions; `course_dict` is an insertion-ordered
association list because the code iterates `course_dict.items()`.
`q_reports` models the `mean_hours` column of `q_reports_df`, which
`CourseFinder` reads directly. -/
structure HarvardDB where
  course_dict : List (Nat × Course) := []
  dept_course_dict : String × Nat → List Nat := fun _ => []
  course_by_code : String → Option Nat := fun _ => none
  course_by_name : String → Option Nat := fun _ => none
  courses_by_level : String × Nat → List Nat := fun _ => []
  courses_by_term : String → List Nat := fun _ => []
  processed_ids : List Nat := []
  q_reports : List (Nat × PyFloat) := []

/-- The normalized course code built by `process_courses`:
`f"{dept} {num}"` with `dept = match.group(1).upper()` and
`num = int(match.group(2))`. -/
def normCode (d : List Char) (nds : List Char) : String :=
  String.mk (d.map Char.toUpper) ++ " " ++ toString (digitsToNat nds)

/-- `process_courses` loop body, part 1: record the id as processed and
store `row.to_dict()` in `course_dict`. -/
def insertCourse (db : HarvardDB) (cid : Nat) (row : Row) : HarvardDB :=
  { db with
    processed_ids := cid :: db.processed_ids
    course_dict := db.course_dict ++ [(cid, row.toCourse cid)] }

/-- `process_courses` loop body, part 2: when `class_tag` is a string that
parses as department + number, index the id under the code, the
`(dept, num)` pair, and the `(dept, decade)` level bucket. -/
def tagUpdate (db : HarvardDB) (cid : Nat) : Option String → HarvardDB
  | some tag =>
    match findDeptNum tag.data with
    | some (d, nds) =>
      let dept := String.mk (d.map Char.toUpper)
      let num := digitsToNat nds
      let code := dept ++ " " ++ toString num
      let lvl := num / 10 * 10
      { db with
        dept_course_dict := fun k =>
          if k = (dept, num) then db.dept_course_dict k ++ [cid]
          else db.dept_course_dict k
        course_by_code := fun s => if s = code then some cid else db.course_by_code s
        courses_by_level := fun k =>
          if k = (dept, lvl) then db.courses_by_level k ++ [cid]
          else db.courses_by_level k }
    | none => db
  | none => db

/-- `process_courses` loop body, part 3: index a nonempty `class_name`. -/
def nameUpdate (db : HarvardDB) (cid : Nat) : Option String → HarvardDB
  | some nm =>
    if nm ≠ "" then
      { db with
        course_by_name := fun s => if s = lowerStr nm then some cid else db.course_by_name s }
    else db
  | none => db

/-- `process_courses` loop body, part 4: index a nonempty string `term`
(`if isinstance(term, str) and term:` — callers pass the field through
`strOfTerm`, which performs the `isinstance` check). -/
def termUpdate (db : HarvardDB) (cid : Nat) : Option String → HarvardDB
  | some t =>
    if t ≠ "" then
      { db with
        courses_by_term := fun s =>
          if s = t then db.courses_by_term s ++ [cid] else db.courses_by_term s }
    else db
  | none => db

/-- The body of the `process_courses` loop for one (already `dropna`-kept)
row; rows with a missing `course_id` or `class_name` are the dropped
ones, and ids seen before are skipped. -/
def processRow (db : HarvardDB) (row : Row) : HarvardDB :=
  match row.course_id, row.class_name with
  | some cid, some _ =>
    if cid ∈ db.processed_ids then db
    else
      termUpdate (nameUpdate (tagUpdate (insertCourse db cid row) cid row.class_tag)
        cid row.class_name) cid (strOfTerm row.term)
  | _, _ => db

/-- `HarvardDatabase.process_courses` over the whole courses dataframe. -/
def process_courses (rows : List Row) (db : HarvardDB) : HarvardDB :=
  rows.foldl processRow db

/-- A database built from raw course rows and a Q-report `mean_hours`
table. -/
def mkDatabase (rows : List Row) (q : List (Nat × PyFloat)) : HarvardDB :=
  process_courses rows { q_reports := q }

/-! ## `HarvardDatabase` lookups -/

/-- `get_course_by_id`. -/
def get_course_by_id (db : HarvardDB) (cid : Nat) : Option Course :=
  dictLookup db.course_dict cid

/-- `get_course_by_code`: a plain dict `get` on the code string, guarded
by Python truthiness of the found id (`if course_id:` — id `0` falls
through to `return None`). -/
def get_course_by_code (db : HarvardDB) (code : String) : Option Course :=
  match db.course_by_code code with
  | some cid => if cid ≠ 0 then get_course_by_id db cid else none
  | none => none

/-- `get_courses_by_level`. -/
def get_courses_by_level (db : HarvardDB) (dept : String) (level : Nat) : List Course :=
  (db.courses_by_level (dept, level)).filterMap fun cid =>
    if dictContains db.course_dict cid then get_course_by_id db cid else none

/-- The decades visited by
`range((start_level // 10) * 10, ((end_level // 10) + 1) * 10, 10)`. -/
def decadeList (s e : Nat) : List Nat :=
  (List.range (e / 10 + 1 - s / 10)).map (fun i => (s / 10 + i) * 10)

/-- `get_courses_by_level_range`: visit each decade bucket and keep the
courses whose number, re-parsed from `class_tag`, lies in
`[start_level, end_level]`. -/
def get_courses_by_level_range (db : HarvardDB) (dept : String) (s e : Nat) : List Course :=
  (decadeList s e).foldl
    (fun acc lvl =>
      acc ++ ((db.courses_by_level (dept, lvl)).filterMap fun cid =>
        match get_course_by_id db cid with
        | some c =>
          match findDeptNum (c.class_tag.getD "").data with
          | some (_, nds) =>
            let n := digitsToNat nds
            if s ≤ n ∧ n ≤ e then some c else none
          | none => none
        | none => none))
    []

/-- `get_courses_by_term`: an exact dict lookup of the term string. -/
def get_courses_by_term (db : HarvardDB) (t : String) : List Course :=
  (db.courses_by_term t).filterMap fun cid =>
    if dictContains db.course_dict cid then get_course_by_id db cid else none

/-! ## `HarvardDatabase.filter_courses` and its helper predicates -/

/-- `HarvardDatabase._course_matches_dept`. -/
def course_matches_dept_db (c : Course) (dept : String) : Bool :=
  match c.class_tag with
  | some tag => strContains (upperStr tag) (upperStr dept)
  | none => false

/-- `HarvardDatabase._course_matches_level`. -/
def course_matches_level_db (c : Course) (level : Nat) : Bool :=
  match c.class_tag with
  | some tag =>
    match findDeptNum tag.data with
    | some (_, nds) => digitsToNat nds / 10 * 10 = level
    | none => false
  | none => false

/-- `HarvardDatabase._course_matches_term` (guarded by
`isinstance(course['term'], str)`, so a `NaN` term never matches). -/
def course_matches_term_db (c : Course) (t : String) : Bool :=
  match c.term with
  | some (.pystr ct) => strContains (lowerStr ct) (lowerStr t)
  | _ => false

/-- `HarvardDatabase._course_above_min_score`. -/
def course_above_min_score_db (c : Course) (ms : ℚ) : Bool :=
  match c.overall_score_course_mean with
  | some (.pyval q) => decide (ms ≤ q)
  | _ => false

/-- `HarvardDatabase._course_below_max_hours`. -/
def course_below_max_hours_db (c : Course) (mh : ℚ) : Bool :=
  match c.mean_hours with
  | some (.pyval q) => decide (q ≤ mh)
  | _ => true

/-- Python truthiness of an optional string argument. -/
def truthyStrOpt : Option String → Bool
  | none => false
  | some s => s ≠ ""

/-- Python truthiness of an optional int argument. -/
def truthyNatOpt : Option Nat → Bool
  | none => false
  | some n => n ≠ 0

/-- Python truthiness of an optional float argument. -/
def truthyRatOpt : Option ℚ → Bool
  | none => false
  | some q => q ≠ 0

/-- `HarvardDatabase.filter_courses`: iterate `course_dict.items()` and
keep the courses passing every *truthy* criterion (`if dept and ...`,
`if level and ...`, `if term and ...`, `if min_score and ...`,
`if max_hours and ...`). -/
def filter_courses (db : HarvardDB) (dept : Option String) (level : Option Nat)
    (term : Option String) (min_score max_hours : Option ℚ) : List Course :=
  (db.course_dict.map Prod.snd).filter fun c =>
    (!truthyStrOpt dept || course_matches_dept_db c (dept.getD "")) &&
    (!truthyNatOpt level || course_matches_level_db c (level.getD 0)) &&
    (!truthyStrOpt term || course_matches_term_db c (term.getD "")) &&
    (!truthyRatOpt min_score || course_above_min_score_db c (min_score.getD 0)) &&
    (!truthyRatOpt max_hours || course_below_max_hours_db c (max_hours.getD 0))

/-! ## External capabilities (spec §6)

Embedding / BM25 / FAISS internals are out of scope for the engine; per
the specification they are injected collaborators with a
`query ↦ ranked course list` contract that may fail.  `vector_ok`
models `SENTENCE_TRANSFORMERS_AVAILABLE and FAISS_AVAILABLE and
self.model is not None` (with a built index); an `Except.error` models
an exception raised inside the capability, which
`HarvardDatabase.vector_search` catches.  `hybrid_search` is the
database's hybrid retrieval entry point, likewise treated as a
capability. -/
structure Oracles where
  vector_ok : Bool
  vector_search_capability : String → Nat → Except Unit (List Course)
  hybrid_search : String → Nat → List Course

/-- `HarvardDatabase.vector_search`: empty on missing dependencies, empty
on an internal exception, otherwise the capability's ranking. -/
def vector_search (orc : Oracles) (q : String) (k : Nat) : List Course :=
  if orc.vector_ok then
    match orc.vector_search_capability q k with
    | .ok l => l
    | .error _ => []
  else []

/-- Sort key of the fallback path of
`HarvardDatabase.find_similar_courses` (`0` for a missing/NaN score,
`-float(score)` otherwise; ascending sort then ranks by score). -/
def similarSortKey (c : Course) : ℚ :=
  match c.overall_score_course_mean with
  | some (.pyval q) => -q
  | _ => 0

/-- `HarvardDatabase.find_similar_courses`. -/
def find_similar_courses (db : HarvardDB) (orc : Oracles) (code : String) (k : Nat) :
    List Course :=
  match get_course_by_code db code with
  | none => []
  | some src =>
    let fallback : List Course :=
      match findDeptNum code.data with
      | none => []
      | some (d, nds) =>
        let dept := String.mk d
        let num := digitsToNat nds
        let lvl := num / 10 * 10
        let level_courses := get_courses_by_level_range db dept lvl (lvl + 9)
        let sims := level_courses.filter fun c => c.class_tag ≠ src.class_tag
        (pySortAsc similarSortKey sims).take k
    if orc.vector_ok then
      let course_text :=
        (match src.class_name with | some n => n ++ " " | none => "") ++
        (match src.description with | some dsc => dsc | none => "")
      if course_text ≠ "" then
        ((vector_search orc course_text (k + 1)).filter
          fun c => c.class_tag ≠ src.class_tag).take k
      else fallback
    else fallback

/-! ## QueryProcessor data model -/

/-- One message of the chat history. -/
structure ChatMsg where
  role : String
  content : String
deriving DecidableEq, Repr

/-- The `constraints` sub-dict of a query info. -/
structure Constraints where
  max_hours : Option ℚ := none
  min_score : Option ℚ := none
deriving DecidableEq, Repr

/-- `self.confidence` of `QueryProcessor` (eight fixed keys). -/
structure ConfScores where
  intent : ℚ := 0
  departments : ℚ := 0
  course_levels : ℚ := 0
  course_codes : ℚ := 0
  terms : ℚ := 0
  constraints : ℚ := 0
  preferences : ℚ := 0
  is_followup : ℚ := 0
deriving DecidableEq, Repr

/-- `self.self_reflection` of `QueryProcessor`. -/
structure Reflection where
  missing_information : List String := []
  ambiguities : List String := []
  verification_needed : List String := []
deriving DecidableEq, Repr

/-- The `semantic_aspects` sub-dict. -/
structure SemanticAspects where
  difficulty : Option String := none
  interest_level : Option String := none
  relevance : Option String := none
  format : Option String := none
deriving DecidableEq, Repr

/-- The `query_info` dictionary returned by `QueryProcessor.process` and
consumed by `CourseFinder` / `CourseRecommender`. -/
structure QueryInfo where
  original_query : String := ""
  departments : List String := []
  course_levels : List (Nat × Nat) := []
  course_codes : List String := []
  terms : List String := []
  constraints : Constraints := {}
  is_followup : Bool := false
  referenced_courses : List String := []
  preferences : List String := []
  intent : String := "unknown"
  confidence_scores : ConfScores := {}
  self_reflection : Reflection := {}
  semantic_aspects : SemanticAspects := {}
  implicit_preferences : List String := []
deriving DecidableEq, Repr

/-- Substring matcher (`re.search` of a literal pattern). -/
def sub (w : String) : List Char → Bool := fun ql => containsSub w.data ql

/-! ## `QueryProcessor._is_followup_question` -/

/-- The `followup_indicators` table (pattern, weight). -/
def followupIndicators : List ((List Char → Bool) × ℚ) :=
  [ (wordOccurs "it", 0.6), (wordOccurs "that", 0.7), (wordOccurs "those", 0.75),
    (wordOccurs "this", 0.65), (wordOccurs "the course", 0.8), (wordOccurs "compare", 0.7),
    (wordOccurs "between", 0.6), (wordOccurs "instead", 0.75),
    (fun s => "what about".data.isPrefixOf s, 0.9),
    (fun s => "how about".data.isPrefixOf s, 0.9),
    (wordOccurs "also", 0.6), (wordOccurs "too", 0.6), (wordOccurs "another", 0.7),
    (wordOccurs "similar", 0.65),
    (fun s => wordOccurs "alternative" s || wordOccurs "alternatives" s, 0.8) ]

/-- `QueryProcessor._is_followup_question`. -/
def is_followup_question (chat_history : List ChatMsg) (ql : List Char) : Bool × ℚ :=
  let step1 := followupIndicators.foldl
    (fun (acc : Bool × ℚ) p => if p.1 ql then (true, max acc.2 p.2) else acc) (false, 0)
  let n := (pySplit ql).length
  let step2 :=
    if n ≤ 5 then (true, max step1.2 (0.5 + 0.1 * ((5 - n : Nat) : ℚ))) else step1
  if 2 ≤ chat_history.length ∧ (chat_history.getLast?.map ChatMsg.role) = some "assistant" then
    let lastMsg := lowerStr ((chat_history.getLast?.map ChatMsg.content).getD "")
    (findAllDeptNum 1 lastMsg.data).foldl
      (fun (acc : Bool × ℚ) dn =>
        if seqNumExists dn.1 dn.2 ql then (true, max acc.2 0.85) else acc)
      step2
  else step2

/-! ## `QueryProcessor._extract_intent` -/

/-- Score one intent's cue table: `max` of the weights of the matching
cues, `none` when no cue fires (the key is absent from `intent_scores`). -/
def scoreIntent (pats : List ((List Char → Bool) × ℚ)) (ql : List Char) : Option ℚ :=
  pats.foldl (fun acc p => if p.1 ql then some (max (acc.getD 0) p.2) else acc) none

/-- Cues for `course_recommendation` (plain substring patterns). -/
def recPats : List ((List Char → Bool) × ℚ) :=
  [ (sub "recommend", 0.9), (sub "suggest", 0.9), (sub "best", 0.8), (sub "good", 0.7),
    (sub "appropriate", 0.7), (sub "what should", 0.8),
    (subAmong ["which course", "which class"], 0.85), (sub "advise", 0.9), (sub "easy", 0.6),
    (sub "take", 0.75), (sub "options", 0.7), (sub "alternatives", 0.7),
    (sub "chillest", 0.85), (sub "manageable", 0.75), (sub "interesting", 0.6),
    (sub "fun", 0.6) ]

/-- Cues for `course_information`. -/
def infoPats : List ((List Char → Bool) × ℚ) :=
  [ (sub "what is", 0.7), (sub "tell me about", 0.85), (sub "details", 0.8),
    (sub "information about", 0.9), (sub "describe", 0.85), (sub "explain", 0.8),
    (sub "learn about", 0.75), (sub "syllabus", 0.9), (sub "professor", 0.7),
    (sub "instructor", 0.7), (sub "taught by", 0.8), (sub "reading", 0.6),
    (sub "topics", 0.7), (sub "assignments", 0.8), (sub "prerequisites", 0.8) ]

/-- Cues for `requirements`. -/
def reqPats : List ((List Char → Bool) × ℚ) :=
  [ (sub "requirement", 0.9), (sub "required", 0.9), (sub "need to take", 0.85),
    (sub "have to take", 0.85), (sub "fulfill", 0.8), (sub "satisfy", 0.8),
    (sub "complete", 0.7), (sub "concentration", 0.75), (sub "major", 0.75),
    (sub "minor", 0.75), (sub "degree", 0.8), (sub "program", 0.7),
    (subAmong ["graduate", "graduation"], 0.8), (sub "credit", 0.75) ]

/-- Cues for `comparison`. -/
def cmpPats : List ((List Char → Bool) × ℚ) :=
  [ (sub "compare", 0.9), (sub "difference", 0.85), (sub "better", 0.8), (sub "easier", 0.8),
    (sub "harder", 0.8), (sub "versus", 0.9), (sub "vs", 0.9), (sub "or", 0.6),
    (sub "similar", 0.7), (sub "between", 0.8) ]

/-- Cues for `schedule_planning`. -/
def schedPats : List ((List Char → Bool) × ℚ) :=
  [ (sub "schedule", 0.85), (sub "timetable", 0.85), (sub "conflict", 0.8),
    (sub "overlapping", 0.8), (sub "time", 0.6), (sub "semester plan", 0.9),
    (sub "course load", 0.85), (sub "workload", 0.8), (sub "balance", 0.7),
    (sub "fit", 0.6) ]

/-- `QueryProcessor._extract_intent`: argmax over the per-intent scores in
insertion order (Python `max` keeps the earliest of tied keys), with the
course-code special cases. -/
def extract_intent (ql : List Char) : String × ℚ :=
  let recS := scoreIntent recPats ql
  let infoS := scoreIntent infoPats ql
  let reqS := scoreIntent reqPats ql
  let cmpS := scoreIntent cmpPats ql
  let schedS := scoreIntent schedPats ql
  let codePresent := (findDeptNum ql).isSome
  let anyPresent := recS.isSome || infoS.isSome || reqS.isSome || cmpS.isSome || schedS.isSome
  let pair :=
    if codePresent then
      if !anyPresent then (recS, some (0.7 : ℚ))
      else if 0 < recS.getD 0 then (some (recS.getD 0 + 0.2), infoS)
      else (recS, infoS)
    else (recS, infoS)
  let cands : List (String × ℚ) :=
    ([("course_recommendation", pair.1), ("course_information", pair.2),
      ("requirements", reqS), ("comparison", cmpS), ("schedule_planning", schedS)]).filterMap
      fun p => p.2.map (fun q => (p.1, q))
  match cands with
  | [] => ("general_information", 0.3)
  | c0 :: rest => rest.foldl (fun best p => if best.2 < p.2 then p else best) c0

/-! ## `QueryProcessor._extract_departments` -/

/-- The department pattern table `(matcher, (code, confidence))`. -/
def deptPatterns : List ((List Char → Bool) × String × ℚ) :=
  [ (wordAmong ["math", "mathematics"], "MATH", 0.9),
    (wordAmong ["compsci", "cs", "computer science"], "COMPSCI", 0.9),
    (wordAmong ["econ", "economics"], "ECON", 0.9),
    (wordAmong ["gov", "government"], "GOV", 0.9),
    (wordAmong ["physics"], "PHYSICS", 0.9),
    (wordAmong ["chem", "chemistry"], "CHEM", 0.9),
    (wordAmong ["hist", "history"], "HIST", 0.9),
    (wordAmong ["eng", "english"], "ENG", 0.85),
    (wordAmong ["phil", "philosophy"], "PHIL", 0.9),
    (wordAmong ["stats", "statistics"], "STAT", 0.9),
    (wordAmong ["bio", "biology"], "BIO", 0.9),
    (wordAmong ["psych", "psychology"], "PSY", 0.9),
    (wordAmong ["sociol", "sociology"], "SOC", 0.9),
    (wordAmong ["anthro", "anthropology"], "ANTHRO", 0.9),
    (wordAmong ["astro", "astronomy"], "ASTRON", 0.9),
    (wordAmong ["applied math", "applied mathematics"], "APMTH", 0.9),
    (wordAmong ["music"], "MUSIC", 0.9),
    (wordAmong ["art", "art history"], "ART", 0.85),
    (wordAmong ["theater", "theatre"], "TDM", 0.8),
    (wordAmong ["language"], "LANG", 0.7),
    (wordAmong ["french"], "FRENCH", 0.9),
    (wordAmong ["spanish"], "SPANISH", 0.9),
    (wordAmong ["german"], "GERMAN", 0.9),
    (wordAmong ["chinese"], "CHINESE", 0.9),
    (wordAmong ["japanese"], "JAPANESE", 0.9),
    (wordAmong ["classics"], "CLASSIC", 0.9),
    (wordAmong ["neuro", "neuroscience"], "NEURO", 0.9),
    (wordAmong ["earth", "earth science"], "EPS", 0.85),
    (wordAmong ["engineering"], "ENG", 0.7),
    (wordAmong ["education"], "EDU", 0.85) ]

/-- `QueryProcessor._extract_departments` (the uppercase-abbreviation scan
runs over the original query to preserve case). -/
def extract_departments (origQuery : String) (ql : List Char) : List String × ℚ :=
  let acc0 := deptPatterns.foldl
    (fun (acc : List String × ℚ) p =>
      if p.1 ql then (acc.1 ++ [p.2.1], max acc.2 p.2.2) else acc) ([], 0)
  let acc1 := ((abbrevMatches origQuery.data).map String.mk).foldl
    (fun (acc : List String × ℚ) ab =>
      if ab ∈ acc.1 then acc else (acc.1 ++ [ab], max acc.2 0.8)) acc0
  if 1 < acc1.1.length then (acc1.1, max 0.6 (acc1.2 - 0.1))
  else if acc1.1.length = 0 then (acc1.1, 0)
  else acc1

/-! ## `QueryProcessor._extract_course_levels` -/

/-- The branch taken when `'level' in match.group(0)`
(`100-level`, `level 100`, `100 level`). -/
def levelBranch (base : Nat) (conf : ℚ) (acc : List (Nat × Nat) × ℚ) :
    List (Nat × Nat) × ℚ :=
  if base % 100 = 0 then (acc.1 ++ [(base, base + 99)], max acc.2 conf)
  else if base / 10 % 10 ≠ 0 then
    let bl := base / 10 * 10
    (acc.1 ++ [(bl, bl + 9)], max acc.2 conf)
  else (acc.1 ++ [(base, base + 9)], max acc.2 (conf * 0.9))

/-- The branch taken for `130s`-style matches. -/
def decadeBranch (base : Nat) (conf : ℚ) (acc : List (Nat × Nat) × ℚ) :
    List (Nat × Nat) × ℚ :=
  if base % 10 = 0 then (acc.1 ++ [(base, base + 9)], max acc.2 conf)
  else
    let bl := base / 10 * 10
    (acc.1 ++ [(bl, bl + 9)], max acc.2 (conf * 0.8))

/-- `QueryProcessor._extract_course_levels`: the five decade patterns, the
four explicit-range patterns, then ambiguous bare numbers with a context
window. -/
def extract_course_levels (ql : List Char) : List (Nat × Nat) × ℚ :=
  let a1 := (scanGo matchDigitsS ql).foldl
    (fun acc ds => decadeBranch (digitsToNat ds) 0.9 acc) ([], 0)
  let a2 := (scanGo matchDigitsZeroS ql).foldl
    (fun acc ds => decadeBranch (digitsToNat ds) 0.9 acc) a1
  let a3 := (scanGo matchDashLevel ql).foldl
    (fun acc ds => levelBranch (digitsToNat ds) 0.9 acc) a2
  let a4 := (scanGo matchLevelSpace ql).foldl
    (fun acc ds => levelBranch (digitsToNat ds) 0.8 acc) a3
  let a5 := (scanGo matchSpaceLevel ql).foldl
    (fun acc ds => levelBranch (digitsToNat ds) 0.8 acc) a4
  let ranges :=
    scanGo (matchRangeWord "to".data) ql ++ scanGo (matchRangeWord "through".data) ql ++
    scanGo matchRangeDash ql ++ scanGo matchBetweenAnd ql
  let a6 := ranges.foldl
    (fun (acc : List (Nat × Nat) × ℚ) p =>
      (acc.1 ++ [(digitsToNat p.1, digitsToNat p.2)], max acc.2 0.95)) a5
  (bareNumMatches ql).foldl
    (fun (acc : List (Nat × Nat) × ℚ) m =>
      let num := digitsToNat m.2.1
      if acc.1.any (fun r => r.1 ≤ num ∧ num ≤ r.2) then acc
      else if 10 ≤ num ∧ num ≤ 999 then
        let ctxB := takeLast 15 (pyStrip m.1)
        let ctxA := (pyStrip m.2.2).take 15
        let isLevel := (["level", "levels", "hundred", "course level"] : List String).any
          fun ind => containsSub ind.data ctxB || containsSub ind.data ctxA
        if isLevel then
          if num % 100 = 0 then (acc.1 ++ [(num, num + 99)], max acc.2 0.8)
          else if num % 10 = 0 then (acc.1 ++ [(num, num + 9)], max acc.2 0.75)
          else (acc.1 ++ [(num, num)], max acc.2 0.5)
        else (acc.1 ++ [(num, num)], max acc.2 0.4)
      else acc)
    a6

/-! ## `QueryProcessor._extract_course_codes` -/

/-- The code list of `QueryProcessor._extract_course_codes` as built, in
extraction order, before the final `list(set(course_codes))`. -/
def rawCourseCodes (origQuery : String) (ql : List Char) : List String × ℚ :=
  let acc0 := (findAllDeptNum 2 origQuery.data).foldl
    (fun (acc : List String × ℚ) p =>
      (acc.1 ++ [String.mk (p.1.map Char.toUpper) ++ " " ++ String.mk p.2], max acc.2 0.9))
    ([], 0)
  let detected := (extract_departments origQuery ql).1
  let acc1 := detected.foldl
    (fun acc dept =>
      (scanGo (matchNeedleDigits (lowerStr dept).data) ql).foldl
        (fun (acc : List String × ℚ) ds =>
          let code := dept ++ " " ++ String.mk ds
          if code ∈ acc.1 then acc else (acc.1 ++ [code], max acc.2 0.85))
        acc)
    acc0
  acc1

/-- `QueryProcessor._extract_course_codes`.  The final `list(set(...))` is
modelled by the explicit `setOrder` parameter: CPython set iteration
order is a function of the interpreter's string-hash seed
(`PYTHONHASHSEED`), i.e. hidden interpreter state; any arrangement of
the distinct extracted codes is an admissible behaviour of the source
line `return list(set(course_codes)), confidence`. -/
def extract_course_codes (origQuery : String) (ql : List Char)
    (setOrder : List String → List String) : List String × ℚ :=
  (setOrder (rawCourseCodes origQuery ql).1, (rawCourseCodes origQuery ql).2)

/-! ## `QueryProcessor._extract_terms` -/

/-- The term pattern table. -/
def termPatterns : List ((List Char → Bool) × String × ℚ) :=
  [ (wordOccurs "fall", "Fall", 0.9), (wordOccurs "spring", "Spring", 0.9),
    (wordOccurs "summer", "Summer", 0.9), (wordOccurs "winter", "Winter", 0.9),
    (wordOccurs "next semester", "Spring", 0.8), (wordOccurs "this semester", "Fall", 0.75),
    (wordOccurs "current semester", "Fall", 0.75), (wordOccurs "next term", "Spring", 0.7),
    (wordOccurs "this term", "Fall", 0.7), (wordOccurs "next year", "Fall", 0.6),
    (wordOccurs "upcoming", "Spring", 0.6) ]

/-- `QueryProcessor._extract_terms`.  When both a season word and a year
are present the combined terms are returned early (the short-form loop
is skipped); the `[FS]` short-form scan runs over the lower-cased query
and therefore never fires, but is embedded faithfully. -/
def extract_terms (ql : List Char) : List String × ℚ :=
  let acc0 := termPatterns.foldl
    (fun (acc : List String × ℚ) p =>
      if p.1 ql then (acc.1 ++ [p.2.1], max acc.2 p.2.2) else acc) ([], 0)
  let years := (yearMatches ql).map String.mk
  let yearConf : ℚ := if years ≠ [] then 0.9 else 0
  if acc0.1 ≠ [] ∧ years ≠ [] then
    (acc0.1.foldl (fun acc t => acc ++ years.map (fun y => t ++ " " ++ y)) [],
     min acc0.2 yearConf)
  else
    (shortFormMatches ql).foldl
      (fun (acc : List String × ℚ) m =>
        let term := if m.1.toUpper = 'F' then "Fall" else "Spring"
        (acc.1 ++ [term ++ " " ++ ("20" ++ String.mk m.2)], max acc.2 0.85))
      acc0

/-! ## `QueryProcessor._extract_constraints` -/

/-- Position matcher for `(?:pre1|pre2|...)(\d+)post` — the hour-constraint
shape (alternative prefixes are tried in pattern order, the digit group is
greedy, `post` is the literal tail such as `" hours"`). -/
def matchPreDigitsPost (pres : List (List Char)) (post : List Char) (s : List Char) :
    Option (List Char × Nat) :=
  pres.foldl
    (fun acc pre =>
      match acc with
      | some _ => acc
      | none =>
        if pre.isPrefixOf s then
          let s1 := s.drop pre.length
          let ds := s1.takeWhile Char.isDigit
          if ds.length = 0 then none
          else if post.isPrefixOf (s1.drop ds.length) then
            some (ds, pre.length + ds.length + post.length)
          else none
        else none)
    none

/-- Greedy parse of `(\d+(?:\.\d+)?)`: integer digits and an optional
fractional part. -/
def takeDecimal (s : List Char) : Option ((List Char × List Char) × Nat) :=
  let ds := s.takeWhile Char.isDigit
  if ds.length = 0 then none
  else
    match s.drop ds.length with
    | '.' :: rest =>
      let fs := rest.takeWhile Char.isDigit
      if fs.length = 0 then some ((ds, []), ds.length)
      else some ((ds, fs), ds.length + 1 + fs.length)
    | _ => some ((ds, []), ds.length)

/-- Position matcher for `pre (mid)? NUM post` shapes used by the
score-constraint patterns; `pres`/`mids`/`posts` are alternative literals
tried in pattern order (`[[]]` for an absent component). -/
def matchCombo (pres mids posts : List (List Char)) (s : List Char) : Option (ℚ × Nat) :=
  pres.foldl
    (fun acc pre =>
      match acc with
      | some _ => acc
      | none =>
        if pre.isPrefixOf s then
          let s1 := s.drop pre.length
          mids.foldl
            (fun acc2 mid =>
              match acc2 with
              | some _ => acc2
              | none =>
                if mid.isPrefixOf s1 then
                  let s2 := s1.drop mid.length
                  match takeDecimal s2 with
                  | some ((ds, fs), k) =>
                    let s3 := s2.drop k
                    posts.foldl
                      (fun acc3 post =>
                        match acc3 with
                        | some _ => acc3
                        | none =>
                          if post.isPrefixOf s3 then
                            some (digitsToRat ds fs,
                              pre.length + mid.length + k + post.length)
                          else none)
                      none
                  | none => none
                else none)
            none
        else none)
    none

/-- Position matcher for the second score pattern
`(?:rating|score) (?:of )?(?: at least)? (\d+(?:\.\d+)?)` with its two
optional components, backtracked in regex order. -/
def matchScoreOfAtLeast (s : List Char) : Option (ℚ × Nat) :=
  (["rating ", "score "] : List String).foldl
    (fun acc pre =>
      match acc with
      | some _ => acc
      | none =>
        if pre.data.isPrefixOf s then
          let s1 := s.drop pre.length
          ([(true, true), (true, false), (false, true), (false, false)] :
              List (Bool × Bool)).foldl
            (fun acc2 opts =>
              match acc2 with
              | some _ => acc2
              | none =>
                let ofLen := if opts.1 then 3 else 0
                let okOf := !opts.1 || "of ".data.isPrefixOf s1
                let s2 := s1.drop ofLen
                let alLen := if opts.2 then 9 else 0
                let okAl := !opts.2 || " at least".data.isPrefixOf s2
                let s3 := s2.drop alLen
                if okOf && okAl && " ".data.isPrefixOf s3 then
                  match takeDecimal (s3.drop 1) with
                  | some ((ds, fs), k) =>
                    some (digitsToRat ds fs, pre.length + ofLen + alLen + 1 + k)
                  | none => none
                else none)
            none
        else none)
    none

/-- The eight `hour_patterns` of `_extract_constraints`, as
`(searcher, confidence)` rows tried in order with a break on the first
matching pattern. -/
def hourPatternRows : List ((List Char → Option (List Char × Nat)) × ℚ) :=
  [ (matchPreDigitsPost
      ["less than ".data, "no more than ".data, "maximum ".data, "max ".data]
      " hours".data, 0.9),
    (matchPreDigitsPost ["under ".data] " hours".data, 0.85),
    (matchPreDigitsPost [[]] " hours or less".data, 0.85),
    (matchPreDigitsPost ["not more than ".data] " hours".data, 0.85),
    (matchPreDigitsPost ["at most ".data] " hours".data, 0.85),
    (matchPreDigitsPost ["fewer than ".data] " hours".data, 0.85),
    (matchPreDigitsPost ["< ".data] " hours".data, 0.9),
    (matchPreDigitsPost ["≤ ".data] " hours".data, 0.9) ]

/-- The six `score_patterns`, same discipline. -/
def scorePatternRows : List ((List Char → Option (ℚ × Nat)) × ℚ) :=
  [ (matchCombo ["at least ".data, "minimum ".data] [[]] [" rating".data, " score".data], 0.9),
    (matchScoreOfAtLeast, 0.8),
    (matchCombo ["rating ".data, "score ".data] ["above ".data, "higher than ".data] [[]],
      0.85),
    (matchCombo ["better than ".data] [[]] [" rating".data, " score".data], 0.8),
    (matchCombo ["> ".data] [[]] [" rating".data, " score".data], 0.9),
    (matchCombo ["≥ ".data] [[]] [" rating".data, " score".data], 0.9) ]

/-- The qualitative `workload_indicators` (pattern, confidence). -/
def workloadIndicators : List ((List Char → Bool) × ℚ) :=
  [ (subAmong ["easy", "easiest", "light workload", "manageable"], 0.8),
    (subAmong ["not too much", "not too hard", "not too difficult"], 0.75),
    (sub "don't want to spend too much time", 0.75),
    (sub "low commitment", 0.7),
    (sub "less work", 0.7),
    (sub "minimal effort", 0.75),
    (subAmong ["chill", "chillest"], 0.85) ]

/-- The qualitative `score_indicators` (pattern, confidence).  The
`easy (A|B)` alternative is uppercase in the source and is matched against
the lower-cased query, so it can never fire; it is kept verbatim. -/
def scoreIndicators : List ((List Char → Bool) × ℚ) :=
  [ (subAmong ["good rating", "good score", "good reviews", "great rating", "great score",
      "great reviews", "excellent rating", "excellent score", "excellent reviews",
      "high rating", "high score", "high reviews"], 0.8),
    (sub "well-rated", 0.8),
    (sub "highly-rated", 0.85),
    (sub "top-rated", 0.85),
    (sub "good q score", 0.85),
    (sub "people like", 0.7),
    (sub "well-reviewed", 0.8) ]

/-- `QueryProcessor._extract_constraints`. -/
def extract_constraints (ql : List Char) : Constraints × ℚ :=
  let hourHit : Option (ℚ × ℚ) := hourPatternRows.foldl
    (fun acc row =>
      match acc with
      | some _ => acc
      | none => (scanFirst row.1 ql).map (fun ds => ((digitsToNat ds : ℚ), row.2)))
    none
  let acc1 : Option ℚ × ℚ :=
    match hourHit with
    | some (v, c) => (some v, max 0 c)
    | none => (none, 0)
  let scoreHit : Option (ℚ × ℚ) := scorePatternRows.foldl
    (fun acc row =>
      match acc with
      | some _ => acc
      | none => (scanFirst row.1 ql).map (fun q => (q, row.2)))
    none
  let acc2 : Option ℚ × Option ℚ × ℚ :=
    match scoreHit with
    | some (v, c) => (acc1.1, some v, max acc1.2 c)
    | none => (acc1.1, none, acc1.2)
  let acc3 : Option ℚ × ℚ := workloadIndicators.foldl
    (fun (acc : Option ℚ × ℚ) p =>
      if p.1 ql then
        match acc.1 with
        | none => (some 10, max acc.2 p.2)
        | some _ => acc
      else acc)
    (acc2.1, acc2.2.2)
  let acc4 : Option ℚ × ℚ := scoreIndicators.foldl
    (fun (acc : Option ℚ × ℚ) p =>
      if p.1 ql then
        match acc.1 with
        | none => (some 4, max acc.2 p.2)
        | some _ => acc
      else acc)
    (acc2.2.1, acc3.2)
  ({ max_hours := acc3.1, min_score := acc4.1 }, acc4.2)

/-! ## `QueryProcessor._extract_referenced_courses` -/

/-- Format a `(dept, num)` scanner match as the course code
`f"{dept.upper()} {num}"` (the number keeps its digits verbatim). -/
def codeOfMatch (p : List Char × List Char) : String :=
  String.mk (p.1.map Char.toUpper) ++ " " ++ String.mk p.2

/-- `QueryProcessor._extract_referenced_courses`. -/
def extract_referenced_courses (chat_history : List ChatMsg) (ql : List Char) :
    List String × ℚ :=
  let acc0 := (findAllDeptNum 1 ql).foldl
    (fun (acc : List String × ℚ) p => (acc.1 ++ [codeOfMatch p], max acc.2 0.9)) ([], 0)
  let lastResp := lowerStr ((chat_history.getLast?.map ChatMsg.content).getD "")
  let acc1 :=
    if acc0.1 = [] ∧ 2 ≤ chat_history.length then
      (findAllDeptNum 1 lastResp.data).foldl
        (fun (acc : List String × ℚ) p => (acc.1 ++ [codeOfMatch p], max acc.2 0.7)) acc0
    else acc0
  if acc1.1 = [] ∧ wordAmong ["it", "this", "that", "this course", "that course"] ql then
    if 2 ≤ chat_history.length then
      match (findAllDeptNum 1 lastResp.data).head? with
      | some p => (acc1.1 ++ [codeOfMatch p], max acc1.2 0.6)
      | none => acc1
    else acc1
  else acc1

/-! ## `QueryProcessor._extract_preferences` -/

/-- The `preference_patterns` table: per preference, cue rows tried in
order with a break after the first match. -/
def prefCategories : List (String × List ((List Char → Bool) × ℚ)) :=
  [ ("easy",
     [ (wordAmong ["easy", "easiest", "simple", "straightforward"], 0.9),
       (wordAmong ["light", "manageable", "reasonable", "chill", "chillest"], 0.85),
       (wordAmong ["gentle", "introductory", "beginner", "basic"], 0.8),
       (subAmong ["not too hard", "not too difficult", "not too challenging",
         "not too demanding", "not too heavy"], 0.75),
       (subAmong ["low workload", "low time commitment", "low effort"], 0.8) ]),
    ("hard",
     [ (wordAmong ["hard", "hardest", "difficult", "challenging"], 0.9),
       (wordAmong ["rigorous", "demanding", "advanced", "tough", "intense"], 0.85),
       (wordAmong ["comprehensive", "thorough", "deep", "complex"], 0.8),
       (subAmong ["not too easy", "not too simple", "not too basic"], 0.75),
       (subAmong ["high difficulty", "high challenge"], 0.8) ]),
    ("interesting",
     [ (wordAmong ["interesting", "engaging", "fun", "enjoyable", "exciting"], 0.85),
       (wordAmong ["fascinating", "captivating", "inspiring", "stimulating"], 0.8),
       (subAmong ["not boring", "not dull", "not dry"], 0.75) ]),
    ("practical",
     [ (wordAmong ["practical", "applied", "useful", "real-world", "hands-on"], 0.85),
       (wordAmong ["applicable", "relevant", "industry", "career", "skill"], 0.8),
       (subAmong ["not theoretical", "not abstract"], 0.75) ]),
    ("theoretical",
     [ (wordAmong ["theoretical", "theory", "conceptual", "abstract", "fundamental"], 0.85),
       (wordAmong ["philosophical", "foundational", "academic", "intellectual"], 0.8),
       (subAmong ["not practical", "not applied"], 0.75) ]),
    ("lecture",
     [ (wordAmong ["lecture", "lectures", "traditional"], 0.85),
       (subAmong ["professor talks", "professor teaching", "professor explaining"], 0.75) ]),
    ("discussion",
     [ (wordAmong ["discussion", "seminar", "interactive", "participation"], 0.85),
       (wordAmong ["debate", "conversation", "dialogue", "talk"], 0.75) ]),
    ("project",
     [ (wordAmong ["project", "projects", "hands-on", "practical", "lab", "labs"], 0.85),
       (wordAmong ["building", "creating", "making", "coding", "programming"], 0.8),
       (wordAmong ["application", "applied", "implementing"], 0.75) ]),
    ("fair_grading",
     [ (wordAmong ["fair grading", "fair assessment", "consistent grading",
         "consistent assessment", "transparent grading", "transparent assessment",
         "reasonable grading", "reasonable assessment"], 0.85),
       (sub "clear expectations", 0.8),
       (subAmong ["not harsh grading", "not strict grading", "not arbitrary grading"], 0.75) ]),
    ("easy_grading",
     [ (wordAmong ["easy grading", "easy assessment", "generous grading",
         "generous assessment", "lenient grading", "lenient assessment"], 0.85),
       (sub "grade inflation", 0.8),
       (subAmong ["high grades", "high scores"], 0.75),
       (subAmong ["easy A", "easy B"], 0.85) ]) ]

/-- Position matcher for `PRE([\w\s]+)` with a literal `PRE` — the
subject-interest capture (`interested in ([\w\s]+)` and friends). -/
def matchCapWordSpace (pre : List Char) (s : List Char) : Option (List Char × Nat) :=
  if pre.isPrefixOf s then
    let s1 := s.drop pre.length
    let grp := s1.takeWhile (fun c => isWordChar c || c.isWhitespace)
    if grp.length = 0 then none else some (grp, pre.length + grp.length)
  else none

/-- The `subject_interest_patterns` rows `(prefix literal, confidence)`. -/
def interestPatternRows : List (String × ℚ) :=
  [ ("interested in ", 0.8), ("like ", 0.7), ("enjoy ", 0.75),
    ("passion for ", 0.85), ("curious about ", 0.75) ]

/-- `QueryProcessor._extract_preferences`. -/
def extract_preferences (ql : List Char) : List String × ℚ :=
  let acc0 := prefCategories.foldl
    (fun (acc : List String × ℚ) cat =>
      match cat.2.find? (fun p => p.1 ql) with
      | some p => (acc.1 ++ [cat.1], max acc.2 p.2)
      | none => acc)
    ([], 0)
  interestPatternRows.foldl
    (fun (acc : List String × ℚ) row =>
      match scanFirst (matchCapWordSpace row.1.data) ql with
      | some grp =>
        let subject := pyStrip grp
        if (pySplit subject).length ≤ 3 then
          (acc.1 ++ ["interest:" ++ String.mk subject], max acc.2 row.2)
        else acc
      | none => acc)
    acc0

/-! ## `QueryProcessor._extract_semantic_aspects` -/

/-- First label whose cue group matches (`break` after the first hit). -/
def firstLabel (groups : List (String × List (List Char → Bool))) (ql : List Char) :
    Option String :=
  (groups.find? (fun g => g.2.any (fun m => m ql))).map Prod.fst

/-- `QueryProcessor._extract_semantic_aspects`. -/
def extract_semantic_aspects (ql : List Char) : SemanticAspects :=
  { difficulty := firstLabel
      [ ("easy",
         [ wordAmong ["easy", "easiest", "simple", "straightforward", "light", "manageable",
             "chill", "chillest"],
           subAmong ["not too hard", "not too difficult", "not too challenging",
             "not too demanding"],
           subAmong ["low workload", "low time commitment", "low effort"] ]),
        ("moderate",
         [ wordAmong ["moderate", "balanced", "medium", "intermediate", "reasonable"],
           subAmong ["not too easy", "not too hard"],
           sub "middle ground",
           subAmong ["balanced workload", "balanced difficulty"] ]),
        ("hard",
         [ wordAmong ["hard", "hardest", "difficult", "challenging", "rigorous", "demanding",
             "advanced", "tough", "intense"],
           subAmong ["not too easy", "not too simple"],
           subAmong ["high difficulty", "high challenge", "high level"] ]) ] ql
    interest_level := firstLabel
      [ ("high",
         [ wordAmong ["interesting", "fascinating", "captivating", "exciting", "engaging",
             "fun"],
           subAmong ["really like", "really enjoy", "really love"],
           sub "passion for", sub "favorite" ]),
        ("medium",
         [ wordAmong ["somewhat interesting", "moderately engaging"],
           subAmong ["kind of like", "kind of enjoy"],
           subAmong ["might like", "might enjoy"] ]),
        ("low",
         [ subAmong ["not boring", "not dull", "not dry"],
           subAmong ["don't hate", "don't dislike"],
           sub "tolerable", sub "get through" ]) ] ql
    relevance := firstLabel
      [ ("career",
         [ wordAmong ["career", "job", "profession", "industry", "work", "employment"],
           subAmong ["future job", "future work", "future career"],
           sub "after graduation", sub "professional" ]),
        ("personal",
         [ wordAmong ["interest", "hobby", "personal", "passion", "curious", "enjoy"],
           sub "for fun", sub "personally", sub "just for me" ]),
        ("degree",
         [ wordAmong ["requirement", "requirements", "required", "concentration", "major",
             "minor", "degree", "graduate", "graduation"],
           subAmong ["need for major", "need for degree", "need for graduation"],
           sub "have to take", sub "fulfill" ]) ] ql
    format := firstLabel
      [ ("lecture",
         [ wordAmong ["lecture", "lectures", "traditional", "instructor-led"],
           subAmong ["professor talks", "professor teaching", "professor explaining"],
           sub "listening" ]),
        ("seminar",
         [ wordAmong ["discussion", "seminar", "interactive", "participation", "small class"],
           wordAmong ["debate", "conversation", "dialogue", "talk"],
           sub "discussing" ]),
        ("project-based",
         [ wordAmong ["project", "projects", "hands-on", "practical", "lab", "labs",
             "workshop"],
           wordAmong ["building", "creating", "making", "coding", "programming"],
           wordAmong ["application", "applied", "implementing"],
           sub "creating" ]) ] ql }

/-! ## `QueryProcessor._extract_implicit_preferences` -/

/-- `QueryProcessor._extract_implicit_preferences` (plain substring cue
lists, each contributing one tag). -/
def extract_implicit_preferences (ql : List Char) : List String :=
  (if subAmong ["best", "top", "prestigious", "renowned", "famous", "well-known",
      "popular"] ql then ["high_prestige"] else []) ++
  (if subAmong ["small", "intimate", "not too big", "fewer students",
      "individual attention"] ql then ["small_class"] else []) ++
  (if subAmong ["good professor", "great teacher", "excellent instructor",
      "engaging faculty", "best taught"] ql then ["good_professor"] else []) ++
  (if subAmong ["not much writing", "minimal papers", "few essays", "no papers",
      "not essay-based"] ql then ["minimal_writing"] else []) ++
  (if subAmong ["not much reading", "light reading", "few readings", "minimal reading",
      "not reading-heavy"] ql then ["minimal_reading"] else []) ++
  (if subAmong ["friends", "social", "collaborate", "group work", "meet people",
      "team"] ql then ["social"] else [])

/-! ## `QueryProcessor._perform_self_reflection` and `process` -/

/-- Render one level range the way `_perform_self_reflection` does. -/
def levelRangeStr (r : Nat × Nat) : String :=
  if r.1 = r.2 then natStr r.1 else natStr r.1 ++ "-" ++ natStr r.2

/-- `QueryProcessor._perform_self_reflection`, as a function of the
assembled query info and the confidence scores. -/
def perform_self_reflection (qi : QueryInfo) (conf : ConfScores) : Reflection :=
  { missing_information :=
      (if qi.departments = [] ∧ qi.course_codes = [] then
        ["No department or course specified"] else []) ++
      (if qi.course_levels = [] ∧ qi.course_codes = [] then
        ["No course level specified"] else []) ++
      (if qi.terms = [] then ["No term/semester specified"] else [])
    ambiguities :=
      (if 1 < qi.departments.length then
        ["Multiple departments specified: " ++ String.intercalate ", " qi.departments]
       else []) ++
      (if 1 < qi.course_levels.length then
        ["Multiple course levels specified: " ++
          String.intercalate ", " (qi.course_levels.map levelRangeStr)]
       else []) ++
      (if "easy" ∈ qi.preferences ∧ "hard" ∈ qi.preferences then
        ["Conflicting difficulty preferences"] else []) ++
      (if "practical" ∈ qi.preferences ∧ "theoretical" ∈ qi.preferences then
        ["Conflicting style preferences"] else [])
    verification_needed :=
      (if conf.intent < 0.7 then ["Intent is unclear"] else []) ++
      (if qi.is_followup ∧ qi.referenced_courses = [] ∧ conf.is_followup < 0.8 then
        ["Follow-up reference is unclear"] else []) ++
      (match qi.constraints.max_hours with
       | some v => if v < 5 then ["Very low max hours constraint: " ++ ratStr v] else []
       | none => []) ++
      (match qi.constraints.min_score with
       | some v => if 4.5 < v then ["Very high minimum score constraint: " ++ ratStr v]
         else []
       | none => []) }

/-- The inheritance block of `QueryProcessor.process` (source lines
115-145): when the turn is a follow-up that extracted no department,
level, code or referenced course and a previous query info exists, copy
forward each still-empty field whose previous value is truthy and set
that field's confidence to the literal `0.7`. -/
def inheritBody (qi : QueryInfo) (conf : ConfScores) (prev : QueryInfo) :
    QueryInfo × ConfScores :=
  if qi.is_followup ∧ qi.departments = [] ∧ qi.course_levels = [] ∧
      qi.course_codes = [] ∧ qi.referenced_courses = [] then
      let s1 :=
        if qi.departments = [] ∧ prev.departments ≠ [] then
          ({ qi with departments := prev.departments }, { conf with departments := 0.7 })
        else (qi, conf)
      let s2 :=
        if s1.1.course_levels = [] ∧ prev.course_levels ≠ [] then
          ({ s1.1 with course_levels := prev.course_levels },
           { s1.2 with course_levels := 0.7 })
        else s1
      let s3 :=
        if s2.1.course_codes = [] ∧ prev.course_codes ≠ [] then
          ({ s2.1 with course_codes := prev.course_codes },
           { s2.2 with course_codes := 0.7 })
        else s2
      let s4 :=
        if s3.1.terms = [] ∧ prev.terms ≠ [] then
          ({ s3.1 with terms := prev.terms }, { s3.2 with terms := 0.7 })
        else s3
      let s5 :=
        if ¬ truthyRatOpt s4.1.constraints.max_hours ∧
            truthyRatOpt prev.constraints.max_hours then
          ({ s4.1 with constraints :=
              { s4.1.constraints with max_hours := prev.constraints.max_hours } },
           { s4.2 with constraints := 0.7 })
        else s4
      if ¬ truthyRatOpt s5.1.constraints.min_score ∧
          truthyRatOpt prev.constraints.min_score then
        ({ s5.1 with constraints :=
            { s5.1.constraints with min_score := prev.constraints.min_score } },
         { s5.2 with constraints := 0.7 })
      else s5
    else (qi, conf)

/-- The inheritance step of `process`: a no-op without a previous query
info, otherwise `inheritBody`. -/
def applyInheritance (qi : QueryInfo) (conf : ConfScores) :
    Option QueryInfo → QueryInfo × ConfScores
  | none => (qi, conf)
  | some prev => inheritBody qi conf prev

/-- `QueryProcessor.process`.  A `QueryProcessor` instance is constructed
fresh for every call with `(query, chat_history, last_query_info)`, so
`process` is a function of that triple — plus `setOrder`, the
interpreter's set-iteration order used by `list(set(...))` in
`_extract_course_codes` (see there). -/
def process (query : String) (chat_history : List ChatMsg)
    (last_query_info : Option QueryInfo) (setOrder : List String → List String) :
    QueryInfo :=
  let ql := (lowerStr query).data
  let fu := is_followup_question chat_history ql
  let it := extract_intent ql
  let de := extract_departments query ql
  let lv := extract_course_levels ql
  let cc := extract_course_codes query ql setOrder
  let tm := extract_terms ql
  let cs := extract_constraints ql
  let refs := if fu.1 then (extract_referenced_courses chat_history ql).1 else []
  let pf := extract_preferences ql
  let qi : QueryInfo :=
    { original_query := query
      departments := de.1
      course_levels := lv.1
      course_codes := cc.1
      terms := tm.1
      constraints := cs.1
      is_followup := fu.1
      referenced_courses := refs
      preferences := pf.1
      intent := it.1
      semantic_aspects := extract_semantic_aspects ql
      implicit_preferences := extract_implicit_preferences ql }
  let conf : ConfScores :=
    { intent := it.2, departments := de.2, course_levels := lv.2, course_codes := cc.2
      terms := tm.2, constraints := cs.2, preferences := pf.2, is_followup := fu.2 }
  let inh := applyInheritance qi conf last_query_info
  let refl := perform_self_reflection inh.1 inh.2
  { inh.1 with self_reflection := refl, confidence_scores := inh.2 }

/-! ## CourseFinder -/

/-- The student profile as consumed by the finder and the recommender. -/
structure StudentProfile where
  concentration : String := ""
  courses_taken : List String := []
deriving DecidableEq, Repr

/-- `CourseFinder.confidence_scores`. -/
structure FinderConf where
  specific_courses : ℚ := 0
  level_courses : ℚ := 0
  term_courses : ℚ := 0
  filtered_courses : ℚ := 0
  semantic_matches : ℚ := 0
  relevant_courses : ℚ := 0
deriving DecidableEq, Repr

/-- The result dictionary of `CourseFinder.find_courses`. -/
structure FindResults where
  specific_courses : List Course := []
  level_courses : List Course := []
  term_courses : List Course := []
  filtered_courses : List Course := []
  semantic_matches : List Course := []
  relevant_courses : List Course := []
  confidence_scores : FinderConf := {}
  retrieval_explanation : List String := []
  verification : List String := []
deriving DecidableEq, Repr

/-- The mutable state of a `CourseFinder` instance: its search cache. -/
structure FinderState where
  search_cache : List (String × List Course) := []

/-- First-match lookup in a string-keyed cache dict. -/
def lookupCache : List (String × List Course) → String → Option (List Course)
  | [], _ => none
  | (k, v) :: rest, s => if k = s then some v else lookupCache rest s

/-- First-match lookup in a string-keyed assoc table (a Python dict literal
with unique keys). -/
def lookupAssoc : List (String × String) → String → Option String
  | [], _ => none
  | (k, v) :: rest, s => if k = s then some v else lookupAssoc rest s

/-- One step of `_find_specific_courses`'s loop over
`query_info['course_codes']`.  For comparison-intent queries it writes
the Q-report `mean_hours` into the stored course record when the
record's value is absent or `None` — the updated database rides along in
the accumulator.  (`hasattr(self.db, 'q_reports_df')` always holds and
the Q-report frame always carries a `mean_hours` column; `if course_id:`
is Python truthiness of the id.) -/
def specStep (qi : QueryInfo) (acc : List Course × ℚ × HarvardDB) (code : String) :
    List Course × ℚ × HarvardDB :=
  match get_course_by_code acc.2.2 code with
  | some course =>
    if qi.intent = "comparison" ∧
        (course.mean_hours = none ∨ course.mean_hours = some .pynone) ∧
        course.course_id ≠ 0 then
      match qLookup acc.2.2.q_reports course.course_id with
      | some v =>
        let course' := { course with mean_hours := some v }
        (acc.1 ++ [course'], acc.2.1,
         { acc.2.2 with
           course_dict := dictUpdate acc.2.2.course_dict course.course_id course' })
      | none => (acc.1 ++ [course], acc.2.1, acc.2.2)
    else (acc.1 ++ [course], acc.2.1, acc.2.2)
  | none => (acc.1, acc.2.1 * 0.9, acc.2.2)

/-- `CourseFinder._find_specific_courses`. -/
def find_specific_courses (db : HarvardDB) (qi : QueryInfo) :
    (List Course × ℚ) × HarvardDB :=
  let step1 : List Course × ℚ × HarvardDB :=
    if qi.course_codes ≠ [] then
      qi.course_codes.foldl (specStep qi) ([], qi.confidence_scores.course_codes, db)
    else ([], 0, db)
  let db1 := step1.2.2
  if qi.referenced_courses ≠ [] then
    let refFold : List Course × ℚ := qi.referenced_courses.foldl
      (fun (acc : List Course × ℚ) code =>
        match get_course_by_code db1 code with
        | some course => if course ∈ acc.1 then acc else (acc.1 ++ [course], acc.2)
        | none => (acc.1, acc.2 * 0.8))
      (step1.1, qi.confidence_scores.is_followup)
    if refFold.1 = [] then ((refFold.1, refFold.2), db1)
    else ((refFold.1, max step1.2.1 refFold.2), db1)
  else ((step1.1, step1.2.1), db1)

/-- The concentration → department-name map of
`CourseFinder._find_courses_by_level` (transcribed verbatim). -/
def levelDeptMap : List (String × String) :=
  [ ("MATH", "MATHEMATICS"), ("MATHS", "MATHEMATICS"), ("PURE MATH", "MATHEMATICS"),
    ("STAT", "STATISTICS"), ("STATS", "STATISTICS"),
    ("COMPSCI", "COMPUTER SCIENCE"), ("CS", "COMPUTER SCIENCE"),
    ("COMP SCI", "COMPUTER SCIENCE"), ("APMATH", "APPLIED MATHEMATICS"),
    ("APMTH", "APPLIED MATHEMATICS"), ("AM", "APPLIED MATHEMATICS"),
    ("BME", "BIOMEDICAL ENGINEERING"), ("EE", "ELECTRICAL ENGINEERING"),
    ("ES", "ENGINEERING SCIENCES"), ("ESE", "ENVIRONMENTAL SCIENCE AND ENGINEERING"),
    ("ME", "MECHANICAL ENGINEERING"),
    ("PHYS", "PHYSICS"), ("ASTRO", "ASTROPHYSICS"), ("EPS", "EARTH AND PLANETARY SCIENCES"),
    ("CHEM", "CHEMISTRY"), ("CPB", "CHEMICAL AND PHYSICAL BIOLOGY"),
    ("HDRB", "HUMAN DEVELOPMENTAL AND REGENERATIVE BIOLOGY"),
    ("HEB", "HUMAN EVOLUTIONARY BIOLOGY"), ("IB", "INTEGRATIVE BIOLOGY"),
    ("MCB", "MOLECULAR AND CELLULAR BIOLOGY"), ("NEURO", "NEUROSCIENCE"),
    ("ANTHRO", "ANTHROPOLOGY"), ("FM", "FOLKLORE AND MYTHOLOGY"), ("SOC", "SOCIOLOGY"),
    ("WGS", "WOMEN, GENDER, AND SEXUALITY"),
    ("AAAS", "AFRICAN AND AFRICAN AMERICAN STUDIES"), ("ECON", "ECONOMICS"),
    ("GOV", "GOVERNMENT"), ("GOVT", "GOVERNMENT"), ("HIST-SCI", "HISTORY AND SCIENCE"),
    ("HISTSCI", "HISTORY AND SCIENCE"), ("PSY", "PSYCHOLOGY"), ("PSYCH", "PSYCHOLOGY"),
    ("SOC-STD", "SOCIAL STUDIES"), ("SOCSTD", "SOCIAL STUDIES"),
    ("SOC STD", "SOCIAL STUDIES"), ("SOCSTUDY", "SOCIAL STUDIES"),
    ("HIST", "HISTORY"), ("HIST-LIT", "HISTORY AND LITERATURE"),
    ("HISTLIT", "HISTORY AND LITERATURE"),
    ("COMPLIT", "COMPARATIVE LITERATURE"), ("EAS", "EAST ASIAN STUDIES"),
    ("ENGLISH", "ENGLISH"), ("ENG", "ENGLISH"),
    ("GERMANIC", "GERMANIC LANGUAGES AND LITERATURES"),
    ("GERMAN", "GERMANIC LANGUAGES AND LITERATURES"),
    ("NELC", "NEAR EASTERN LANGUAGES AND CIVILIZATIONS"), ("REL", "RELIGION"),
    ("RELIGION", "RELIGION"), ("RELIG", "RELIGION"),
    ("ROM-LANG", "ROMANCE LANGUAGES AND LITERATURES"),
    ("ROMANCE", "ROMANCE LANGUAGES AND LITERATURES"),
    ("SLAVIC", "SLAVIC LANGUAGES AND LITERATURES"),
    ("AFVS", "ART, FILM, AND VISUAL STUDIES"), ("VES", "ART, FILM, AND VISUAL STUDIES"),
    ("ART", "ART, FILM, AND VISUAL STUDIES"),
    ("FRENCH", "ROMANCE LANGUAGES AND LITERATURES"),
    ("SPANISH", "ROMANCE LANGUAGES AND LITERATURES"),
    ("ITALIAN", "ROMANCE LANGUAGES AND LITERATURES"),
    ("PORTUGUESE", "ROMANCE LANGUAGES AND LITERATURES"),
    ("LATIN", "CLASSICS"), ("GREEK", "CLASSICS"), ("CLASSICS", "CLASSICS"),
    ("CHINESE", "EAST ASIAN STUDIES"), ("JAPANESE", "EAST ASIAN STUDIES"),
    ("KOREAN", "EAST ASIAN STUDIES"), ("RUSSIAN", "SLAVIC LANGUAGES AND LITERATURES"),
    ("EXPOS", "EXPOSITORY WRITING"), ("GEN-ED", "GENERAL EDUCATION"),
    ("GENED", "GENERAL EDUCATION") ]

/-- `CourseFinder._find_courses_by_level`. -/
def find_courses_by_level (db : HarvardDB) (qi : QueryInfo) (sp : StudentProfile) :
    List Course × ℚ :=
  if qi.departments ≠ [] ∧ qi.course_levels ≠ [] then
    let conf0 := min qi.confidence_scores.departments qi.confidence_scores.course_levels
    qi.departments.foldl
      (fun acc dept =>
        qi.course_levels.foldl
          (fun (acc : List Course × ℚ) r =>
            let cs := get_courses_by_level_range db dept r.1 r.2
            (acc.1 ++ cs, if cs = [] then acc.2 * 0.9 else acc.2))
          acc)
      ([], conf0)
  else if qi.course_levels ≠ [] ∧ qi.departments = [] then
    let conf0 := qi.confidence_scores.course_levels * 0.8
    if sp.concentration ≠ "" then
      match lookupAssoc levelDeptMap sp.concentration with
      | some dept =>
        qi.course_levels.foldl
          (fun (acc : List Course × ℚ) r =>
            let cs := get_courses_by_level_range db dept r.1 r.2
            (acc.1 ++ cs, if cs = [] then acc.2 * 0.9 else acc.2))
          ([], conf0)
      | none => ([], conf0)
    else ([], conf0)
  else ([], 0)

/-- One course of the `_find_courses_by_term` scan: the source evaluates
`course.get('term') and term.lower() in course.get('term', '').lower()`.
A stored `NaN` term is truthy, so `.lower()` is then called on a float
and raises `AttributeError` — modelled as `Except.error`. -/
def termCourseCheck (t : String) (c : Course) : Except Unit Bool :=
  match c.term with
  | some .pynan => .error ()
  | some (.pystr ct) => .ok (ct ≠ "" && strContains (lowerStr ct) (lowerStr t))
  | none => .ok false

/-- The scan of `course_dict.items()` for one requested term: collect
the matches, or raise out at the first stored `NaN` term. -/
def termScanGo (t : String) : List (Nat × Course) → List Course →
    Except Unit (List Course)
  | [], b => .ok b
  | p :: rest, b =>
    match termCourseCheck t p.2 with
    | .error e => .error e
    | .ok m => termScanGo t rest (if m then b ++ [p.2] else b)

/-- The `for term in query_info["terms"]` loop of
`_find_courses_by_term`. -/
def termLoop (db : HarvardDB) : List String → List Course × ℚ →
    Except Unit (List Course × ℚ)
  | [], acc => .ok acc
  | term :: rest, acc =>
    match termScanGo term db.course_dict [] with
    | .error e => .error e
    | .ok batch =>
      termLoop db rest (acc.1 ++ batch, if batch = [] then acc.2 * 0.9 else acc.2)

/-- `CourseFinder._find_courses_by_term`: a direct scan of
`course_dict.items()` per requested term; the scan raises out of the
method on the first stored `NaN` term it meets (see `termCourseCheck`). -/
def find_courses_by_term (db : HarvardDB) (qi : QueryInfo) :
    Except Unit (List Course × ℚ) :=
  if qi.terms ≠ [] then termLoop db qi.terms ([], qi.confidence_scores.terms)
  else .ok ([], 0)

/-- `re.search(r'^([A-Za-z-]+)\s*\d+', tag)`: the anchored leading
letters-and-dashes run, accepted when digits follow optional spaces. -/
def startTagDept (s : List Char) : Option (List Char) :=
  let run := s.takeWhile (fun c => c.isAlpha || c = '-')
  if run.length = 0 then none
  else
    match (s.drop run.length).dropWhile Char.isWhitespace with
    | d :: _ => if d.isDigit then some run else none
    | [] => none

/-- The Social-Studies alias sets used by `CourseFinder._course_matches_dept`. -/
def socialAliases : List String := ["SOCIAL STUDIES", "SOC-STD", "SOCSTD", "SOC STD"]

/-- `CourseFinder._course_matches_dept`.  The `self.db.dept_map` branch of
the source is dead code — `HarvardDatabase` has no `dept_map` attribute,
so `hasattr(self.db, 'dept_map')` is always false — and is omitted. -/
def course_matches_dept_finder (c : Course) (dept : String) : Bool :=
  let du := upperStr dept
  (match c.class_tag with
   | some tag =>
     let ct := upperStr tag
     strContains ct du ||
     (decide (du ∈ socialAliases) &&
       (["SOC-STD", "SOCSTD", "SOC STD"] : List String).any (fun t => strContains ct t)) ||
     (match startTagDept ct.data with
      | some run => decide (String.mk run = du)
      | none => false)
   | none => false) ||
  (match c.department with
   | some d =>
     let cd := upperStr d
     decide (cd = du) ||
     (decide (du ∈ socialAliases) &&
       (["SOCIAL STUDIES", "SOC STD", "SOCSTD", "SOC-STD"] : List String).any
         (fun sd => strContains cd sd))
   | none => false) ||
  (match c.subject with
   | some sj =>
     let cs := upperStr sj
     decide (cs = du) ||
     (decide (du ∈ socialAliases) &&
       (["SOCIAL STUDIES", "SOC STD", "SOCSTD", "SOC-STD"] : List String).any
         (fun sd => strContains cs sd))
   | none => false)

/-- `CourseFinder._course_matches_term` (substring or all-tokens match,
guarded by `isinstance(course['term'], str)` — a `NaN` term never
matches). -/
def course_matches_term_finder (c : Course) (t : String) : Bool :=
  match c.term with
  | some (.pystr ct) =>
    strContains (lowerStr ct) (lowerStr t) ||
    (let cparts := pySplit (lowerStr ct).data
     (pySplit (lowerStr t).data).all (fun p => cparts.any (fun cp => cp = p)))
  | _ => false

/-- `CourseFinder._course_above_min_score` (`is not None` guard; a `NaN`
score fails the `>=` comparison and excludes the course). -/
def course_above_min_score_finder (c : Course) (ms : ℚ) : Bool :=
  match c.overall_score_course_mean with
  | some (.pyval q) => decide (ms ≤ q)
  | _ => false

/-- `CourseFinder._course_below_max_hours` (`is not None` guard; a `NaN`
value fails the `<=` comparison and excludes the course, unlike the
database-side helper). -/
def course_below_max_hours_finder (c : Course) (mh : ℚ) : Bool :=
  match c.mean_hours with
  | some (.pyval q) => decide (q ≤ mh)
  | some .pynan => false
  | some .pynone => true
  | none => true

/-- The concentration → department-code map used by
`CourseFinder._apply_all_filters` and by the recommender. -/
def smallDeptMap : List (String × String) :=
  [ ("Mathematics", "MATH"), ("Computer Science", "COMPSCI"), ("Economics", "ECON"),
    ("History", "HIST"), ("English", "ENG"), ("Chemistry", "CHEM"),
    ("Physics", "PHYSICS"), ("Psychology", "PSY"), ("Government", "GOV"),
    ("Sociology", "SOC") ]

/-- `CourseFinder._apply_all_filters`. -/
def apply_all_filters (db : HarvardDB) (qi : QueryInfo) (sp : StudentProfile) :
    List Course × ℚ :=
  let conf0 : ℚ := 0.8
  let conf1 :=
    if qi.departments ≠ [] then min conf0 qi.confidence_scores.departments else conf0
  let s2 : List String × ℚ :=
    if qi.departments = [] ∧ sp.concentration ≠ "" then
      match lookupAssoc smallDeptMap sp.concentration with
      | some d => ([d], conf1 * 0.9)
      | none => ([], conf1 * 0.9)
    else (qi.departments, conf1)
  let s3 : List Course × ℚ :=
    if s2.1 ≠ [] then
      (s2.1.foldl
        (fun acc dept =>
          acc ++ (db.course_dict.map Prod.snd).filter
            (fun c => course_matches_dept_finder c dept))
        [], s2.2)
    else (db.course_dict.map Prod.snd, s2.2 * 0.8)
  let s4 : List Course × ℚ :=
    if qi.course_levels ≠ [] then
      (s3.1.filter
        (fun course =>
          match course.class_tag with
          | some tag =>
            match findDeptNum tag.data with
            | some (_, nds) =>
              let n := digitsToNat nds
              qi.course_levels.any (fun r => r.1 ≤ n ∧ n ≤ r.2)
            | none => false
          | none => false),
       min s3.2 qi.confidence_scores.course_levels)
    else s3
  let s5 : List Course × ℚ :=
    if qi.terms ≠ [] then
      (s4.1.filter (fun c => qi.terms.any (fun t => course_matches_term_finder c t)),
       min s4.2 qi.confidence_scores.terms)
    else s4
  let s6 : List Course × ℚ :=
    match qi.constraints.max_hours with
    | some mh =>
      (s5.1.filter (fun c => course_below_max_hours_finder c mh),
       min s5.2 qi.confidence_scores.constraints)
    | none => s5
  let s7 : List Course × ℚ :=
    match qi.constraints.min_score with
    | some ms =>
      (s6.1.filter (fun c => course_above_min_score_finder c ms),
       min s6.2 qi.confidence_scores.constraints)
    | none => s6
  (s7.1,
   if s7.1.length = 0 then s7.2 * 0.5
   else if 50 < s7.1.length then s7.2 * 0.9
   else s7.2)

/-- The semantic query string assembled by
`CourseFinder._find_semantic_matches`. -/
def semanticQuery (qi : QueryInfo) (sp : StudentProfile) : String :=
  let q1 :=
    if sp.concentration ≠ "" then
      let q := qi.original_query ++ " " ++ sp.concentration
      if strContains sp.concentration "Social Studies" then
        q ++ " politics government sociology economics history social theory"
      else if strContains sp.concentration "History and Literature" then
        q ++ " literary historical analysis cultural studies"
      else q
    else qi.original_query
  if qi.preferences ≠ [] then
    let pref_terms := qi.preferences.map fun p =>
      if p = "easy" then "easy manageable workload"
      else if p = "hard" then "challenging rigorous"
      else if p = "interesting" then "interesting engaging"
      else if p = "practical" then "practical applied"
      else if p = "theoretical" then "theoretical conceptual"
      else if "interest:".data.isPrefixOf p.data then "about " ++ String.mk (p.data.drop 9)
      else p
    if pref_terms ≠ [] then q1 ++ " " ++ String.intercalate " " pref_terms else q1
  else q1

/-- `CourseFinder._find_semantic_matches`.  `hasattr(self.db,
'vector_search')` always holds; `HarvardDatabase.vector_search` catches
its own exceptions and returns `[]` on an unavailable or failing backend,
so the finder's `except` arm is unreachable and the failure mode is an
empty result whose confidence is the halved base `0.7 * 0.5`. -/
def find_semantic_matches (st : FinderState) (orc : Oracles) (qi : QueryInfo)
    (sp : StudentProfile) : (List Course × ℚ) × FinderState :=
  let conf : ℚ := 0.7
  let sq := semanticQuery qi sp
  let cache_key := "semantic:" ++ sq
  match lookupCache st.search_cache cache_key with
  | some cached => ((cached, conf), st)
  | none =>
    let ms := vector_search orc sq 20
    let st' : FinderState := { search_cache := st.search_cache ++ [(cache_key, ms)] }
    let conf' :=
      if ms.length = 0 then conf * 0.5
      else if ms.length < 5 then conf * 0.8
      else conf
    ((ms, conf'), st')

/-! ## `CourseFinder._determine_most_relevant` -/

/-- The `course_ranks` dict keyed by `course_id`: re-inserting an existing
key overwrites the stored course in place, new keys are appended (every
modelled course carries a `course_id`, so the `'course_id' not in course`
skip never fires). -/
def ranksStep (acc : List (Nat × Course)) (c : Course) : List (Nat × Course) :=
  if dictContains acc c.course_id then dictUpdate acc c.course_id c
  else acc ++ [(c.course_id, c)]

def buildRanks : List Course → List (Nat × Course) :=
  List.foldl ranksStep []

/-- The inner `preference_match_score` of `_determine_most_relevant`.
Numeric notes: for a `NaN` hours value Python's `max(0, 20 - nan)` is `0`
(matched by the `easy` arm); in the `hard` arm `min(nan, 20)/20` is `NaN`
and poisons the composite score — no claim proved below depends on score
values, and the `NaN` arm is modelled as contributing nothing. -/
def preference_match_score (c : Course) (prefs : List String) : ℚ :=
  let score := prefs.foldl
    (fun acc p =>
      if p = "easy" then
        match c.mean_hours with
        | some (.pyval q) => if q ≠ 0 then acc + max 0 (20 - q) / 20 else acc
        | some .pynan => acc
        | _ => acc
      else if p = "hard" then
        match c.mean_hours with
        | some (.pyval q) => if q ≠ 0 then acc + min q 20 / 20 else acc
        | _ => acc
      else if "interest:".data.isPrefixOf p.data then
        -- `hasattr(self.db, 'model')` always holds (the attribute is set in
        -- `HarvardDatabase.__init__`)
        acc + 0.2
      else acc)
    0
  score / (max 1 prefs.length : Nat)

/-- The composite relevance score of one course in
`_determine_most_relevant` (rating 50%, preference match 30%, flat
concentration bonus, flat missing-schedule-metadata bonus). -/
def relevanceScore (qi : QueryInfo) (sp : StudentProfile) (c : Course) : ℚ :=
  let b1 :=
    match c.overall_score_course_mean with
    | some (.pyval q) => if q ≠ 0 then 0.5 * (q / 5) else 0
    | some .pynan => 0   -- truthy, but the NaN score poisons; see above
    | _ => 0
  let b2 := if qi.preferences ≠ [] then b1 + 0.3 * preference_match_score c qi.preferences
            else b1
  let b3 := if sp.concentration ≠ "" ∧ c.department = some sp.concentration then b2 + 0.2
            else b2
  if c.days = none ∨ c.start_times = none ∨ c.end_times = none then b3 + 0.05 else b3

/-- The "all courses" signal of `_determine_most_relevant`:
`"all" in query_lower or "every" in query_lower or "list all" in
query_lower` (plain substring containment on the lower-cased raw
query). -/
def allSignal (query : String) : Bool :=
  let ql := (lowerStr query).data
  containsSub "all".data ql || containsSub "every".data ql || containsSub "list all".data ql

/-- The seeding chain of `_determine_most_relevant`: the first non-empty
bucket, in precedence order specific > filtered > semantic > level >
term, together with that bucket's confidence. -/
def seedBucket (r : FindResults) : Option (List Course × ℚ) :=
  if r.specific_courses ≠ [] then some (r.specific_courses, r.confidence_scores.specific_courses)
  else if r.filtered_courses ≠ [] then some (r.filtered_courses, r.confidence_scores.filtered_courses)
  else if r.semantic_matches ≠ [] then some (r.semantic_matches, r.confidence_scores.semantic_matches)
  else if r.level_courses ≠ [] then some (r.level_courses, r.confidence_scores.level_courses)
  else if r.term_courses ≠ [] then some (r.term_courses, r.confidence_scores.term_courses)
  else none

/-- `CourseFinder._determine_most_relevant` (reads the buckets and the
confidence scores already stored in `results`). -/
def determine_most_relevant (r : FindResults) (qi : QueryInfo) (sp : StudentProfile) :
    List Course × ℚ :=
  match seedBucket r with
  | none => ([], 0)
  | some (relevant, confidence) =>
    let ranks := buildRanks relevant
    let scored := ranks.map fun p => (p.2, relevanceScore qi sp p.2)
    let sorted := (pySortDesc (fun t => t.2) scored).map Prod.fst
    if allSignal qi.original_query then (sorted, confidence)
    else (sorted.take 10, confidence)

/-! ## `CourseFinder._verify_results` -/

/-- Python `repr` of a list of `(int, int)` tuples (used in an f-string). -/
def pyReprLevels (l : List (Nat × Nat)) : String :=
  "[" ++ String.intercalate ", "
    (l.map (fun r => "(" ++ natStr r.1 ++ ", " ++ natStr r.2 ++ ")")) ++ "]"

/-- Python `repr` of a list of strings (used in an f-string). -/
def pyReprStrList (l : List String) : String :=
  "[" ++ String.intercalate ", " (l.map (fun s => "'" ++ s ++ "'")) ++ "]"

/-- The term check of `_verify_results`' comprehension: the source reads
`term.lower() in course.get('term', '').lower()` with no `isinstance`
guard, so a `NaN` term raises `AttributeError` here too (a missing key
defaults to `''`). -/
def verifyTermCheck (terms : List String) (c : Course) : Except Unit Bool :=
  match c.term with
  | some .pynan => .error ()
  | some (.pystr ct) => .ok (terms.any fun t => strContains (lowerStr ct) (lowerStr t))
  | none => .ok (terms.any fun t => strContains (lowerStr "") (lowerStr t))

/-- `CourseFinder._verify_results`. -/
def verify_results (r : FindResults) (qi : QueryInfo) (sp : StudentProfile) :
    Except Unit (List String) := do
  let part1 :=
    if r.relevant_courses = [] ∧ r.specific_courses = [] then
      ["No courses found matching the criteria"] ++
      (if qi.course_levels ≠ [] ∧ qi.departments ≠ [] then
        ["No courses found for levels " ++ pyReprLevels qi.course_levels ++
          " in departments " ++ pyReprStrList qi.departments]
       else []) ++
      (match qi.constraints.max_hours with
       | some v => ["The max hours constraint of " ++ ratStr v ++ " may be too restrictive"]
       | none => []) ++
      (match qi.constraints.min_score with
       | some v => ["The min score constraint of " ++ ratStr v ++ " may be too restrictive"]
       | none => [])
    else []
  let part2 ←
    if qi.terms ≠ [] ∧ r.relevant_courses ≠ [] then do
      let term_matches ← r.relevant_courses.foldlM
        (fun (acc : List Course) c => do
          let m ← verifyTermCheck qi.terms c
          pure (if m then acc ++ [c] else acc))
        []
      pure (if term_matches = [] then
        ["Warning: None of the relevant courses match the requested term(s): " ++
          String.intercalate ", " qi.terms]
      else [])
    else pure ([] : List String)
  let part3 :=
    if qi.course_levels ≠ [] ∧ r.relevant_courses ≠ [] then
      let level_matches := r.relevant_courses.filter fun c =>
        match c.class_tag with
        | some tag =>
          match findDeptNum tag.data with
          | some (_, nds) =>
            let n := digitsToNat nds
            qi.course_levels.any (fun lr => lr.1 ≤ n ∧ n ≤ lr.2)
          | none => false
        | none => false
      if level_matches = [] then
        ["Warning: None of the relevant courses match the requested level(s): " ++
          String.intercalate ", " (qi.course_levels.map levelRangeStr)]
      else []
    else []
  let part4 := r.relevant_courses.foldl
    (fun acc c =>
      match c.course_requirements with
      | some req =>
        if req ≠ "" ∧ (strContains (lowerStr req) "prerequisite" ∨
            strContains (lowerStr req) "prereq") then
          acc ++ ["Note: " ++ c.class_tag.getD "Course" ++ " has prerequisites: " ++ req]
        else acc
      | none => acc)
    []
  let part5 :=
    if sp.concentration ≠ "" ∧ r.relevant_courses ≠ [] then
      let cm := r.relevant_courses.filter fun c => c.department = some sp.concentration
      if cm = [] ∧ 0 < r.relevant_courses.length then
        ["Note: None of the relevant courses are in the student's concentration (" ++
          sp.concentration ++ ")"]
      else []
    else []
  let part6 :=
    if sp.courses_taken ≠ [] ∧ r.relevant_courses ≠ [] then
      r.relevant_courses.foldl
        (fun acc c =>
          match c.class_tag with
          | some tag =>
            if sp.courses_taken.any (fun t => upperStr t = upperStr tag) then
              acc ++ ["Warning: " ++ tag ++
                " is in the results but has already been taken by the student"]
            else acc
          | none => acc)
        []
    else []
  pure (part1 ++ part2 ++ part3 ++ part4 ++ part5 ++ part6)

/-! ## `CourseFinder.find_courses` -/

/-- `CourseFinder.find_courses`: run the five strategies, rank, verify,
and collect explanations; the database comes back possibly updated by
`_find_specific_courses` (see there) and the finder state carries the
semantic-search cache.  The method has no exception handler: the
`AttributeError` of the term scan (and of the verification's term
check) propagates to the caller, modelled as `Except.error`. -/
def find_courses (st : FinderState) (db : HarvardDB) (orc : Oracles) (qi : QueryInfo)
    (sp : StudentProfile) : Except Unit (FindResults × HarvardDB × FinderState) := do
  let e1 := ["Step 1: Looking for explicitly mentioned courses..."]
  let spec := find_specific_courses db qi
  let db1 := spec.2
  let e1 := e1 ++
    (if spec.1.1 ≠ [] then
      ["Found " ++ natStr spec.1.1.length ++ " explicitly mentioned courses"]
     else ["No explicitly mentioned courses found"])
  let e2 := ["Step 2: Searching by department and course level..."]
  let lev := find_courses_by_level db1 qi sp
  let e2 := e2 ++
    (if lev.1 ≠ [] then
      ["Found " ++ natStr lev.1.length ++ " courses matching department and level criteria"]
     else ["No courses found matching department and level criteria"])
  let e3 := ["Step 3: Filtering courses by term..."]
  let ter ← find_courses_by_term db1 qi
  let e3 := e3 ++
    (if ter.1 ≠ [] then
      ["Found " ++ natStr ter.1.length ++ " courses matching term criteria"]
     else ["No term specified or no courses found for the specified term"])
  let e4 := ["Step 4: Applying all structured filters..."]
  let fil := apply_all_filters db1 qi sp
  let e4 := e4 ++
    (if fil.1 ≠ [] then
      ["Found " ++ natStr fil.1.length ++ " courses matching all structured filters"]
     else ["No courses found matching all structured filters"])
  let e5 := ["Step 5: Applying semantic search for implicit criteria..."]
  let sem := find_semantic_matches st orc qi sp
  let st1 := sem.2
  let e5 := e5 ++
    (if sem.1.1 ≠ [] then
      ["Found " ++ natStr sem.1.1.length ++ " courses matching semantic criteria"]
     else ["No additional courses found through semantic search"])
  let preConf : FinderConf :=
    { specific_courses := spec.1.2, level_courses := lev.2, term_courses := ter.2,
      filtered_courses := fil.2, semantic_matches := sem.1.2, relevant_courses := 0 }
  let preResults : FindResults :=
    { specific_courses := spec.1.1, level_courses := lev.1, term_courses := ter.1,
      filtered_courses := fil.1, semantic_matches := sem.1.1,
      confidence_scores := preConf }
  let e6 := ["Step 6: Determining most relevant courses through hybrid ranking..."]
  let rel := determine_most_relevant preResults qi sp
  let e6 := e6 ++
    (if rel.1 ≠ [] then ["Selected " ++ natStr rel.1.length ++ " most relevant courses"]
     else ["Could not determine relevant courses"])
  let conf : FinderConf := { preConf with relevant_courses := rel.2 }
  let r1 : FindResults :=
    { preResults with relevant_courses := rel.1, confidence_scores := conf }
  let e7 := ["Step 7: Verifying results against requirements..."]
  let ver ← verify_results r1 qi sp
  let e7 := e7 ++
    (if ver ≠ [] then
      ["Found " ++ natStr ver.length ++ " verification notes about the results"]
     else [])
  let finalRes : FindResults :=
    { r1 with
      verification := ver
      retrieval_explanation := e1 ++ e2 ++ e3 ++ e4 ++ e5 ++ e6 ++ e7 }
  pure (finalRes, db1, st1)

/-! ## CourseRecommender -/

/-- One alternative-path entry.  `detailed_reasons = []` stands for the
key being absent (the source only adds it when nonempty). -/
structure Alternative where
  course : Course
  instead_of : String
  reason : String
  detailed_reasons : List String := []
deriving DecidableEq, Repr

/-- `CourseRecommender.confidence` (four fixed keys). -/
structure RecConf where
  recommended_courses : ℚ := 0
  workload_friendly_courses : ℚ := 0
  highly_rated_courses : ℚ := 0
  reasons : ℚ := 0
deriving DecidableEq, Repr

/-- The result dictionary of `CourseRecommender.get_recommendations`. -/
structure Recommendation where
  recommended_courses : List Course := []
  workload_friendly_courses : List Course := []
  highly_rated_courses : List Course := []
  reasons : List (String × List String) := []
  explanation : List String := []
  confidence_scores : RecConf := {}
  alternative_paths : List Alternative := []
  self_reflection : List String := []
deriving DecidableEq, Repr

/-- The mutable state of a `CourseRecommender`: its recommendation cache. -/
structure RecState where
  recommendation_cache : List (String × Recommendation) := []

/-- First-match lookup in the recommendation cache. -/
def lookupRecCache : List (String × Recommendation) → String → Option Recommendation
  | [], _ => none
  | (k, v) :: rest, s => if k = s then some v else lookupRecCache rest s

/-- In-place update of a cache entry (dict assignment keeps position). -/
def recCacheUpdate : List (String × Recommendation) → String → Recommendation →
    List (String × Recommendation)
  | [], _, _ => []
  | (k, v) :: rest, s, r =>
    if k = s then (k, r) :: rest else (k, v) :: recCacheUpdate rest s r

/-- Upsert into the `reasons` dict keyed by course tag. -/
def reasonsUpsert : List (String × List String) → String → List String →
    List (String × List String)
  | [], k, v => [(k, v)]
  | (k0, v0) :: rest, k, v =>
    if k0 = k then (k0, v) :: rest else (k0, v0) :: reasonsUpsert rest k v

/-- `CourseRecommender._generate_cache_key`.  The key deliberately encodes
only the *count* of taken courses (`f"taken:{taken_count}"`), not the
codes themselves. -/
def generate_cache_key (qi : QueryInfo) (sp : StudentProfile) : String :=
  let parts :=
    (if qi.departments ≠ [] then
      ["dept:" ++ String.intercalate "," (pySortStr qi.departments)] else []) ++
    (if qi.course_levels ≠ [] then
      ["level:" ++ String.intercalate ","
        ((pySortPairs qi.course_levels).map (fun r => natStr r.1 ++ "-" ++ natStr r.2))]
     else []) ++
    (if qi.terms ≠ [] then
      ["term:" ++ String.intercalate "," (pySortStr qi.terms)] else []) ++
    (let cs :=
      (match qi.constraints.max_hours with
       | some v => ["maxhrs:" ++ ratStr v] | none => []) ++
      (match qi.constraints.min_score with
       | some v => ["minscore:" ++ ratStr v] | none => [])
     if cs ≠ [] then ["constraints:" ++ String.intercalate "," cs] else []) ++
    (if qi.preferences ≠ [] then
      ["prefs:" ++ String.intercalate "," (pySortStr qi.preferences)] else []) ++
    (if sp.concentration ≠ "" then ["conc:" ++ sp.concentration] else []) ++
    ["taken:" ++ natStr sp.courses_taken.length]
  String.intercalate ";" parts

/-- `CourseRecommender._extract_taken_course_codes`: normalize each taken
course via `([A-Za-z]+)\s*(\d+)` (uppercased department, single space,
the digit group verbatim), falling back to the raw string.  The Python
value is a set used only for membership, modelled as the
insertion-ordered distinct entries. -/
def extract_taken_course_codes (sp : StudentProfile) : List String :=
  sp.courses_taken.foldl
    (fun acc course =>
      let entry :=
        match findDeptNum course.data with
        | some (d, n) => String.mk (d.map Char.toUpper) ++ " " ++ String.mk n
        | none => course
      if entry ∈ acc then acc else acc ++ [entry])
    []

/-- Case-insensitive literal prefix test (for `re.IGNORECASE`). -/
def ciPrefixOf (p s : List Char) : Bool :=
  (p.map Char.toLower).isPrefixOf (s.map Char.toLower)

/-- Position matcher for `({dept})\s*(\d+)` with `re.IGNORECASE`. -/
def matchCiNeedleDigits (needle : List Char) (s : List Char) : Option (List Char × Nat) :=
  if ciPrefixOf needle s then
    let s1 := s.drop needle.length
    let spaces := s1.takeWhile Char.isWhitespace
    let s2 := s1.drop spaces.length
    let ds := s2.takeWhile Char.isDigit
    if ds.length = 0 then none
    else some (ds, needle.length + spaces.length + ds.length)
  else none

/-- `CourseRecommender._get_taken_course_levels`. -/
def get_taken_course_levels (sp : StudentProfile) (dept : String) : List Nat :=
  sp.courses_taken.filterMap fun course =>
    (scanFirst (matchCiNeedleDigits dept.data) course.data).map digitsToNat

/-- Maximum of a nonempty list of naturals (`max(levels)`). -/
def maxOfList : List Nat → Option Nat
  | [] => none
  | x :: xs => some (xs.foldl max x)

/-- Constraint filter on hours used by `_get_candidate_courses`
(`not get(...) or pd.isna(...) or safe_float(...) <= max_hours`). -/
def recHoursFilter (c : Course) (mh : ℚ) : Bool :=
  match c.mean_hours with
  | some (.pyval q) => q = 0 || decide (q ≤ mh)
  | _ => true

/-- Constraint filter on score used by `_get_candidate_courses`. -/
def recScoreFilter (c : Course) (ms : ℚ) : Bool :=
  match c.overall_score_course_mean with
  | some (.pyval q) => q = 0 || decide (ms ≤ q)
  | _ => true

/-- Order-preserving dedup by `course_id` (the `seen`-set comprehension). -/
def dedupById (l : List Course) : List Course :=
  (l.foldl
    (fun (acc : List Course × List Nat) c =>
      if c.course_id ∈ acc.2 then acc else (acc.1 ++ [c], acc.2 ++ [c.course_id]))
    ([], [])).1

/-- `CourseRecommender._get_candidate_courses`.  The class defines this
method twice; Python keeps the later definition (source lines 847-975,
with the hybrid-search tertiary path), which is the one embedded. -/
def get_candidate_courses (db : HarvardDB) (orc : Oracles) (qi : QueryInfo)
    (sp : StudentProfile) : List Course :=
  let cand0 : List Course :=
    if qi.departments ≠ [] ∧ qi.course_levels ≠ [] then
      qi.departments.foldl
        (fun acc dept =>
          qi.course_levels.foldl
            (fun acc r => acc ++ get_courses_by_level_range db dept r.1 r.2) acc)
        []
    else if qi.course_levels ≠ [] ∧ qi.departments = [] then
      if sp.concentration ≠ "" then
        match lookupAssoc smallDeptMap sp.concentration with
        | some dept =>
          qi.course_levels.foldl
            (fun acc r => acc ++ get_courses_by_level_range db dept r.1 r.2) []
        | none => []
      else []
    else []
  let cand1 :=
    if cand0 = [] then
      let sq := qi.original_query ++
        (if qi.preferences ≠ [] then " " ++ String.intercalate " " qi.preferences else "")
      cand0 ++ orc.hybrid_search sq 20
    else cand0
  let cand2 :=
    if cand1 = [] ∧ sp.concentration ≠ "" then
      match lookupAssoc smallDeptMap sp.concentration with
      | some dept =>
        match maxOfList (get_taken_course_levels sp dept) with
        | some mx =>
          let nl := (mx / 10 + 1) * 10
          cand1 ++ get_courses_by_level_range db dept nl (nl + 99)
        | none => cand1 ++ get_courses_by_level_range db dept 0 99
      | none => cand1
    else cand1
  let cand3 :=
    if qi.terms ≠ [] ∧ cand2 ≠ [] then
      let tf := cand2.filter fun c =>
        qi.terms.any fun t =>
          match c.term with
          | some (.pystr ct) => strContains (lowerStr ct) (lowerStr t)
          | _ => false
      if tf ≠ [] then tf else cand2
    else cand2
  let cand4 :=
    match qi.constraints.max_hours with
    | some mh => cand3.filter (fun c => recHoursFilter c mh)
    | none => cand3
  let cand5 :=
    match qi.constraints.min_score with
    | some ms => cand4.filter (fun c => recScoreFilter c ms)
    | none => cand4
  dedupById cand5

/-- `CourseRecommender._get_relaxed_candidates`.  (`query_info.copy()` is
shallow in the source, so the constraint relaxation also writes through
to the caller's nested `constraints` dict; the relaxation itself is
modelled functionally.) -/
def get_relaxed_candidates (db : HarvardDB) (orc : Oracles) (qi : QueryInfo)
    (sp : StudentProfile) : List Course :=
  let rq : QueryInfo :=
    { qi with constraints :=
      { max_hours := qi.constraints.max_hours.map (fun v => v * 1.5)
        min_score := qi.constraints.min_score.map (fun v => max 3 (v * 0.8)) } }
  let r1 := get_candidate_courses db orc rq sp
  let r2 :=
    if r1 = [] then get_candidate_courses db orc { rq with constraints := {} } sp else r1
  let r3 :=
    if r2 = [] ∧ rq.course_levels ≠ [] then
      get_candidate_courses db orc
        { rq with course_levels := rq.course_levels.map (fun r => (r.1 - 10, r.2 + 10)) } sp
    else r2
  if r3 = [] then orc.hybrid_search qi.original_query 10 else r3

/-- The per-course score of `CourseRecommender._rank_courses`, together
with the updated ranking confidence (only a missing/NaN Q score changes
it, by `* 0.9`). -/
def recCourseScore (qi : QueryInfo) (sp : StudentProfile) (conf : ℚ) (c : Course) :
    ℚ × ℚ :=
  let s1 : ℚ × ℚ :=
    match c.overall_score_course_mean with
    | some (.pyval q) => (q * 10, conf)
    | _ => (0, conf * 0.9)
  let s2 : ℚ :=
    if "easy" ∈ qi.preferences then
      match c.mean_hours with
      | some (.pyval q) => s1.1 + max 0 (30 - q)
      | _ => s1.1
    else if "hard" ∈ qi.preferences then
      match c.mean_hours with
      | some (.pyval q) => s1.1 + min 30 q
      | _ => s1.1
    else
      match c.mean_hours with
      | some (.pyval q) => s1.1 + max 0 (20 - |10 - q| * 2)
      | _ => s1.1
  let s3 : ℚ :=
    if sp.concentration ≠ "" then
      match lookupAssoc smallDeptMap sp.concentration with
      | some dept =>
        match c.class_tag with
        | some tag => if strContains tag dept then s2 + 10 else s2
        | none => s2
      | none => s2
    else s2
  let s4 : ℚ :=
    match qi.semantic_aspects.difficulty with
    | some dp =>
      (match c.mean_hours with
       | some (.pyval q) =>
         if dp = "easy" ∧ q < 10 then s3 + 15
         else if dp = "moderate" ∧ 8 ≤ q ∧ q ≤ 15 then s3 + 15
         else if dp = "hard" ∧ 15 < q then s3 + 15
         else s3
       | _ => s3)
    | none => s3
  let s5 : ℚ :=
    match qi.semantic_aspects.format, c.description with
    | some fp, some desc =>
      let dl := lowerStr desc
      if fp = "lecture" ∧ (strContains dl "lecture" ∨ strContains dl "lectures") then s4 + 10
      else if fp = "seminar" ∧ (strContains dl "seminar" ∨ strContains dl "discussion") then
        s4 + 10
      else if fp = "project-based" ∧
          (strContains dl "project" ∨ strContains dl "lab" ∨ strContains dl "hands-on") then
        s4 + 10
      else s4
    | _, _ => s4
  let interestBonus : ℚ := (qi.preferences.filter
      (fun p => "interest:".data.isPrefixOf p.data)).foldl
    (fun acc p =>
      let interest := String.mk (p.data.drop 9)
      match c.description with
      | some d => if strContains (lowerStr d) (lowerStr interest) then acc + 15 else acc
      | none => acc)
    0
  (s5 + interestBonus, s1.2)

/-- One step of `_rank_courses`' scoring loop (courses with a falsy id
are skipped). -/
def rankStep (qi : QueryInfo) (sp : StudentProfile) (acc : List (Course × ℚ) × ℚ)
    (c : Course) : List (Course × ℚ) × ℚ :=
  if c.course_id = 0 then acc
  else
    let r := recCourseScore qi sp acc.2 c
    (acc.1 ++ [(c, r.1)], r.2)

/-- `CourseRecommender._rank_courses`. -/
def rank_courses (qi : QueryInfo) (sp : StudentProfile) (courses : List Course) :
    List Course × ℚ :=
  if courses = [] then ([], 0)
  else
    let folded : List (Course × ℚ) × ℚ := courses.foldl (rankStep qi sp) ([], 0.8)
    let sorted := pySortDesc Prod.snd folded.1
    let conf :=
      match sorted.map Prod.snd with
      | s0 :: s1 :: rest =>
        if 20 < s0 - s1 then min 1 (folded.2 + 0.1)
        else if s0 - s1 < 5 then
          match rest with
          | s2 :: _ => if s1 - s2 < 5 then folded.2 * 0.9 else folded.2
          | [] => folded.2
        else folded.2
      | _ => folded.2
    (sorted.map Prod.fst, conf)

/-! ## Recommendation reasons, alternatives, self-reflection -/

/-- Sentences of a comment string with their terminators (`.`, `!`, `?`). -/
def splitSentencesGo : List Char → List Char → List (List Char × Option Char)
  | acc, [] => if acc.isEmpty then [] else [(acc.reverse, none)]
  | acc, c :: rest =>
    if c = '.' || c = '!' || c = '?' then
      (acc.reverse, some c) :: splitSentencesGo [] rest
    else splitSentencesGo (c :: acc) rest

/-- First match of `[^.!?]*\bIND\b[^.!?]*[.!?]` with `re.IGNORECASE`: the
first terminator-ended sentence containing the indicator word-bounded
(the greedy prefix makes the match start at the sentence start and end at
its terminator). -/
def firstSentenceWith (ind : String) (cm : List Char) : Option (List Char) :=
  ((splitSentencesGo [] cm).find?
    (fun sg => sg.2.isSome && wordOccurs ind (sg.1.map Char.toLower))).map
    fun sg => sg.1 ++ (match sg.2 with | some t => [t] | none => [])

/-- `positive_phrases[0]` of `_generate_recommendation_reasons`: one
sentence per indicator in table order, the overall first kept. -/
def firstPositivePhrase (cm : String) : Option (List Char) :=
  (["great", "excellent", "amazing", "good", "best", "helpful", "enjoyed",
    "recommended"] : List String).foldl
    (fun acc ind => acc.orElse (fun _ => firstSentenceWith ind cm.data)) none

/-- `CourseRecommender._generate_recommendation_reasons`.  Numeric
renderings (`{score:.2f}` etc.) use the file-wide `ratStr` convention. -/
def generate_recommendation_reasons (recommended : List Course) (qi : QueryInfo)
    (sp : StudentProfile) : List (String × List String) :=
  recommended.foldl
    (fun acc course =>
      let tag := course.class_tag.getD ""
      if tag = "" then acc
      else
        let r1 :=
          match course.overall_score_course_mean with
          | some (.pyval q) =>
            if 4.5 ≤ q then ["Highly rated (Q Score: " ++ ratStr q ++ "/5.0)"]
            else if 4 ≤ q then ["Well-rated (Q Score: " ++ ratStr q ++ "/5.0)"]
            else ["Q Score: " ++ ratStr q ++ "/5.0"]
          | _ => []
        let r2 :=
          match course.mean_hours with
          | some (.pyval q) =>
            if "easy" ∈ qi.preferences ∧ q < 10 then
              ["Light workload (" ++ ratStr q ++ " hours/week)"]
            else if "hard" ∈ qi.preferences ∧ 15 < q then
              ["Challenging workload (" ++ ratStr q ++ " hours/week)"]
            else if q < 8 then ["Light workload (" ++ ratStr q ++ " hours/week)"]
            else if q < 12 then ["Moderate workload (" ++ ratStr q ++ " hours/week)"]
            else ["Substantial workload (" ++ ratStr q ++ " hours/week)"]
          | _ => []
        -- A truthy `NaN` term with requested terms reaches
        -- `term.lower() in course['term'].lower()` and raises in the
        -- source; that arm is modelled as contributing no reason (no
        -- claim proved here reaches it — C6 records the analogous
        -- finder-side raise).  Without requested terms the `elif` only
        -- formats the value, so `NaN` prints as "nan".
        let r3 :=
          match course.term with
          | some (.pystr t) =>
            if t ≠ "" then
              if qi.terms ≠ [] then
                if qi.terms.any (fun tt => strContains (lowerStr t) (lowerStr tt)) then
                  ["Offered in " ++ t]
                else []
              else ["Offered in " ++ t]
            else []
          | some .pynan =>
            if qi.terms ≠ [] then [] else ["Offered in nan"]
          | none => []
        let r4 :=
          match findDeptNum tag.data with
          | some (_, nds) =>
            let level := digitsToNat nds
            if level < 100 then ["Introductory level course"]
            else if level < 200 then ["Intermediate undergraduate course"]
            else ["Advanced course"]
          | none => []
        let r5 :=
          if sp.concentration ≠ "" then
            (if course.department = some sp.concentration then
              ["In your concentration (" ++ sp.concentration ++ ")"] else []) ++
            (match course.course_requirements with
             | some req =>
               if req ≠ "" then
                 match sp.courses_taken.find?
                     (fun t => strContains (upperStr req) (upperStr t)) with
                 | some taken => ["Prerequisites satisfied by " ++ taken]
                 | none =>
                   if strContains (lowerStr req) "prerequisite" then
                     ["Note: Has prerequisites"]
                   else []
               else []
             | none => [])
          else []
        let r6 := qi.preferences.foldl
          (fun acc2 p =>
            if "interest:".data.isPrefixOf p.data then
              let interest := String.mk (p.data.drop 9)
              match course.description with
              | some d =>
                if strContains (lowerStr d) (lowerStr interest) then
                  acc2 ++ ["Covers your interest in " ++ interest]
                else acc2
              | none => acc2
            else acc2)
          []
        let r7 :=
          match course.comments with
          | some cm =>
            if 100 < cm.length then
              match firstPositivePhrase cm with
              | some phrase =>
                ["Student comment: \"" ++ String.mk (pyStrip phrase) ++ "\""]
              | none => []
            else []
          | none => []
        reasonsUpsert acc tag (r1 ++ r2 ++ r3 ++ r4 ++ r5 ++ r6 ++ r7))
    []

/-- `_safe_float` as applied to a stored numeric column value (`None` and
a failed conversion give `0.0`; a `NaN` value keeps comparisons false in
Python and is modelled as `0` — only alternative-path wording depends on
it, never a proved claim). -/
def safeFloatOpt : Option PyFloat → ℚ
  | some (.pyval q) => q
  | _ => 0

/-- `CourseRecommender._find_alternative_paths`. -/
def find_alternative_paths (db : HarvardDB) (orc : Oracles) (top_courses : List Course) :
    List Alternative :=
  (top_courses.foldl
    (fun (acc : List Alternative × List String) course =>
      match course.class_tag with
      | none => acc
      | some tag =>
        if tag ∈ acc.2 then acc
        else
          let seen0 := acc.2 ++ [tag]
          let sims := (find_similar_courses db orc tag 3).filter fun c =>
            match c.class_tag with
            | some t => !(t ∈ seen0)
            | none => true
          sims.foldl
            (fun (acc2 : List Alternative × List String) similar =>
              match similar.class_tag with
              | none => acc2
              | some stag =>
                if stag = "" then acc2
                else
                  let reasons :=
                    (if similar.overall_score_course_mean ≠ none ∧
                        course.overall_score_course_mean ≠ none then
                      let ss := safeFloatOpt similar.overall_score_course_mean
                      let cs := safeFloatOpt course.overall_score_course_mean
                      if cs < ss then
                        ["Higher rating (" ++ ratStr ss ++ " vs " ++ ratStr cs ++ ")"]
                      else if ss < cs then
                        ["Lower rating (" ++ ratStr ss ++ " vs " ++ ratStr cs ++ ")"]
                      else ["Similar rating (" ++ ratStr ss ++ ")"]
                     else []) ++
                    (if similar.mean_hours ≠ none ∧ course.mean_hours ≠ none then
                      let sh := safeFloatOpt similar.mean_hours
                      let ch := safeFloatOpt course.mean_hours
                      if sh < ch * 0.8 then
                        ["Lighter workload (" ++ ratStr sh ++ " vs " ++ ratStr ch ++
                          " hours)"]
                      else if ch * 1.2 < sh then
                        ["Heavier workload (" ++ ratStr sh ++ " vs " ++ ratStr ch ++
                          " hours)"]
                      else ["Similar workload (" ++ ratStr sh ++ " hours)"]
                     else []) ++
                    (match similar.term with
                     | some t => ["Offered in " ++ t.disp]
                     | none => [])
                  let alt : Alternative :=
                    { course := similar, instead_of := tag,
                      reason := "Alternative to " ++ tag, detailed_reasons := reasons }
                  (acc2.1 ++ [alt], acc2.2 ++ [stag]))
            (acc.1, seen0))
    ([], [])).1

/-- `CourseRecommender._perform_self_reflection`. -/
def rec_self_reflection (recommended : List Course) (confRecommended : ℚ)
    (qi : QueryInfo) (sp : StudentProfile) : List String :=
  (if recommended.length = 0 then ["No courses found matching the criteria"]
   else if recommended.length < 3 then ["Limited number of courses match the criteria"]
   else []) ++
  (if confRecommended < 0.7 then
    ["Low confidence in these recommendations, may need more specific criteria"]
   else []) ++
  (recommended.foldl
    (fun acc c =>
      match c.course_requirements with
      | some req =>
        if req ≠ "" ∧ (strContains (lowerStr req) "prerequisite" ∨
            strContains (lowerStr req) "prereq") then
          if sp.courses_taken.any (fun t => strContains (upperStr req) (upperStr t)) then
            acc
          else
            acc ++ ["Warning: " ++ c.class_tag.getD "Course" ++
              " may have prerequisites you haven't taken"]
        else acc
      | none => acc)
    []) ++
  (if "easy" ∈ qi.preferences then
    let high := recommended.filterMap fun c =>
      match c.mean_hours with
      | some (.pyval q) => if 12 < q then some (c.class_tag.getD "") else none
      | _ => none
    if high ≠ [] then
      ["Note: Some recommended courses have higher workload than requested: " ++
        String.intercalate ", " high]
    else []
   else []) ++
  (if sp.concentration ≠ "" ∧ recommended ≠ [] then
    if recommended.filter (fun c => c.department = some sp.concentration) = [] then
      ["None of the recommendations are in your concentration (" ++ sp.concentration ++ ")"]
    else []
   else []) ++
  -- As in `_generate_recommendation_reasons`, a truthy `NaN` term here
  -- reaches `.lower()` and raises in the source; the arm is modelled as
  -- not a mismatch (no claim proved here reaches it).
  (if qi.terms ≠ [] ∧ recommended ≠ [] then
    let mism := recommended.filterMap fun c =>
      match c.term with
      | some (.pystr t) =>
        if t ≠ "" ∧ ¬ qi.terms.any (fun tt => strContains (lowerStr t) (lowerStr tt)) then
          some (c.class_tag.getD "")
        else none
      | _ => none
    if mism ≠ [] then
      ["Some courses may not be offered in the requested term: " ++
        String.intercalate ", " mism]
    else []
   else [])

/-- Sort key for `workload_friendly` (the list is pre-filtered to real
values, where `_safe_float` is the number itself). -/
def hoursKey (c : Course) : ℚ := safeFloatOpt c.mean_hours

/-- Sort key for `highly_rated`. -/
def scoreKey (c : Course) : ℚ := safeFloatOpt c.overall_score_course_mean

/-- The cache-miss body of `get_recommendations` from the
already-taken filter onwards (`candidates` is the non-empty candidate
set, `e` the explanation built so far, `key` the cache key). -/
def recommendBody (state : RecState) (db : HarvardDB) (orc : Oracles) (qi : QueryInfo)
    (sp : StudentProfile) (candidates : List Course) (e : List String) (key : String) :
    Recommendation × RecState :=
  let taken := extract_taken_course_codes sp
  let cand := candidates.filter fun c =>
    match c.class_tag with
    | some t => !(t ∈ taken)
    | none => true
  if cand = [] then
    ({ explanation := e ++ ["All candidate courses have already been taken by the student."]
       self_reflection := ["Student has already taken all courses matching the criteria"] },
     state)
  else
    let e := e ++ ["After filtering out courses already taken, " ++ natStr cand.length ++
      " candidates remain."]
    let e := e ++ ["Ranking courses based on student profile and preferences..."]
    let rk := rank_courses qi sp cand
    let ranked := rk.1
    let recommended := ranked.take 5
    let e := e ++
      (if ranked ≠ [] then
        ["Successfully ranked courses. Top recommendation: " ++
          ((ranked.head?.bind Course.class_tag).getD "Unknown") ++ " - " ++
          ((ranked.head?.bind Course.class_name).getD "Unknown")]
       else ["Failed to rank courses appropriately."])
    let e := e ++ ["Identifying courses with manageable workload..."]
    let wf := pySortAsc hoursKey (cand.filter fun c =>
      match c.mean_hours with | some (.pyval _) => true | _ => false)
    let wfConf : ℚ := if wf ≠ [] then 0.9 else 0
    let e := e ++
      (if wf ≠ [] then
        ["Found " ++ natStr (wf.take 3).length ++ " courses with manageable workload."]
       else ["No courses with workload information available."])
    let e := e ++ ["Identifying highly-rated courses..."]
    let hr := pySortDesc scoreKey (cand.filter fun c =>
      match c.overall_score_course_mean with | some (.pyval _) => true | _ => false)
    let hrConf : ℚ := if hr ≠ [] then 0.9 else 0
    let e := e ++
      (if hr ≠ [] then
        ["Found " ++ natStr (hr.take 3).length ++ " highly-rated courses."]
       else ["No courses with rating information available."])
    let e := e ++ ["Generating explanations for recommendations..."]
    let reasons := generate_recommendation_reasons recommended qi sp
    let reasonsConf : ℚ := if reasons ≠ [] then 0.85 else 0
    let e := e ++ ["Identifying alternative course paths..."]
    let alts := find_alternative_paths db orc (ranked.take 3)
    let e := e ++
      (if alts ≠ [] then
        ["Found " ++ natStr alts.length ++ " alternative course paths."]
       else ["No alternative course paths identified."])
    let e := e ++ ["Performing self-reflection on recommendations..."]
    let refl := rec_self_reflection recommended rk.2 qi sp
    let recOut : Recommendation :=
      { recommended_courses := recommended
        workload_friendly_courses := wf.take 3
        highly_rated_courses := hr.take 3
        reasons := reasons
        explanation := e
        confidence_scores :=
          { recommended_courses := rk.2, workload_friendly_courses := wfConf,
            highly_rated_courses := hrConf, reasons := reasonsConf }
        alternative_paths := alts
        self_reflection := refl }
    (recOut, { recommendation_cache := state.recommendation_cache ++ [(key, recOut)] })

/-- `CourseRecommender.get_recommendations`.  Non-recommendation intents
return an empty flagged result; otherwise the cache is consulted with
`_generate_cache_key` (a hit returns the cached recommendation, mutating
its stored explanation in place as the source does); a miss computes
candidates (with relaxation), filters taken courses, ranks, and caches. -/
def get_recommendations (state : RecState) (db : HarvardDB) (orc : Oracles)
    (qi : QueryInfo) (sp : StudentProfile) : Recommendation × RecState :=
  if qi.intent ≠ "course_recommendation" then
    ({ explanation := ["Query intent is not asking for course recommendations."] }, state)
  else
    let e := ["Starting recommendation process based on query and student profile..."]
    let key := generate_cache_key qi sp
    match lookupRecCache state.recommendation_cache key with
    | some cached =>
      let newExpl := e ++ ["Using cached recommendations for similar query."]
      let updated := { cached with explanation := newExpl ++ cached.explanation }
      (updated,
       { recommendation_cache := recCacheUpdate state.recommendation_cache key updated })
    | none =>
      let e := e ++ ["Finding candidate courses based on query criteria..."]
      let cand0 := get_candidate_courses db orc qi sp
      if cand0 = [] then
        let e := e ++ ["No candidate courses found matching the basic criteria.",
          "Expanding search with relaxed criteria..."]
        let relaxed := get_relaxed_candidates db orc qi sp
        if relaxed ≠ [] then
          recommendBody state db orc qi sp relaxed
            (e ++ ["Found " ++ natStr relaxed.length ++ " courses with relaxed criteria."])
            key
        else
          ({ explanation := e ++ ["Still no candidates found even with relaxed criteria."]
             self_reflection := ["No courses found matching the criteria"] },
           state)
      else
        recommendBody state db orc qi sp cand0
          (e ++ ["Found " ++ natStr cand0.length ++ " candidate courses."]) key

/-! ## Concrete fixtures

Small concrete course tables used by witnesses and counterexamples. -/

/-- A parseable MATH 21 row filed under term "Fall 2025". -/
def rowMath21 : Row :=
  { course_id := some 1
    class_name := some "Linear Algebra"
    class_tag := some "MATH 21"
    term := some (.pystr "Fall 2025") }

/-- A parseable MATH 131 row filed under term "2025 Fall". -/
def rowMath131 : Row :=
  { course_id := some 2
    class_name := some "Topology"
    class_tag := some "MATH 131"
    term := some (.pystr "2025 Fall") }

/-- A two-course table. -/
def sampleRows : List Row := [rowMath21, rowMath131]

/-- The database built from `sampleRows` with no Q-report data. -/
def sampleDB : HarvardDB := mkDatabase sampleRows []

/-- The same table with a Q-report `mean_hours` entry for course 1. -/
def sampleDBq : HarvardDB := mkDatabase sampleRows [(1, PyFloat.pyval 8)]

/-- A comparison-intent query naming MATH 21. -/
def qiCompare : QueryInfo :=
  { original_query := "compare MATH 21 and MATH 131"
    course_codes := ["MATH 21"]
    intent := "comparison"
    confidence_scores := { course_codes := 9/10 } }

/-- A course-info query naming MATH 21. -/
def qiInfo : QueryInfo :=
  { original_query := "tell me about MATH 21"
    course_codes := ["MATH 21"]
    intent := "course_info"
    confidence_scores := { course_codes := 9/10 } }

/-- A previous-turn query info: one department extracted with
confidence 3/5. -/
def prevQi : QueryInfo :=
  { original_query := "recommend math courses"
    departments := ["MATH"]
    intent := "course_recommendation"
    confidence_scores := { departments := 3/5 } }

/-- A follow-up turn that extracted no department, level, code or
referenced course. -/
def fuQi : QueryInfo :=
  { original_query := "what about something easier"
    is_followup := true }

/-- An oracle set with the vector backend unavailable and the capability
raising. -/
def orcFail : Oracles :=
  { vector_ok := false
    vector_search_capability := fun _ _ => .error ()
    hybrid_search := fun _ _ => [] }

/-- A student profile with nothing filled in. -/
def spEmpty : StudentProfile := {}

/-- A finder whose search cache starts empty. -/
def finderInit : FinderState := {}

/-- A recommender whose recommendation cache starts empty. -/
def recInit : RecState := {}

/-- A recommendation query for MATH courses across levels 0-999. -/
def qiRec : QueryInfo :=
  { original_query := "recommend a math course"
    departments := ["MATH"]
    course_levels := [(0, 999)]
    intent := "course_recommendation"
    confidence_scores := { departments := 9/10, course_levels := 9/10, intent := 9/10 } }

/-- A profile that has taken MATH 131. -/
def profTookM131 : StudentProfile := { courses_taken := ["MATH 131"] }

/-- A profile that has taken MATH 21. -/
def profTookM21 : StudentProfile := { courses_taken := ["MATH 21"] }

/-- A row whose stored `class_tag` is unnormalized ("math  131"). -/
def rowOdd : Row :=
  { course_id := some 3
    class_name := some "Odd Tag Topology"
    class_tag := some "math  131" }

/-- A one-course table around the unnormalized tag. -/
def oddDB : HarvardDB := mkDatabase [rowOdd] []

/-- A row whose stored `term` is a pandas `NaN`. -/
def rowNanTerm : Row :=
  { course_id := some 4
    class_name := some "Mystery Term"
    class_tag := some "MATH 55"
    term := some .pynan }

/-- A table containing a `NaN`-term course. -/
def dbNan : HarvardDB := mkDatabase [rowMath21, rowNanTerm] []

/-- A term query that names no course codes. -/
def qiTerm : QueryInfo :=
  { original_query := "math courses offered in the fall"
    terms := ["Fall"]
    intent := "course_information"
    confidence_scores := { terms := 9/10 } }

/-! # Theorems

The claims C1-C10 are settled below.  General-purpose lemmas about the
dictionary model and the build come first. -/

/-- Looking up an association list extended on the right: the old binding
wins, the new one only answers fresh keys. -/
theorem dictLookup_append (l : List (Nat × Course)) (k : Nat) (v : Course) (id : Nat) :
    dictLookup (l ++ [(k, v)]) id =
      match dictLookup l id with
      | some c => some c
      | none => if k = id then some v else none := by
  induction l with
  | nil => simp [dictLookup]
  | cons p rest ih =>
    by_cases h : p.1 = id
    · simp [dictLookup, h]
    · simpa [dictLookup, h] using ih

/-- Membership in an association list with distinct keys is equivalent to
a successful lookup. -/
theorem dictLookup_eq_some_iff {l : List (Nat × Course)}
    (h : (l.map Prod.fst).Nodup) (id : Nat) (c : Course) :
    dictLookup l id = some c ↔ (id, c) ∈ l := by
  induction l with
  | nil => simp [dictLookup]
  | cons p rest ih =>
    obtain ⟨k, v⟩ := p
    simp only [List.map_cons, List.nodup_cons] at h
    by_cases hpk : k = id
    · subst hpk
      have hd : dictLookup ((k, v) :: rest) k = some v := by simp [dictLookup]
      rw [hd, Option.some_inj]
      constructor
      · rintro rfl
        exact List.mem_cons_self _ _
      · intro hm
        rcases List.mem_cons.mp hm with h1 | h2
        · exact (Prod.mk.injEq _ _ _ _ ▸ h1).2.symm
        · exact absurd (List.mem_map.mpr ⟨(k, c), h2, rfl⟩) h.1
    · have hd : dictLookup ((k, v) :: rest) id = dictLookup rest id := by
        simp [dictLookup, hpk]
      rw [hd, ih h.2]
      constructor
      · intro h2
        exact List.mem_cons_of_mem _ h2
      · intro hm
        rcases List.mem_cons.mp hm with h1 | h2
        · exact absurd ((Prod.mk.injEq _ _ _ _ ▸ h1).1.symm) hpk
        · exact h2

/-- `strOfTerm` succeeds exactly on string values. -/
theorem strOfTerm_eq_some (o : Option PyStr) (t : String) :
    strOfTerm o = some t ↔ o = some (.pystr t) := by
  cases o with
  | none => simp [strOfTerm]
  | some v => cases v <;> simp [strOfTerm]

/-- Membership in a fold that appends the image of each element. -/
theorem mem_foldl_append {β : Type} (f : β → List Course) (l : List β) (c : Course)
    (init : List Course) :
    c ∈ l.foldl (fun acc b => acc ++ f b) init ↔ c ∈ init ∨ ∃ b ∈ l, c ∈ f b := by
  induction l generalizing init with
  | nil => simp
  | cons b rest ih =>
    rw [List.foldl_cons, ih]
    constructor
    · rintro (h | h)
      · rcases List.mem_append.mp h with h1 | h2
        · exact Or.inl h1
        · exact Or.inr ⟨b, List.mem_cons_self _ _, h2⟩
      · rcases h with ⟨b', hb', hc⟩
        exact Or.inr ⟨b', List.mem_cons_of_mem _ hb', hc⟩
    · rintro (h | ⟨b', hb', hc⟩)
      · exact Or.inl (List.mem_append.mpr (Or.inl h))
      · rcases List.mem_cons.mp hb' with h1 | h2
        · cases h1
          exact Or.inl (List.mem_append.mpr (Or.inr hc))
        · exact Or.inr ⟨b', h2, hc⟩

/-! ## Invariants of the `process_courses` build -/

/-- What `process_courses` guarantees about the lookup structures: keys of
`course_dict` are distinct and equal the processed-id set; every
`course_by_code` binding records a stored course under the normalized
code of its parsed `class_tag`; the level buckets hold exactly the stored
courses with a parseable tag, keyed by uppercased department and decade;
the term buckets hold exactly the stored courses with that (nonempty)
exact term string. -/
structure BuildInv (db : HarvardDB) : Prop where
  keys_nodup : (db.course_dict.map Prod.fst).Nodup
  processed_iff : ∀ id : Nat, id ∈ db.processed_ids ↔ ∃ c, (id, c) ∈ db.course_dict
  code_inv : ∀ s id, db.course_by_code s = some id →
    ∃ c tg d nds, dictLookup db.course_dict id = some c ∧ c.class_tag = some tg ∧
      findDeptNum tg.data = some (d, nds) ∧ s = normCode d nds
  level_fwd : ∀ dept lvl id, id ∈ db.courses_by_level (dept, lvl) →
    ∃ c tg d nds, dictLookup db.course_dict id = some c ∧ c.class_tag = some tg ∧
      findDeptNum tg.data = some (d, nds) ∧ dept = String.mk (d.map Char.toUpper) ∧
      lvl = digitsToNat nds / 10 * 10
  level_bwd : ∀ id c tg d nds, (id, c) ∈ db.course_dict → c.class_tag = some tg →
    findDeptNum tg.data = some (d, nds) →
    id ∈ db.courses_by_level (String.mk (d.map Char.toUpper), digitsToNat nds / 10 * 10)
  term_fwd : ∀ t id, id ∈ db.courses_by_term t →
    ∃ c, dictLookup db.course_dict id = some c ∧ c.term = some (.pystr t) ∧ t ≠ ""
  term_bwd : ∀ id c t, (id, c) ∈ db.course_dict → c.term = some (.pystr t) → t ≠ "" →
    id ∈ db.courses_by_term t

theorem tagUpdate_course_dict (db : HarvardDB) (cid : Nat) (ot : Option String) :
    (tagUpdate db cid ot).course_dict = db.course_dict := by
  cases ot with
  | none => rfl
  | some tag =>
    rcases h : findDeptNum tag.data with _ | ⟨d, nds⟩ <;> simp [tagUpdate, h]

theorem tagUpdate_processed (db : HarvardDB) (cid : Nat) (ot : Option String) :
    (tagUpdate db cid ot).processed_ids = db.processed_ids := by
  cases ot with
  | none => rfl
  | some tag =>
    rcases h : findDeptNum tag.data with _ | ⟨d, nds⟩ <;> simp [tagUpdate, h]

theorem tagUpdate_term (db : HarvardDB) (cid : Nat) (ot : Option String) :
    (tagUpdate db cid ot).courses_by_term = db.courses_by_term := by
  cases ot with
  | none => rfl
  | some tag =>
    rcases h : findDeptNum tag.data with _ | ⟨d, nds⟩ <;> simp [tagUpdate, h]

theorem nameUpdate_course_dict (db : HarvardDB) (cid : Nat) (ot : Option String) :
    (nameUpdate db cid ot).course_dict = db.course_dict := by
  cases ot with
  | none => rfl
  | some nm => by_cases h : nm = "" <;> simp [nameUpdate, h]

theorem nameUpdate_processed (db : HarvardDB) (cid : Nat) (ot : Option String) :
    (nameUpdate db cid ot).processed_ids = db.processed_ids := by
  cases ot with
  | none => rfl
  | some nm => by_cases h : nm = "" <;> simp [nameUpdate, h]

theorem nameUpdate_code (db : HarvardDB) (cid : Nat) (ot : Option String) :
    (nameUpdate db cid ot).course_by_code = db.course_by_code := by
  cases ot with
  | none => rfl
  | some nm => by_cases h : nm = "" <;> simp [nameUpdate, h]

theorem nameUpdate_level (db : HarvardDB) (cid : Nat) (ot : Option String) :
    (nameUpdate db cid ot).courses_by_level = db.courses_by_level := by
  cases ot with
  | none => rfl
  | some nm => by_cases h : nm = "" <;> simp [nameUpdate, h]

theorem nameUpdate_term (db : HarvardDB) (cid : Nat) (ot : Option String) :
    (nameUpdate db cid ot).courses_by_term = db.courses_by_term := by
  cases ot with
  | none => rfl
  | some nm => by_cases h : nm = "" <;> simp [nameUpdate, h]

theorem termUpdate_course_dict (db : HarvardDB) (cid : Nat) (ot : Option String) :
    (termUpdate db cid ot).course_dict = db.course_dict := by
  cases ot with
  | none => rfl
  | some t => by_cases h : t = "" <;> simp [termUpdate, h]

theorem termUpdate_processed (db : HarvardDB) (cid : Nat) (ot : Option String) :
    (termUpdate db cid ot).processed_ids = db.processed_ids := by
  cases ot with
  | none => rfl
  | some t => by_cases h : t = "" <;> simp [termUpdate, h]

theorem termUpdate_code (db : HarvardDB) (cid : Nat) (ot : Option String) :
    (termUpdate db cid ot).course_by_code = db.course_by_code := by
  cases ot with
  | none => rfl
  | some t => by_cases h : t = "" <;> simp [termUpdate, h]

theorem termUpdate_level (db : HarvardDB) (cid : Nat) (ot : Option String) :
    (termUpdate db cid ot).courses_by_level = db.courses_by_level := by
  cases ot with
  | none => rfl
  | some t => by_cases h : t = "" <;> simp [termUpdate, h]

/-- The code index after a successful tag parse. -/
theorem tagUpdate_code_parse (db : HarvardDB) (cid : Nat) (tag : String)
    (d nds : List Char) (hp : findDeptNum tag.data = some (d, nds)) :
    (tagUpdate db cid (some tag)).course_by_code =
      fun s => if s = normCode d nds then some cid else db.course_by_code s := by
  simp [tagUpdate, hp, normCode]

/-- The level buckets after a successful tag parse. -/
theorem tagUpdate_level_parse (db : HarvardDB) (cid : Nat) (tag : String)
    (d nds : List Char) (hp : findDeptNum tag.data = some (d, nds)) :
    (tagUpdate db cid (some tag)).courses_by_level =
      fun k =>
        if k = (String.mk (d.map Char.toUpper), digitsToNat nds / 10 * 10) then
          db.courses_by_level k ++ [cid]
        else db.courses_by_level k := by
  simp [tagUpdate, hp]

/-- The code index is untouched when the tag is absent or unparseable. -/
theorem tagUpdate_code_noparse (db : HarvardDB) (cid : Nat) (ot : Option String)
    (h : ∀ tag, ot = some tag → findDeptNum tag.data = none) :
    (tagUpdate db cid ot).course_by_code = db.course_by_code := by
  cases ot with
  | none => rfl
  | some tag => simp [tagUpdate, h tag rfl]

/-- The level buckets are untouched when the tag is absent or
unparseable. -/
theorem tagUpdate_level_noparse (db : HarvardDB) (cid : Nat) (ot : Option String)
    (h : ∀ tag, ot = some tag → findDeptNum tag.data = none) :
    (tagUpdate db cid ot).courses_by_level = db.courses_by_level := by
  cases ot with
  | none => rfl
  | some tag => simp [tagUpdate, h tag rfl]

/-- The term buckets after a nonempty term. -/
theorem termUpdate_term_some (db : HarvardDB) (cid : Nat) (t : String) (ht : t ≠ "") :
    (termUpdate db cid (some t)).courses_by_term =
      fun s => if s = t then db.courses_by_term s ++ [cid] else db.courses_by_term s := by
  simp [termUpdate, ht]

/-- The term buckets are untouched for an absent or empty term. -/
theorem termUpdate_term_nop (db : HarvardDB) (cid : Nat) (ot : Option String)
    (h : ∀ t, ot = some t → t = "") :
    (termUpdate db cid ot).courses_by_term = db.courses_by_term := by
  cases ot with
  | none => rfl
  | some t => simp [termUpdate, h t rfl]

/-- One inserted row preserves the build invariant. -/
theorem insert_inv (db : HarvardDB) (row : Row) (cid : Nat) (inv : BuildInv db)
    (hproc : cid ∉ db.processed_ids) :
    BuildInv (termUpdate (nameUpdate (tagUpdate (insertCourse db cid row) cid
      row.class_tag) cid row.class_name) cid (strOfTerm row.term)) := by
  have hnotkey : ∀ c : Course, (cid, c) ∉ db.course_dict := by
    intro c hc
    exact hproc ((inv.processed_iff cid).mpr ⟨c, hc⟩)
  have hdict : (termUpdate (nameUpdate (tagUpdate (insertCourse db cid row) cid
      row.class_tag) cid row.class_name) cid (strOfTerm row.term)).course_dict =
      db.course_dict ++ [(cid, row.toCourse cid)] := by
    rw [termUpdate_course_dict, nameUpdate_course_dict, tagUpdate_course_dict]
    rfl
  have hprocF : (termUpdate (nameUpdate (tagUpdate (insertCourse db cid row) cid
      row.class_tag) cid row.class_name) cid (strOfTerm row.term)).processed_ids =
      cid :: db.processed_ids := by
    rw [termUpdate_processed, nameUpdate_processed, tagUpdate_processed]
    rfl
  have hcodeF : (termUpdate (nameUpdate (tagUpdate (insertCourse db cid row) cid
      row.class_tag) cid row.class_name) cid (strOfTerm row.term)).course_by_code =
      (tagUpdate (insertCourse db cid row) cid row.class_tag).course_by_code := by
    rw [termUpdate_code, nameUpdate_code]
  have hlevelF : (termUpdate (nameUpdate (tagUpdate (insertCourse db cid row) cid
      row.class_tag) cid row.class_name) cid (strOfTerm row.term)).courses_by_level =
      (tagUpdate (insertCourse db cid row) cid row.class_tag).courses_by_level := by
    rw [termUpdate_level, nameUpdate_level]
  have hterm3 : (nameUpdate (tagUpdate (insertCourse db cid row) cid row.class_tag)
      cid row.class_name).courses_by_term = db.courses_by_term := by
    rw [nameUpdate_term, tagUpdate_term]
    rfl
  have hcode_ins : (insertCourse db cid row).course_by_code = db.course_by_code := rfl
  have hlevel_ins : (insertCourse db cid row).courses_by_level = db.courses_by_level := rfl
  have hmem' : ∀ (id : Nat) (c0 : Course),
      (id, c0) ∈ db.course_dict ++ [(cid, row.toCourse cid)] ↔
      (id, c0) ∈ db.course_dict ∨ (id = cid ∧ c0 = row.toCourse cid) := by
    intro id c0
    simp [Prod.ext_iff]
  have hkeys' : ((db.course_dict ++ [(cid, row.toCourse cid)]).map Prod.fst).Nodup := by
    rw [List.map_append]
    refine List.Nodup.append inv.keys_nodup (List.nodup_singleton _) ?_
    intro a ha hb
    simp only [List.map_cons, List.map_nil, List.mem_singleton] at hb
    rcases List.mem_map.mp ha with ⟨p, hp, hfst⟩
    obtain ⟨k, v⟩ := p
    exact hnotkey v (by rw [← hb, ← hfst]; exact hp)
  have hlookup_old : ∀ (id : Nat) (c0 : Course), dictLookup db.course_dict id = some c0 →
      dictLookup (db.course_dict ++ [(cid, row.toCourse cid)]) id = some c0 := by
    intro id c0 h0
    rw [dictLookup_append, h0]
  have hlookup_cid : dictLookup (db.course_dict ++ [(cid, row.toCourse cid)]) cid =
      some (row.toCourse cid) := by
    have h0 : dictLookup db.course_dict cid = none := by
      cases h1 : dictLookup db.course_dict cid with
      | none => rfl
      | some c0 =>
        exact absurd ((dictLookup_eq_some_iff inv.keys_nodup cid c0).mp h1) (hnotkey c0)
    rw [dictLookup_append, h0]
    simp
  constructor
  -- keys_nodup
  case keys_nodup =>
    rw [hdict]
    exact hkeys'
  -- processed_iff
  case processed_iff =>
    intro id
    rw [hdict, hprocF]
    simp only [List.mem_cons]
    constructor
    · rintro (h | hin)
      · exact ⟨row.toCourse cid, (hmem' _ _).mpr (Or.inr ⟨h, rfl⟩)⟩
      · rcases (inv.processed_iff id).mp hin with ⟨c, hc⟩
        exact ⟨c, (hmem' _ _).mpr (Or.inl hc)⟩
    · rintro ⟨c, hc⟩
      rcases (hmem' _ _).mp hc with h | ⟨rfl, _⟩
      · exact Or.inr ((inv.processed_iff id).mpr ⟨c, h⟩)
      · exact Or.inl rfl
  -- code_inv
  case code_inv =>
    intro s id hs
    rw [hdict]
    rw [hcodeF] at hs
    have hold : db.course_by_code s = some id →
        ∃ c tg d nds, dictLookup (db.course_dict ++ [(cid, row.toCourse cid)]) id = some c ∧
          c.class_tag = some tg ∧ findDeptNum tg.data = some (d, nds) ∧
          s = normCode d nds := by
      intro h0
      rcases inv.code_inv s id h0 with ⟨c, tg, d, nds, hl, ht, hp, he⟩
      exact ⟨c, tg, d, nds, hlookup_old id c hl, ht, hp, he⟩
    rcases htag : row.class_tag with _ | tag
    · rw [tagUpdate_code_noparse _ _ _ (by simp [htag]), hcode_ins] at hs
      exact hold hs
    · rcases hp : findDeptNum tag.data with _ | ⟨d, nds⟩
      · rw [tagUpdate_code_noparse _ _ _ (by intro tg h0; rw [htag] at h0; cases h0; exact hp),
          hcode_ins] at hs
        exact hold hs
      · rw [htag, tagUpdate_code_parse _ _ _ _ _ hp, hcode_ins] at hs
        simp only [] at hs
        by_cases hsc : s = normCode d nds
        · rw [if_pos hsc] at hs
          cases hs
          refine ⟨row.toCourse cid, tag, d, nds, hlookup_cid, ?_, hp, hsc⟩
          show row.class_tag = some tag
          exact htag
        · rw [if_neg hsc] at hs
          exact hold hs
  -- level_fwd
  case level_fwd =>
    intro dept lvl id hin
    rw [hdict]
    rw [hlevelF] at hin
    have hold : id ∈ db.courses_by_level (dept, lvl) →
        ∃ c tg d nds, dictLookup (db.course_dict ++ [(cid, row.toCourse cid)]) id = some c ∧
          c.class_tag = some tg ∧ findDeptNum tg.data = some (d, nds) ∧
          dept = String.mk (d.map Char.toUpper) ∧ lvl = digitsToNat nds / 10 * 10 := by
      intro h0
      rcases inv.level_fwd dept lvl id h0 with ⟨c, tg, d, nds, hl, ht, hp, hd, hlv⟩
      exact ⟨c, tg, d, nds, hlookup_old id c hl, ht, hp, hd, hlv⟩
    rcases htag : row.class_tag with _ | tag
    · rw [tagUpdate_level_noparse _ _ _ (by simp [htag]), hlevel_ins] at hin
      exact hold hin
    · rcases hp : findDeptNum tag.data with _ | ⟨d, nds⟩
      · rw [tagUpdate_level_noparse _ _ _ (by intro tg h0; rw [htag] at h0; cases h0; exact hp),
          hlevel_ins] at hin
        exact hold hin
      · rw [htag, tagUpdate_level_parse _ _ _ _ _ hp, hlevel_ins] at hin
        simp only [] at hin
        by_cases hk : (dept, lvl) =
            (String.mk (d.map Char.toUpper), digitsToNat nds / 10 * 10)
        · rw [if_pos hk] at hin
          rcases List.mem_append.mp hin with h0 | h0
          · exact hold h0
          · simp only [List.mem_singleton] at h0
            subst h0
            have hk1 : dept = String.mk (d.map Char.toUpper) := congrArg Prod.fst hk
            have hk2 : lvl = digitsToNat nds / 10 * 10 := congrArg Prod.snd hk
            refine ⟨row.toCourse id, tag, d, nds, hlookup_cid, ?_, hp, hk1, hk2⟩
            show row.class_tag = some tag
            exact htag
        · rw [if_neg hk] at hin
          exact hold hin
  -- level_bwd
  case level_bwd =>
    intro id c tg d nds hmem htg hp
    rw [hdict] at hmem
    rw [hlevelF]
    rcases (hmem' _ _).mp hmem with hold | ⟨rfl, rfl⟩
    · have hbase := inv.level_bwd id c tg d nds hold htg hp
      rcases htag : row.class_tag with _ | tag
      · rw [tagUpdate_level_noparse _ _ _ (by simp [htag]), hlevel_ins]
        exact hbase
      · rcases hp2 : findDeptNum tag.data with _ | ⟨d2, nds2⟩
        · rw [tagUpdate_level_noparse _ _ (some tag)
            (by intro t0 h0; cases h0; exact hp2), hlevel_ins]
          exact hbase
        · rw [tagUpdate_level_parse _ _ _ _ _ hp2, hlevel_ins]
          simp only []
          by_cases hk : (String.mk (d.map Char.toUpper), digitsToNat nds / 10 * 10) =
              (String.mk (d2.map Char.toUpper), digitsToNat nds2 / 10 * 10)
          · rw [if_pos hk]
            exact List.mem_append_left _ hbase
          · rw [if_neg hk]
            exact hbase
    · have htag : row.class_tag = some tg := htg
      rw [htag, tagUpdate_level_parse _ _ _ _ _ hp, hlevel_ins]
      simp
  -- term_fwd
  case term_fwd =>
    intro t id hin
    rw [hdict]
    have htermF : (termUpdate (nameUpdate (tagUpdate (insertCourse db cid row) cid
        row.class_tag) cid row.class_name) cid (strOfTerm row.term)).courses_by_term = db.courses_by_term
        ∨ (∃ t0, strOfTerm row.term = some t0 ∧ t0 ≠ "" ∧
          (termUpdate (nameUpdate (tagUpdate (insertCourse db cid row) cid
            row.class_tag) cid row.class_name) cid (strOfTerm row.term)).courses_by_term =
          fun s => if s = t0 then db.courses_by_term s ++ [cid] else db.courses_by_term s) := by
      cases ht0 : strOfTerm row.term with
      | none =>
        left
        rw [termUpdate_term_nop _ _ none (by intro t1 h1; simp at h1), hterm3]
      | some t0 =>
        by_cases he : t0 = ""
        · left
          rw [termUpdate_term_nop _ _ (some t0)
            (by intro t1 h1; cases h1; exact he), hterm3]
        · right
          refine ⟨t0, rfl, he, ?_⟩
          rw [termUpdate_term_some _ _ _ he, hterm3]
    have holdT : id ∈ db.courses_by_term t →
        ∃ c, dictLookup (db.course_dict ++ [(cid, row.toCourse cid)]) id = some c ∧
          c.term = some (.pystr t) ∧ t ≠ "" := by
      intro h0
      rcases inv.term_fwd t id h0 with ⟨c, hl, ht, hne⟩
      exact ⟨c, hlookup_old id c hl, ht, hne⟩
    rcases htermF with heq | ⟨t0, ht0, hne0, heq⟩
    · rw [heq] at hin
      exact holdT hin
    · rw [heq] at hin
      simp only [] at hin
      by_cases hts : t = t0
      · rw [if_pos hts] at hin
        rcases List.mem_append.mp hin with h0 | h0
        · exact holdT h0
        · simp only [List.mem_singleton] at h0
          subst h0
          subst hts
          refine ⟨row.toCourse id, hlookup_cid, ?_, hne0⟩
          show row.term = some (.pystr t)
          exact (strOfTerm_eq_some _ _).mp ht0
      · rw [if_neg hts] at hin
        exact holdT hin
  -- term_bwd
  case term_bwd =>
    intro id c t hmem ht hne
    rw [hdict] at hmem
    rcases (hmem' _ _).mp hmem with hold | ⟨rfl, rfl⟩
    · have hbase := inv.term_bwd id c t hold ht hne
      cases ht0 : strOfTerm row.term with
      | none =>
        rw [termUpdate_term_nop _ _ none (by intro t1 h1; simp at h1), hterm3]
        exact hbase
      | some t0 =>
        by_cases he : t0 = ""
        · rw [termUpdate_term_nop _ _ (some t0)
            (by intro t1 h1; cases h1; exact he), hterm3]
          exact hbase
        · rw [termUpdate_term_some _ _ _ he, hterm3]
          simp only []
          by_cases hts : t = t0
          · rw [if_pos hts]
            exact List.mem_append_left _ hbase
          · rw [if_neg hts]
            exact hbase
    · have ht0 : strOfTerm row.term = some t := (strOfTerm_eq_some _ _).mpr ht
      rw [ht0, termUpdate_term_some _ _ _ hne, hterm3]
      simp

/-- `processRow` preserves the build invariant. -/
theorem processRow_inv (db : HarvardDB) (row : Row) (inv : BuildInv db) :
    BuildInv (processRow db row) := by
  rcases hcid : row.course_id with _ | cid
  · simpa [processRow, hcid] using inv
  · rcases hnm : row.class_name with _ | nm
    · simpa [processRow, hcid, hnm] using inv
    · by_cases hproc : cid ∈ db.processed_ids
      · simpa [processRow, hcid, hnm, hproc] using inv
      · have hred : processRow db row =
            termUpdate (nameUpdate (tagUpdate (insertCourse db cid row) cid
              row.class_tag) cid row.class_name) cid (strOfTerm row.term) := by
          simp [processRow, hcid, hnm, hproc]
        rw [hred]
        exact insert_inv db row cid inv hproc

/-- The empty database satisfies the build invariant. -/
theorem empty_inv (q : List (Nat × PyFloat)) : BuildInv { q_reports := q } := by
  constructor <;> simp [dictLookup]

/-- Every database built by `process_courses` satisfies the build
invariant. -/
theorem mkDatabase_inv (rows : List Row) (q : List (Nat × PyFloat)) :
    BuildInv (mkDatabase rows q) := by
  unfold mkDatabase process_courses
  induction rows using List.reverseRecOn with
  | nil => exact empty_inv q
  | append_singleton rs r ih =>
    rw [List.foldl_append, List.foldl_cons, List.foldl_nil]
    exact processRow_inv _ r ih

/-!
## C10 — zero-valued criteria in `filter_courses` are silently dropped
-/

/-- **C10.** In `HarvardDatabase.filter_courses` a criterion whose value is
zero (falsy in Python) is treated as absent: `filter_courses` with
`max_hours = 0.0` or with `min_score = 0.0` returns the same course list
as with the corresponding argument omitted (`None`), for every database
and every combination of the other criteria. -/
theorem filter_courses_zero_threshold_ignored (db : HarvardDB) (dept : Option String)
    (level : Option Nat) (term : Option String) :
    (∀ ms : Option ℚ, filter_courses db dept level term ms (some 0) =
       filter_courses db dept level term ms none) ∧
    (∀ mh : Option ℚ, filter_courses db dept level term (some 0) mh =
       filter_courses db dept level term none mh) := by
  constructor
  · intro ms
    unfold filter_courses
    apply List.filter_congr
    intro c _
    simp [truthyRatOpt]
  · intro mh
    unfold filter_courses
    apply List.filter_congr
    intro c _
    simp [truthyRatOpt]

/-!
## C8 — `get_courses_by_level_range` is exactly the parsed-number range
-/

/-- The decade of any number in `[s, e]` is visited by the Python
`range((s // 10) * 10, ((e // 10) + 1) * 10, 10)` loop. -/
theorem decade_mem (s e n : Nat) (h1 : s ≤ n) (h2 : n ≤ e) :
    n / 10 * 10 ∈ decadeList s e := by
  have hd1 : s / 10 ≤ n / 10 := Nat.div_le_div_right h1
  have hd2 : n / 10 ≤ e / 10 := Nat.div_le_div_right h2
  simp only [decadeList]
  exact List.mem_map.mpr ⟨n / 10 - s / 10, List.mem_range.mpr (by omega), by omega⟩

/-- **C8.** On a built database, `get_courses_by_level_range dept s e`
(`s ≤ e`) contains a course exactly when it is stored in `course_dict`
with a `class_tag` that parses to department `dept` (letters uppercased)
and a number in the inclusive range `[s, e]`; with `s = e = n` this says
the course is listed iff its parsed number equals `n`. -/
theorem get_courses_by_level_range_spec (rows : List Row) (q : List (Nat × PyFloat))
    (dept : String) (s e : Nat) (hse : s ≤ e) (c : Course) :
    c ∈ get_courses_by_level_range (mkDatabase rows q) dept s e ↔
      ∃ id tg d nds, (id, c) ∈ (mkDatabase rows q).course_dict ∧
        c.class_tag = some tg ∧ findDeptNum tg.data = some (d, nds) ∧
        dept = String.mk (d.map Char.toUpper) ∧
        s ≤ digitsToNat nds ∧ digitsToNat nds ≤ e := by
  have inv := mkDatabase_inv rows q
  constructor
  · intro hc
    unfold get_courses_by_level_range at hc
    rw [mem_foldl_append] at hc
    rcases hc with h0 | ⟨lvl, _, hcf⟩
    · simp at h0
    · rcases List.mem_filterMap.mp hcf with ⟨cid, hcid, hg⟩
      rcases inv.level_fwd dept lvl cid hcid with ⟨c', tg, d, nds, hl, htg, hp, hdept, _⟩
      rw [show get_course_by_id (mkDatabase rows q) cid = some c' from hl] at hg
      simp only [htg, Option.getD_some, hp] at hg
      by_cases hr : s ≤ digitsToNat nds ∧ digitsToNat nds ≤ e
      · rw [if_pos hr] at hg
        have hcc : c' = c := by injection hg
        refine ⟨cid, tg, d, nds, ?_, ?_, hp, hdept, hr.1, hr.2⟩
        · rw [← hcc]
          exact (dictLookup_eq_some_iff inv.keys_nodup cid c').mp hl
        · rw [← hcc]
          exact htg
      · rw [if_neg hr] at hg
        simp at hg
  · rintro ⟨id, tg, d, nds, hmem, htg, hp, hdept, h1, h2⟩
    unfold get_courses_by_level_range
    rw [mem_foldl_append]
    refine Or.inr ⟨digitsToNat nds / 10 * 10, decade_mem s e _ h1 h2, ?_⟩
    refine List.mem_filterMap.mpr ⟨id, ?_, ?_⟩
    · rw [hdept]
      exact inv.level_bwd id c tg d nds hmem htg hp
    · have hl : dictLookup (mkDatabase rows q).course_dict id = some c :=
        (dictLookup_eq_some_iff inv.keys_nodup id c).mpr hmem
      rw [show get_course_by_id (mkDatabase rows q) id =
        dictLookup (mkDatabase rows q).course_dict id from rfl, hl]
      simp only [htg, Option.getD_some, hp]
      rw [if_pos ⟨h1, h2⟩]

/-!
## C2 — `get_course_by_code` is an exact dict lookup, not a normalized one
-/

/-- **C2** (counterexample).  The stored code "MATH 131" is found, but
the query "math  131" — differing only in letter case and internal
spacing — returns nothing: `get_course_by_code` performs no
normalization of its argument. -/
theorem get_course_by_code_no_normalization :
    get_course_by_code sampleDB "MATH 131" = some (Row.toCourse rowMath131 2) ∧
    get_course_by_code sampleDB "math  131" = none := by
  constructor <;> decide

/-- **C2** (amended).  `get_course_by_code` is an exact string lookup on
the build-time code index: whenever it answers a course, that course is
stored in `course_dict` and the queried string is exactly
`normCode d nds` — uppercase letters of the parsed department, one
space, the digits verbatim — for the course's parsed `class_tag`.  No
case or whitespace normalization is applied to the query. -/
theorem get_course_by_code_exact (rows : List Row) (q : List (Nat × PyFloat))
    (s : String) (c : Course)
    (h : get_course_by_code (mkDatabase rows q) s = some c) :
    ∃ id tg d nds, (id, c) ∈ (mkDatabase rows q).course_dict ∧
      c.class_tag = some tg ∧ findDeptNum tg.data = some (d, nds) ∧
      s = normCode d nds := by
  have inv := mkDatabase_inv rows q
  unfold get_course_by_code at h
  split at h
  next cid hcode =>
    by_cases hz : cid ≠ 0
    · rw [if_pos hz] at h
      have h' : dictLookup (mkDatabase rows q).course_dict cid = some c := h
      rcases inv.code_inv s cid hcode with ⟨c', tg, d, nds, hl, htg, hp, he⟩
      rw [hl] at h'
      have hcc : c' = c := by injection h'
      refine ⟨cid, tg, d, nds, ?_, ?_, hp, he⟩
      · rw [← hcc]
        exact (dictLookup_eq_some_iff inv.keys_nodup cid c').mp hl
      · rw [← hcc]
        exact htg
    · rw [if_neg hz] at h
      exact absurd h (by simp)
  next hcode => exact absurd h (by simp)

/-- Witness for C2 (amended): looking up the exact stored code
"MATH 131" on the sample table indeed lands on a stored course whose
parsed tag normalizes to the query. -/
theorem get_course_by_code_exact_witness :
    get_course_by_code sampleDB "MATH 131" = some (Row.toCourse rowMath131 2) ∧
    (∃ id tg d nds, (id, Row.toCourse rowMath131 2) ∈ sampleDB.course_dict ∧
      (Row.toCourse rowMath131 2).class_tag = some tg ∧
      findDeptNum tg.data = some (d, nds) ∧ "MATH 131" = normCode d nds) :=
  ⟨by decide,
    get_course_by_code_exact sampleRows [] "MATH 131" (Row.toCourse rowMath131 2)
      (by decide)⟩

/-!
## C3 — `get_courses_by_term` is an exact dict lookup, not a token match
-/

/-- **C3** (counterexample).  Both sample courses carry "Fall" as a
whitespace token of their stored term ("Fall 2025" and "2025 Fall"),
and each is found under its exact stored term string; yet the partial
term "Fall" returns nothing: `get_courses_by_term` does no
substring/token matching. -/
theorem get_courses_by_term_no_token_match :
    ("Fall".data ∈ pySplit "Fall 2025".data ∧
     "Fall".data ∈ pySplit "2025 Fall".data) ∧
    get_courses_by_term sampleDB "Fall 2025" = [Row.toCourse rowMath21 1] ∧
    get_courses_by_term sampleDB "2025 Fall" = [Row.toCourse rowMath131 2] ∧
    get_courses_by_term sampleDB "Fall" = [] := by
  decide

/-- **C3** (amended).  `get_courses_by_term` answers exactly the stored
courses whose `term` field equals the queried string verbatim (the
build skips empty terms): membership is equivalent to an exact,
case-sensitive, whole-string match — no token or substring matching of
partial terms. -/
theorem get_courses_by_term_exact (rows : List Row) (q : List (Nat × PyFloat))
    (t : String) (c : Course) :
    c ∈ get_courses_by_term (mkDatabase rows q) t ↔
      ∃ id, (id, c) ∈ (mkDatabase rows q).course_dict ∧
        c.term = some (.pystr t) ∧ t ≠ "" := by
  have inv := mkDatabase_inv rows q
  constructor
  · intro hc
    unfold get_courses_by_term at hc
    rcases List.mem_filterMap.mp hc with ⟨cid, hcid, hg⟩
    rcases inv.term_fwd t cid hcid with ⟨c', hl, ht, hne⟩
    simp only [dictContains, hl, Option.isSome_some, if_true] at hg
    have h' : dictLookup (mkDatabase rows q).course_dict cid = some c := hg
    rw [hl] at h'
    have hcc : c' = c := by injection h'
    exact ⟨cid, (dictLookup_eq_some_iff inv.keys_nodup cid c).mp (hcc ▸ hl), hcc ▸ ht, hne⟩
  · rintro ⟨id, hmem, ht, hne⟩
    unfold get_courses_by_term
    refine List.mem_filterMap.mpr ⟨id, inv.term_bwd id c t hmem ht hne, ?_⟩
    have hl : dictLookup (mkDatabase rows q).course_dict id = some c :=
      (dictLookup_eq_some_iff inv.keys_nodup id c).mpr hmem
    simp [dictContains, hl, get_course_by_id]

/-!
## C7 — the comparison-intent Q-report write-back mutates stored courses
-/

/-- **C7** (counterexample).  On the sample table with a Q-report entry
for course 1, a comparison query over "MATH 21" writes `mean_hours := 8`
into the stored course record: the course dictionary after the call
differs from the one before it. -/
theorem find_specific_courses_mutates_db :
    (Row.toCourse rowMath21 1).mean_hours = none ∧
    dictLookup sampleDBq.course_dict 1 = some (Row.toCourse rowMath21 1) ∧
    dictLookup (find_specific_courses sampleDBq qiCompare).2.course_dict 1 =
      some { Row.toCourse rowMath21 1 with mean_hours := some (.pyval 8) } ∧
    (find_specific_courses sampleDBq qiCompare).2.course_dict ≠
      sampleDBq.course_dict := by
  decide

/-- A non-comparison step of the specific-course loop never touches the
database component of the accumulator. -/
theorem specStep_db (qi : QueryInfo) (h : qi.intent ≠ "comparison")
    (acc : List Course × ℚ × HarvardDB) (code : String) :
    (specStep qi acc code).2.2 = acc.2.2 := by
  unfold specStep
  split
  next course hc =>
    rw [if_neg (by rintro ⟨h1, _⟩; exact h h1)]
  next hc => rfl

/-- The whole specific-course loop preserves the database for
non-comparison intents. -/
theorem foldl_specStep_db (qi : QueryInfo) (h : qi.intent ≠ "comparison") :
    ∀ (l : List String) (acc : List Course × ℚ × HarvardDB),
      (l.foldl (specStep qi) acc).2.2 = acc.2.2 := by
  intro l
  induction l with
  | nil => intro acc; rfl
  | cons x xs ih =>
    intro acc
    rw [List.foldl_cons, ih, specStep_db qi h]

/-- **C7** (amended).  Stored course records are mutated only by the
comparison-intent Q-report write-back of `_find_specific_courses`: for
every query whose intent is not "comparison", the call returns the
database unchanged. -/
theorem find_specific_courses_frame (db : HarvardDB) (qi : QueryInfo)
    (h : qi.intent ≠ "comparison") :
    (find_specific_courses db qi).2 = db := by
  unfold find_specific_courses
  dsimp only
  generalize hstep : (if qi.course_codes ≠ [] then
      qi.course_codes.foldl (specStep qi) ([], qi.confidence_scores.course_codes, db)
      else ([], 0, db)) = step1
  have hdb1 : step1.2.2 = db := by
    rw [← hstep]
    by_cases hc : qi.course_codes ≠ []
    · rw [if_pos hc]
      exact foldl_specStep_db qi h _ _
    · rw [if_neg hc]
  split
  · split
    · exact hdb1
    · exact hdb1
  · exact hdb1

/-- Witness for C7 (amended): a course-info query over the same table
leaves the database untouched. -/
theorem find_specific_courses_frame_witness :
    qiInfo.intent ≠ "comparison" ∧
    (find_specific_courses sampleDBq qiInfo).2 = sampleDBq :=
  ⟨by decide, find_specific_courses_frame sampleDBq qiInfo (by decide)⟩

/-!
## C6 — the failure modes are `([], 0.35)` for the semantic strategy,
and an uncaught `AttributeError` for the term strategy
-/

/-- **C6** (counterexample).  Two refutations of "never raises /
degrades to `([], 0.0)`".  First, `find_courses` on a table holding a
`NaN`-term course raises out of the term scan (`.lower()` on a float)
when a term is queried — the `AttributeError` reaches the caller.
Second, with the vector backend unavailable the semantic strategy on a
fresh cache returns the empty list with confidence `0.7 * 0.5 = 0.35`,
not `([], 0.0)`. -/
theorem find_courses_raises_on_nan_term :
    ((Row.toCourse rowNanTerm 4).term = some PyStr.pynan ∧
      find_courses finderInit dbNan orcFail qiTerm spEmpty = .error ()) ∧
    ((find_semantic_matches finderInit orcFail qiInfo spEmpty).1.1 = [] ∧
      (find_semantic_matches finderInit orcFail qiInfo spEmpty).1.2 = 7/20 ∧
      ((7 : ℚ)/20 ≠ 0)) := by
  refine ⟨⟨rfl, by with_unfolding_all rfl⟩, ?_, ?_, by norm_num⟩ <;>
    · simp only [find_semantic_matches, finderInit, lookupCache, vector_search, orcFail]
      norm_num

/-- A term scan over a dict that holds a `NaN`-term entry always
raises. -/
theorem termScanGo_error (t : String) :
    ∀ (l : List (Nat × Course)) (b : List Course),
      (∃ p ∈ l, p.2.term = some PyStr.pynan) → termScanGo t l b = .error () := by
  intro l
  induction l with
  | nil =>
    intro b h
    rcases h with ⟨p, hp, _⟩
    simp at hp
  | cons q rest ih =>
    intro b h
    cases hterm : q.2.term with
    | some v =>
      cases v with
      | pynan =>
        unfold termScanGo
        rw [show termCourseCheck t q.2 = .error () from by simp [termCourseCheck, hterm]]
      | pystr s =>
        rcases h with ⟨p, hp, hnanp⟩
        rcases List.mem_cons.mp hp with rfl | hp2
        · rw [hterm] at hnanp
          simp at hnanp
        · unfold termScanGo
          rw [show termCourseCheck t q.2 =
            .ok (s ≠ "" && strContains (lowerStr s) (lowerStr t)) from by
              simp [termCourseCheck, hterm]]
          exact ih _ ⟨p, hp2, hnanp⟩
    | none =>
      rcases h with ⟨p, hp, hnanp⟩
      rcases List.mem_cons.mp hp with rfl | hp2
      · rw [hterm] at hnanp
        simp at hnanp
      · unfold termScanGo
        rw [show termCourseCheck t q.2 = .ok false from by simp [termCourseCheck, hterm]]
        exact ih _ ⟨p, hp2, hnanp⟩

/-- **C6** (amended).  The semantic strategy cannot raise — on any
backend failure (`vector_search` answers `[]`, covering both missing
dependencies and a caught exception) with a cache miss it degrades to
`([], 0.7 * 0.5) = ([], 0.35)` — but the term strategy can: when a term
is queried and any stored course carries a `NaN` term, the scan calls
`.lower()` on a float and the resulting `AttributeError` propagates out
of `_find_courses_by_term` and `find_courses` uncaught (no degradation
to an empty result). -/
theorem find_courses_failure_modes (st : FinderState) (db : HarvardDB) (orc : Oracles)
    (qi : QueryInfo) (sp : StudentProfile)
    (hsem : vector_search orc (semanticQuery qi sp) 20 = [])
    (hmiss : lookupCache st.search_cache ("semantic:" ++ semanticQuery qi sp) = none)
    (hterms : qi.terms ≠ []) (hcodes : qi.course_codes = [])
    (hnan : ∃ p ∈ db.course_dict, p.2.term = some PyStr.pynan) :
    (find_semantic_matches st orc qi sp).1 = ([], 7/20) ∧
    find_courses_by_term db qi = .error () ∧
    find_courses st db orc qi sp = .error () := by
  have h1 : (find_semantic_matches st orc qi sp).1 = ([], 7/20) := by
    simp only [find_semantic_matches, hmiss, hsem]
    norm_num
  have h2 : find_courses_by_term db qi = .error () := by
    unfold find_courses_by_term
    rw [if_pos hterms]
    rcases hq : qi.terms with _ | ⟨t, ts⟩
    · exact absurd hq hterms
    · unfold termLoop
      rw [termScanGo_error t db.course_dict [] hnan]
  have hdb1 : (find_specific_courses db qi).2 = db := by
    unfold find_specific_courses
    dsimp only
    repeat' split
    all_goals try rfl
    all_goals exact absurd hcodes (by assumption)
  refine ⟨h1, h2, ?_⟩
  unfold find_courses
  dsimp only
  rw [hdb1, h2]
  rfl

/-- Witness for C6 (amended): the `NaN`-term table with a term query and
the failing oracle set. -/
theorem find_courses_failure_modes_witness :
    (vector_search orcFail (semanticQuery qiTerm spEmpty) 20 = [] ∧
     lookupCache finderInit.search_cache
       ("semantic:" ++ semanticQuery qiTerm spEmpty) = none ∧
     qiTerm.terms ≠ [] ∧ qiTerm.course_codes = [] ∧
     (∃ p ∈ dbNan.course_dict, p.2.term = some PyStr.pynan)) ∧
    ((find_semantic_matches finderInit orcFail qiTerm spEmpty).1 = ([], 7/20) ∧
     find_courses_by_term dbNan qiTerm = .error () ∧
     find_courses finderInit dbNan orcFail qiTerm spEmpty = .error ()) :=
  ⟨⟨by decide, by decide, by decide, by decide, by decide⟩,
    find_courses_failure_modes finderInit dbNan orcFail qiTerm spEmpty
      (by decide) (by decide) (by decide) (by decide) (by decide)⟩

/-!
## C4 — the ranking is capped at 10 unless the query carries an "all" signal
-/

/-- `dictUpdate` rewrites a value in place and keeps the key sequence. -/
theorem dictUpdate_keys (l : List (Nat × Course)) (k : Nat) (v : Course) :
    (dictUpdate l k v).map Prod.fst = l.map Prod.fst := by
  induction l with
  | nil => rfl
  | cons p rest ih =>
    obtain ⟨a, b⟩ := p
    by_cases h : a = k <;> simp [dictUpdate, h, ih]

/-- A key is looked up successfully exactly when it occurs in the dict. -/
theorem dictLookup_isSome_iff (l : List (Nat × Course)) (k : Nat) :
    (dictLookup l k).isSome = true ↔ k ∈ l.map Prod.fst := by
  induction l with
  | nil => simp [dictLookup]
  | cons p rest ih =>
    obtain ⟨a, b⟩ := p
    by_cases h : a = k
    · subst h
      simp [dictLookup]
    · simp [dictLookup, h, ih, Ne.symm h]

/-- Descending insertion grows the list by one. -/
theorem insertDesc_length {α : Type} (f : α → ℚ) (x : α) (l : List α) :
    (insertDesc f x l).length = l.length + 1 := by
  induction l with
  | nil => rfl
  | cons y ys ih => by_cases h : f y < f x <;> simp [insertDesc, h, ih]

/-- The stable descending sort is a permutation in particular in length. -/
theorem pySortDesc_length {α : Type} (f : α → ℚ) (l : List α) :
    (pySortDesc f l).length = l.length := by
  have h : ∀ (m : List α) (acc : List α),
      (m.foldl (fun acc x => insertDesc f x acc) acc).length = acc.length + m.length := by
    intro m
    induction m with
    | nil =>
      intro acc
      simp
    | cons y ys ih =>
      intro acc
      rw [List.foldl_cons, ih, insertDesc_length]
      simp only [List.length_cons]
      omega
  simpa using h l []

/-- The `course_ranks` loop keeps one entry per distinct `course_id`:
its keys stay distinct, they are the ids seen so far, and its length is
the number of distinct ids. -/
theorem ranks_invariant : ∀ (l : List Course) (acc : List (Nat × Course)),
    (acc.map Prod.fst).Nodup →
    ((l.foldl ranksStep acc).map Prod.fst).Nodup ∧
    ((l.foldl ranksStep acc).map Prod.fst).toFinset =
      (acc.map Prod.fst).toFinset ∪ (l.map Course.course_id).toFinset ∧
    (l.foldl ranksStep acc).length =
      ((acc.map Prod.fst).toFinset ∪ (l.map Course.course_id).toFinset).card := by
  intro l
  induction l with
  | nil =>
    intro acc hnd
    refine ⟨hnd, by simp, ?_⟩
    simp only [List.foldl_nil, List.map_nil, List.toFinset_nil, Finset.union_empty]
    rw [List.toFinset_card_of_nodup hnd, List.length_map]
  | cons c cs ih =>
    intro acc hnd
    rw [List.foldl_cons]
    by_cases hmem : dictContains acc c.course_id = true
    · have hstep : ranksStep acc c = dictUpdate acc c.course_id c := by
        simp [ranksStep, hmem]
      rw [hstep]
      have hkeys : (dictUpdate acc c.course_id c).map Prod.fst = acc.map Prod.fst :=
        dictUpdate_keys acc c.course_id c
      have hnd' : ((dictUpdate acc c.course_id c).map Prod.fst).Nodup := by
        rw [hkeys]
        exact hnd
      obtain ⟨h1, h2, h3⟩ := ih (dictUpdate acc c.course_id c) hnd'
      have hidmem : c.course_id ∈ (acc.map Prod.fst).toFinset := by
        rw [List.mem_toFinset]
        exact (dictLookup_isSome_iff acc c.course_id).mp hmem
      refine ⟨h1, ?_, ?_⟩
      · rw [h2, hkeys]
        simp only [List.map_cons, List.toFinset_cons]
        rw [Finset.union_insert, Finset.insert_eq_self.mpr (Finset.mem_union_left _ hidmem)]
      · rw [h3, hkeys]
        simp only [List.map_cons, List.toFinset_cons]
        rw [Finset.union_insert, Finset.insert_eq_self.mpr (Finset.mem_union_left _ hidmem)]
    · have hstep : ranksStep acc c = acc ++ [(c.course_id, c)] := by
        simp [ranksStep, hmem]
      rw [hstep]
      have hnotmem : c.course_id ∉ acc.map Prod.fst := fun hc =>
        hmem ((dictLookup_isSome_iff acc c.course_id).mpr hc)
      have hnd' : ((acc ++ [(c.course_id, c)]).map Prod.fst).Nodup := by
        rw [List.map_append]
        refine List.Nodup.append hnd (List.nodup_singleton _) ?_
        intro a ha hb
        simp only [List.map_cons, List.map_nil, List.mem_singleton] at hb
        subst hb
        exact hnotmem ha
      obtain ⟨h1, h2, h3⟩ := ih _ hnd'
      have hkeysF : ((acc ++ [(c.course_id, c)]).map Prod.fst).toFinset =
          insert c.course_id (acc.map Prod.fst).toFinset := by
        rw [List.map_append, List.toFinset_append]
        simp only [List.map_cons, List.map_nil, List.toFinset_cons, List.toFinset_nil]
        rw [Finset.union_comm]
        simp [Finset.insert_eq]
      refine ⟨h1, ?_, ?_⟩
      · rw [h2, hkeysF]
        simp only [List.map_cons, List.toFinset_cons]
        rw [Finset.insert_union, Finset.union_insert]
      · rw [h3, hkeysF]
        simp only [List.map_cons, List.toFinset_cons]
        rw [Finset.insert_union, Finset.union_insert]

/-- The rank dictionary has one entry per distinct seeded course id. -/
theorem buildRanks_length (l : List Course) :
    (buildRanks l).length = (l.map Course.course_id).toFinset.card := by
  have h := ranks_invariant l [] (by simp)
  simpa [buildRanks] using h.2.2

/-- **C4.**  The length of `_determine_most_relevant`'s ranking equals
the number of distinct seeded course ids when the raw query carries an
"all courses" signal (a substring among "all"/"every"/"list all"), and
is otherwise that number capped at 10.  In particular it never exceeds
10 without the signal, and with the signal there is no truncation. -/
theorem determine_most_relevant_cap (r : FindResults) (qi : QueryInfo)
    (sp : StudentProfile) :
    (determine_most_relevant r qi sp).1.length =
      if allSignal qi.original_query = true
      then (((seedBucket r).getD ([], 0)).1.map Course.course_id).toFinset.card
      else min 10 ((((seedBucket r).getD ([], 0)).1.map Course.course_id).toFinset.card) := by
  unfold determine_most_relevant
  cases hseed : seedBucket r with
  | none => simp
  | some p =>
    obtain ⟨relevant, confidence⟩ := p
    by_cases hall : allSignal qi.original_query = true
    · rw [if_pos hall]
      simp [hall, pySortDesc_length, buildRanks_length]
    · rw [if_neg hall]
      simp [hall, List.length_take, pySortDesc_length, buildRanks_length]

/-!
## C5 — inherited confidence is a flat 0.7, and confidences can exceed 1
-/

/-- **C5** (counterexample).  "recommend math courses" extracts
departments `["MATH"]` with confidence 0.9; the follow-up "what about
something easier" inherits the department with confidence exactly 0.7 —
not the penalized product `0.9 * 0.7 = 0.63`.  With a previous
confidence of 3/5 the flat 0.7 even exceeds the value it inherits from.
And "recommend econ 10" gets intent confidence 1.1, outside `[0, 1]`. -/
theorem inheritance_confidence_not_penalized :
    (process "recommend math courses" [] none id).confidence_scores.departments = 9/10 ∧
    (process "what about something easier" []
      (some (process "recommend math courses" [] none id)) id).departments = ["MATH"] ∧
    (process "what about something easier" []
      (some (process "recommend math courses" [] none id)) id).confidence_scores.departments
      = 7/10 ∧
    (7 : ℚ)/10 ≠ 9/10 * (7/10) ∧
    ((applyInheritance fuQi {} (some prevQi)).2.departments = 7/10 ∧
      prevQi.confidence_scores.departments = 3/5 ∧ ¬ ((7 : ℚ)/10 ≤ 3/5)) ∧
    (process "recommend econ 10" [] none id).confidence_scores.intent = 11/10 ∧
    ¬ ((11 : ℚ)/10 ≤ 1) := by
  refine ⟨?_, ?_, ?_, by norm_num, ⟨?_, ?_, by norm_num⟩, ?_, by norm_num⟩ <;>
    with_unfolding_all rfl

/-- **C5** (amended).  When the inheritance block fires for the
departments field (follow-up turn, no department/level/code/referenced
course extracted, previous departments nonempty), the departments are
copied forward and their confidence is set to the literal `0.7` —
independent of the previous field's confidence. -/
theorem applyInheritance_flat_departments (qi : QueryInfo) (conf : ConfScores)
    (prev : QueryInfo) (hfu : qi.is_followup = true) (hd : qi.departments = [])
    (hl : qi.course_levels = []) (hc : qi.course_codes = [])
    (hr : qi.referenced_courses = []) (hprev : prev.departments ≠ []) :
    (applyInheritance qi conf (some prev)).1.departments = prev.departments ∧
    (applyInheritance qi conf (some prev)).2.departments = 7/10 := by
  have hcond : qi.is_followup = true ∧ qi.departments = [] ∧ qi.course_levels = [] ∧
      qi.course_codes = [] ∧ qi.referenced_courses = [] := ⟨hfu, hd, hl, hc, hr⟩
  have hcond1 : qi.departments = [] ∧ prev.departments ≠ [] := ⟨hd, hprev⟩
  simp only [applyInheritance]
  unfold inheritBody
  rw [if_pos hcond, if_pos hcond1]
  dsimp only
  constructor <;>
  · repeat' split
    all_goals norm_num

/-- Witness for C5 (amended): the concrete follow-up pair. -/
theorem applyInheritance_flat_departments_witness :
    (fuQi.is_followup = true ∧ fuQi.departments = [] ∧ fuQi.course_levels = [] ∧
     fuQi.course_codes = [] ∧ fuQi.referenced_courses = [] ∧ prevQi.departments ≠ []) ∧
    (applyInheritance fuQi {} (some prevQi)).1.departments = prevQi.departments ∧
    (applyInheritance fuQi {} (some prevQi)).2.departments = 7/10 :=
  ⟨⟨rfl, rfl, rfl, rfl, rfl, by decide⟩,
    applyInheritance_flat_departments fuQi {} prevQi rfl rfl rfl rfl rfl (by decide)⟩

/-!
## C9 — `process` depends on the interpreter's set-iteration order
-/

/-- **C9** (counterexample).  `QueryProcessor.process` runs
`list(set(course_codes))`, so the order of the returned `course_codes`
depends on CPython's set-iteration order — interpreter state hidden from
the `(query, chat_history, last_query_info)` triple.  Two admissible
orders give two different outputs for the same triple. -/
theorem process_set_order_dependent :
    (process "compare MATH 21 and CS 50" [] none id).course_codes =
      ["MATH 21", "CS 50"] ∧
    (process "compare MATH 21 and CS 50" [] none List.reverse).course_codes =
      ["CS 50", "MATH 21"] ∧
    process "compare MATH 21 and CS 50" [] none id ≠
      process "compare MATH 21 and CS 50" [] none List.reverse := by
  have h1 : (process "compare MATH 21 and CS 50" [] none id).course_codes =
      ["MATH 21", "CS 50"] := by with_unfolding_all rfl
  have h2 : (process "compare MATH 21 and CS 50" [] none List.reverse).course_codes =
      ["CS 50", "MATH 21"] := by with_unfolding_all rfl
  refine ⟨h1, h2, fun h => ?_⟩
  have h3 := congrArg QueryInfo.course_codes h
  rw [h1, h2] at h3
  exact absurd h3 (by decide)

/-- **C9** (amended).  `process` is deterministic once the
set-iteration order is fixed alongside the triple: two runs on the same
`(query, chat_history, last_query_info)` whose set orders arrange the
one extracted code list identically produce identical query infos.  The
only hidden input is that set order. -/
theorem process_deterministic_given_set_order (query : String)
    (chat_history : List ChatMsg) (last : Option QueryInfo)
    (ord1 ord2 : List String → List String)
    (h : ord1 (rawCourseCodes query (lowerStr query).data).1 =
         ord2 (rawCourseCodes query (lowerStr query).data).1) :
    process query chat_history last ord1 = process query chat_history last ord2 := by
  have hcc : extract_course_codes query (lowerStr query).data ord1 =
      extract_course_codes query (lowerStr query).data ord2 := by
    unfold extract_course_codes
    rw [h]
  unfold process
  dsimp only
  rw [hcc]

/-- Witness for C9 (amended): `id` and `List.dedup` arrange the
two-element distinct code list identically, so the two runs agree. -/
theorem process_deterministic_given_set_order_witness :
    (id (rawCourseCodes "compare MATH 21 and CS 50"
        (lowerStr "compare MATH 21 and CS 50").data).1 =
      List.dedup (rawCourseCodes "compare MATH 21 and CS 50"
        (lowerStr "compare MATH 21 and CS 50").data).1) ∧
    process "compare MATH 21 and CS 50" [] none id =
      process "compare MATH 21 and CS 50" [] none List.dedup :=
  ⟨by decide,
    process_deterministic_given_set_order "compare MATH 21 and CS 50" [] none
      id List.dedup (by decide)⟩

/-!
## C1 — recommendations can include already-taken courses
-/

/-- **C1** (counterexample).  Two failure modes of the taken-course
exclusion.  First, the cache: the cache key encodes only the *count* of
taken courses, so after a profile that took MATH 131 populates the
cache, a different profile that took MATH 21 (same count) is served the
cached list — which recommends MATH 21, a course whose normalized code
equals a normalized entry of that profile's `courses_taken`.  Second,
normalization: the exclusion compares the *raw* stored `class_tag`
against the normalized taken codes, so a course stored as "math  131"
is recommended on a fresh cache to the profile that took "MATH 131",
although the repo's own normalizer maps that tag to exactly
"MATH 131". -/
theorem get_recommendations_taken_violations :
    (extract_taken_course_codes profTookM21 = ["MATH 21"] ∧
     (get_recommendations
        (get_recommendations recInit sampleDB orcFail qiRec profTookM131).2
        sampleDB orcFail qiRec profTookM21).1.recommended_courses
       = [Row.toCourse rowMath21 1] ∧
     (Row.toCourse rowMath21 1).class_tag = some "MATH 21") ∧
    (extract_taken_course_codes profTookM131 = ["MATH 131"] ∧
     extract_taken_course_codes { courses_taken := ["math  131"] } = ["MATH 131"] ∧
     (get_recommendations recInit oddDB orcFail qiRec profTookM131).1.recommended_courses
       = [Row.toCourse rowOdd 3] ∧
     (Row.toCourse rowOdd 3).class_tag = some "math  131") := by
  refine ⟨⟨by decide, ?_, rfl⟩, ⟨by decide, by decide, ?_, rfl⟩⟩ <;> with_unfolding_all rfl

/-- Descending insertion inserts exactly the new element. -/
theorem insertDesc_mem {α : Type} (f : α → ℚ) (x y : α) (l : List α) :
    y ∈ insertDesc f x l ↔ y = x ∨ y ∈ l := by
  induction l with
  | nil => simp [insertDesc]
  | cons z zs ih =>
    by_cases h : f z < f x
    · simp [insertDesc, h]
    · simp only [insertDesc, if_neg h, List.mem_cons, ih, List.mem_cons]
      tauto

/-- The stable descending sort permutes, in particular preserves
membership. -/
theorem pySortDesc_mem {α : Type} (f : α → ℚ) (l : List α) (y : α) :
    y ∈ pySortDesc f l ↔ y ∈ l := by
  have h : ∀ (m acc : List α),
      y ∈ m.foldl (fun acc x => insertDesc f x acc) acc ↔ y ∈ acc ∨ y ∈ m := by
    intro m
    induction m with
    | nil =>
      intro acc
      simp
    | cons z zs ih =>
      intro acc
      rw [List.foldl_cons, ih, insertDesc_mem]
      simp only [List.mem_cons]
      tauto
  simpa [pySortDesc] using h l []

/-- Every pair accumulated by the ranking loop carries an input course. -/
theorem rankFold_mem (qi : QueryInfo) (sp : StudentProfile) :
    ∀ (l : List Course) (acc : List (Course × ℚ) × ℚ) (p : Course × ℚ),
      p ∈ (l.foldl (rankStep qi sp) acc).1 → p ∈ acc.1 ∨ p.1 ∈ l := by
  intro l
  induction l with
  | nil =>
    intro acc p h
    exact Or.inl h
  | cons c cs ih =>
    intro acc p h
    rw [List.foldl_cons] at h
    rcases ih _ p h with h1 | h1
    · unfold rankStep at h1
      split at h1
      · exact Or.inl h1
      · dsimp only at h1
        rcases List.mem_append.mp h1 with h2 | h2
        · exact Or.inl h2
        · simp only [List.mem_singleton] at h2
          subst h2
          exact Or.inr (by simp)
    · exact Or.inr (List.mem_cons_of_mem _ h1)

/-- `_rank_courses` returns a permutation of (the id-truthy part of) its
input: every ranked course is an input course. -/
theorem rank_courses_subset (qi : QueryInfo) (sp : StudentProfile)
    (courses : List Course) (c : Course)
    (hc : c ∈ (rank_courses qi sp courses).1) : c ∈ courses := by
  unfold rank_courses at hc
  split at hc
  · simp at hc
  · dsimp only at hc
    rcases List.mem_map.mp hc with ⟨p, hp, hpc⟩
    rw [pySortDesc_mem] at hp
    rcases rankFold_mem qi sp courses _ p hp with h1 | h1
    · simp at h1
    · rw [← hpc]
      exact h1

/-- The already-taken filter of `recommendBody` really governs its
output: a recommended course with a `class_tag` never carries a tag that
is (verbatim) among the normalized taken codes. -/
theorem recommendBody_taken (state : RecState) (db : HarvardDB) (orc : Oracles)
    (qi : QueryInfo) (sp : StudentProfile) (candidates : List Course) (e : List String)
    (key : String) (c : Course) (t : String)
    (hc : c ∈ (recommendBody state db orc qi sp candidates e key).1.recommended_courses)
    (ht : c.class_tag = some t) :
    t ∉ extract_taken_course_codes sp := by
  unfold recommendBody at hc
  dsimp only at hc
  split at hc
  · simp at hc
  · dsimp only at hc
    have h1 : c ∈ (rank_courses qi sp _).1 := List.mem_of_mem_take hc
    have h2 := rank_courses_subset qi sp _ c h1
    have h3 := List.of_mem_filter h2
    simp only [ht] at h3
    simpa using h3

/-- **C1** (amended).  On a fresh (empty) recommendation cache, the
taken-course exclusion holds for the stored tags verbatim: every course
in `recommended_courses` either has no `class_tag`, or its raw
`class_tag` string is not among the normalized entries of
`profile.courses_taken`.  (The comparison is not normalized on the
course side, and cache hits replay whatever profile primed the key —
see the counterexample.) -/
theorem get_recommendations_taken_filter (state : RecState) (db : HarvardDB)
    (orc : Oracles) (qi : QueryInfo) (sp : StudentProfile)
    (hcache : state.recommendation_cache = []) (c : Course) (t : String)
    (hc : c ∈ (get_recommendations state db orc qi sp).1.recommended_courses)
    (ht : c.class_tag = some t) :
    t ∉ extract_taken_course_codes sp := by
  unfold get_recommendations at hc
  split at hc
  · simp at hc
  · dsimp only at hc
    rw [hcache] at hc
    simp only [lookupRecCache] at hc
    split at hc
    · split at hc
      · exact recommendBody_taken _ _ _ _ _ _ _ _ c t hc ht
      · simp at hc
    · exact recommendBody_taken _ _ _ _ _ _ _ _ c t hc ht

/-- Witness for C1 (amended): the fresh-cache call that recommends
MATH 21 to the profile that took MATH 131. -/
theorem get_recommendations_taken_filter_witness :
    recInit.recommendation_cache = [] ∧
    Row.toCourse rowMath21 1 ∈
      (get_recommendations recInit sampleDB orcFail qiRec profTookM131).1.recommended_courses ∧
    (Row.toCourse rowMath21 1).class_tag = some "MATH 21" ∧
    "MATH 21" ∉ extract_taken_course_codes profTookM131 := by
  have hlist : (get_recommendations recInit sampleDB orcFail qiRec
      profTookM131).1.recommended_courses = [Row.toCourse rowMath21 1] := by
    with_unfolding_all rfl
  have hmem : Row.toCourse rowMath21 1 ∈
      (get_recommendations recInit sampleDB orcFail qiRec
        profTookM131).1.recommended_courses := by
    rw [hlist]
    exact List.mem_singleton.mpr rfl
  exact ⟨rfl, hmem, rfl,
    get_recommendations_taken_filter recInit sampleDB orcFail qiRec profTookM131 rfl
      (Row.toCourse rowMath21 1) "MATH 21" hmem rfl⟩

/-- Witness for C8: on the two-course sample table, `MATH 21` is listed
by the singleton range `[21, 21]`. -/
theorem get_courses_by_level_range_spec_witness :
    (21 ≤ 21) ∧
    Row.toCourse rowMath21 1 ∈ get_courses_by_level_range sampleDB "MATH" 21 21 :=
  ⟨by decide,
    (get_courses_by_level_range_spec sampleRows [] "MATH" 21 21 (by decide)
        (Row.toCourse rowMath21 1)).mpr
      ⟨1, "MATH 21", ['M', 'A', 'T', 'H'], ['2', '1'], by decide, rfl, by decide, by decide,
        by decide, by decide⟩⟩

end ChatHarvard
